import Mathlib

/-!
Tool handlers of the MCP server

A shallow embedding of the tool handlers registered in
`src/app/mcp/message/route.ts` (base path `/mcp`) and
`src/app/mcp/github issues/route.ts` (base path `/mcp/github-issues`).

* JavaScript values are the JSON data model plus `undefined`; the numbers of
  JSON data are integers (issue numbers, status codes, document offsets), and
  the `days` argument is a `JsNumber`, which may be fractional or infinite.
* A handler is a function from the process environment, the behaviour of the
  outside world (HTTP upstreams, the Google client library, the clock) and the
  tool arguments to the list of upstream calls it issued and the `ToolResult`
  it returned.
* Code inside a `try` block runs in `Eff`, which records the calls issued and
  stops at the first thrown value; the `catch` clause turns that value into an
  error result.
-/

namespace McpServer

/-! ## JavaScript values -/

/-- JavaScript values handled by the tool handlers: JSON values and `undefined`. -/
inductive JsVal where
  | undefined
  | null
  | bool (b : Bool)
  | num (n : Int)
  | str (s : String)
  | arr (xs : List JsVal)
  | obj (kvs : List (String × JsVal))

/-- A value thrown inside a handler: an `Error` instance with its message, the
value `null` or `undefined`, or any other value, given by what `String(value)`
returns for it. -/
inductive Thrown where
  | error (message : String)
  | nullish (isNull : Bool)
  | other (rendering : String)
  deriving DecidableEq, Repr

deriving instance DecidableEq for Except

/-- The expression `error instanceof Error ? error.message : String(error)`. -/
def Thrown.describe : Thrown → String
  | .error message => message
  | .nullish isNull => if isNull then "null" else "undefined"
  | .other rendering => rendering

/-- A `TypeError` raised by the runtime, with the engine's message. -/
def typeError (message : String) : Thrown := .error message

/-- The call `xs.map(f)` on an array, with a callback that may throw. -/
def mapThrowing {α β : Type} (f : α → Except Thrown β) : List α → Except Thrown (List β)
  | [] => .ok []
  | x :: xs =>
      match f x with
      | .error e => .error e
      | .ok y =>
          match mapThrowing f xs with
          | .error e => .error e
          | .ok ys => .ok (y :: ys)

/-- The call `xs.filter(p)` on an array, with a callback that may throw. -/
def filterThrowing {α : Type} (p : α → Except Thrown Bool) : List α → Except Thrown (List α)
  | [] => .ok []
  | x :: xs =>
      match p x with
      | .error e => .error e
      | .ok keep =>
          match filterThrowing p xs with
          | .error e => .error e
          | .ok ys => .ok (if keep then x :: ys else ys)

namespace JsVal

/-- The truthiness of a value (`!!v`). -/
def truthy : JsVal → Bool
  | undefined => false
  | null => false
  | bool b => b
  | num n => n != 0
  | str s => s != ""
  | arr _ => true
  | obj _ => true

/-- Own-property lookup in an object's member list. -/
def lookup (k : String) : List (String × JsVal) → Option JsVal
  | [] => none
  | (k', v) :: rest => if k' = k then some v else lookup k rest

mutual
/-- The string conversion `String(v)`, as used by template literals. -/
def toJsString : JsVal → String
  | undefined => "undefined"
  | null => "null"
  | bool b => if b then "true" else "false"
  | num n => toString n
  | str s => s
  | arr xs => String.intercalate "," (joinParts xs)
  | obj _ => "[object Object]"
/-- The element renderings `Array.prototype.join` puts between separators:
`undefined` and `null` render as the empty string. -/
def joinParts : List JsVal → List String
  | [] => []
  | undefined :: rest => "" :: joinParts rest
  | null :: rest => "" :: joinParts rest
  | v :: rest => toJsString v :: joinParts rest
end

/-- The call `xs.join(sep)` on an array. -/
def join (xs : List JsVal) (sep : String) : String :=
  String.intercalate sep (joinParts xs)

/-- The name the engine uses for `undefined` and `null` in its messages. -/
def nullishName : JsVal → String
  | null => "null"
  | _ => "undefined"

/-- Property read `v.k` for a data property `k`. Reading from `undefined` or
`null` throws; arrays and strings have `length`; anything else that lacks the
key gives `undefined`. -/
def getProp (v : JsVal) (k : String) : Except Thrown JsVal :=
  match v with
  | undefined | null =>
      .error (typeError ("Cannot read properties of " ++ nullishName v ++
        " (reading \x27" ++ k ++ "\x27)"))
  | obj kvs => .ok ((lookup k kvs).getD undefined)
  | arr xs => .ok (if k = "length" then num xs.length else undefined)
  | str s => .ok (if k = "length" then num s.length else undefined)
  | _ => .ok undefined

/-- The test `k in v` for an own data property `k`: throws on a primitive. -/
def hasKey (k : String) (v : JsVal) : Except Thrown Bool :=
  match v with
  | obj kvs => .ok (lookup k kvs).isSome
  | arr _ => .ok (k == "length")
  | _ =>
      .error (typeError ("Cannot use \x27in\x27 operator to search for \x27" ++ k ++
        "\x27 in " ++ toJsString v))

/-- The call `v.map(f)`, where `expr` is the source text of `v`. -/
def callMap (v : JsVal) (expr : String) (f : JsVal → Except Thrown JsVal) :
    Except Thrown (List JsVal) :=
  match v with
  | arr xs => mapThrowing f xs
  | undefined | null =>
      .error (typeError ("Cannot read properties of " ++ nullishName v ++
        " (reading \x27map\x27)"))
  | _ => .error (typeError (expr ++ ".map is not a function"))

/-- The call `v.filter(p)`, where `expr` is the source text of `v`. -/
def callFilter (v : JsVal) (expr : String) (p : JsVal → Except Thrown Bool) :
    Except Thrown (List JsVal) :=
  match v with
  | arr xs => filterThrowing p xs
  | undefined | null =>
      .error (typeError ("Cannot read properties of " ++ nullishName v ++
        " (reading \x27filter\x27)"))
  | _ => .error (typeError (expr ++ ".filter is not a function"))

end JsVal

/-! ## `JSON.stringify` -/

namespace JSON

/-- Four lower-case hexadecimal digits of a code unit below `0x10000`. -/
def hex4 (n : Nat) : String :=
  let ds := Nat.toDigits 16 n
  String.mk (List.replicate (4 - ds.length) '0' ++ ds)

/-- The escape of one character inside a JSON string literal. -/
def escapeChar (c : Char) : String :=
  if c.toNat = 34 then String.mk [Char.ofNat 92, Char.ofNat 34]
  else if c.toNat = 92 then String.mk [Char.ofNat 92, Char.ofNat 92]
  else if c.toNat = 8 then String.mk [Char.ofNat 92, 'b']
  else if c.toNat = 12 then String.mk [Char.ofNat 92, 'f']
  else if c.toNat = 10 then String.mk [Char.ofNat 92, 'n']
  else if c.toNat = 13 then String.mk [Char.ofNat 92, 'r']
  else if c.toNat = 9 then String.mk [Char.ofNat 92, 't']
  else if c.toNat < 32 then String.mk [Char.ofNat 92, 'u'] ++ hex4 c.toNat
  else String.singleton c

/-- The operation `QuoteJSONString`. -/
def quote (s : String) : String :=
  "\"" ++ String.join (s.data.map escapeChar) ++ "\""

/-- Wrap the serialised members of an object or array in its brackets. -/
def wrap (opening closing : String) (parts : List String) (gap indent : String) : String :=
  if parts.isEmpty then opening ++ closing
  else if gap = "" then opening ++ String.intercalate "," parts ++ closing
  else
    opening ++ "\n" ++ (indent ++ gap) ++
      String.intercalate (",\n" ++ (indent ++ gap)) parts ++ "\n" ++ indent ++ closing

mutual
/-- The operation `SerializeJSONProperty`: `none` stands for `undefined`. -/
def serialize (v : JsVal) (gap indent : String) : Option String :=
  match v with
  | .undefined => none
  | .null => some "null"
  | .bool b => some (if b then "true" else "false")
  | .num n => some (toString n)
  | .str s => some (quote s)
  | .arr xs => some (wrap "[" "]" (elements xs gap (indent ++ gap)) gap indent)
  | .obj kvs => some (wrap "\x7b" "\x7d" (members kvs gap (indent ++ gap)) gap indent)
/-- The serialised elements of an array: `undefined` becomes `null`. -/
def elements (xs : List JsVal) (gap indent : String) : List String :=
  match xs with
  | [] => []
  | x :: rest => (serialize x gap indent).getD "null" :: elements rest gap indent
/-- The serialised members of an object: members whose value is `undefined`
are left out. -/
def members (kvs : List (String × JsVal)) (gap indent : String) : List String :=
  match kvs with
  | [] => []
  | (k, v) :: rest =>
      match serialize v gap indent with
      | none => members rest gap indent
      | some s =>
          (quote k ++ ":" ++ (if gap = "" then "" else " ") ++ s) :: members rest gap indent
end

/-- The gap string of `JSON.stringify(value, null, space)` for a numeric
`space`; `0` stands for a call without that argument. -/
def gapOf (space : Nat) : String := String.mk (List.replicate (min space 10) ' ')

/-- The call `JSON.stringify(value, null, space)`; `none` stands for `undefined`. -/
def stringify (v : JsVal) (space : Nat) : Option String :=
  serialize v (gapOf space) ""

/-- The string `JSON.stringify` returns for an object literal. -/
def stringifyObject (kvs : List (String × JsVal)) (space : Nat) : String :=
  wrap "\x7b" "\x7d" (members kvs (gapOf space) (gapOf space)) (gapOf space) ""

/-- The string `JSON.stringify` returns for an array. -/
def stringifyArray (xs : List JsVal) (space : Nat) : String :=
  wrap "[" "]" (elements xs (gapOf space) (gapOf space)) (gapOf space) ""

end JSON

/-! ## Results, requests and the outside world -/

/-- One block of a result's `content`. -/
structure ContentBlock where
  type : String
  text : String
  deriving DecidableEq, Repr

/-- The value a tool handler returns; `isError` is absent on the success paths. -/
structure ToolResult where
  content : List ContentBlock
  isError : Option Bool
  deriving DecidableEq, Repr

/-- The literal `{ content: [{ type: "text", text }] }`. -/
def textResult (text : String) : ToolResult :=
  { content := [{ type := "text", text := text }], isError := none }

/-- The literal `{ content: [{ type: "text", text }], isError: true }`. -/
def errorResult (text : String) : ToolResult :=
  { content := [{ type := "text", text := text }], isError := some true }

/-- The settings read from `process.env`; `none` is `undefined`. -/
structure Env where
  GITHUB_TOKEN : Option String
  OURA_API_TOKEN : Option String
  GOOGLE_CLIENT_ID : Option String
  GOOGLE_CLIENT_SECRET : Option String
  GOOGLE_REFRESH_TOKEN : Option String
  GOOGLE_DRIVE_FOLDER_ID : Option String
  deriving DecidableEq, Repr

/-- The test `!value` on a setting: `undefined` and the empty string are falsy. -/
def falsy : Option String → Bool
  | none => true
  | some s => s == ""

/-- A setting inside a template literal. -/
def envString : Option String → String
  | none => "undefined"
  | some s => s

/-- The arguments of one `fetch` call. -/
structure HttpRequest where
  method : String
  url : String
  headers : List (String × String)
  body : Option String
  deriving DecidableEq, Repr

/-- What the handlers use of a `fetch` response: the status, and what
`response.text()` and `response.json()` produce or throw. -/
structure Response where
  status : Nat
  text : Except Thrown String
  json : Except Thrown JsVal

/-- The getter `response.ok`: the status is in the range 200 to 299. -/
def Response.ok (r : Response) : Bool := decide (200 ≤ r.status) && decide (r.status ≤ 299)

/-- The client built by `new google.auth.OAuth2(id, secret, redirect)` followed by
`setCredentials({ refresh_token })`. -/
structure OAuth2Client where
  clientId : String
  clientSecret : String
  redirectUri : String
  refresh_token : String
  deriving DecidableEq, Repr

/-- The argument of `drive.files.create`. -/
structure FilesCreateParams where
  name : String
  mimeType : String
  parents : Option (List String)
  fields : String
  supportsAllDrives : Bool
  supportsTeamDrives : Bool
  deriving DecidableEq, Repr

/-- One `insertText` request of a `documents.batchUpdate` call. -/
structure InsertText where
  index : Int
  text : String
  deriving DecidableEq, Repr

/-- The `data` of a `drive.files.create` response (`Schema$File`). -/
structure FileResource where
  id : Option String
  deriving DecidableEq, Repr

/-- A structural element of a document body (`Schema$StructuralElement`). -/
structure StructuralElement where
  endIndex : Option Int
  deriving DecidableEq, Repr

/-- The body of a document (`Schema$Body`). -/
structure Body where
  content : Option (List StructuralElement)
  deriving DecidableEq, Repr

/-- The `data` of a `docs.documents.get` response (`Schema$Document`). -/
structure Document where
  body : Option Body
  deriving DecidableEq, Repr

/-- An upstream call issued by a handler. -/
inductive Call where
  | fetch (req : HttpRequest)
  | filesCreate (auth : OAuth2Client) (params : FilesCreateParams)
  | documentsGet (auth : OAuth2Client) (documentId : String)
  | documentsBatchUpdate (auth : OAuth2Client) (documentId : String)
      (requests : List InsertText)
  deriving DecidableEq, Repr

/-- The behaviour of everything outside the process during one invocation:
what each upstream call answers or throws, the time values the two
`new Date()` expressions read, and the offset of local time from UTC in
milliseconds (`LocalTZA(t, isUTC)` of ECMAScript), which may change with the
time `t`, given as a UTC time value when `isUTC` holds and as a local one
otherwise. -/
structure World where
  fetch : HttpRequest → Except Thrown Response
  filesCreate : OAuth2Client → FilesCreateParams → Except Thrown FileResource
  documentsGet : OAuth2Client → String → Except Thrown Document
  documentsBatchUpdate : OAuth2Client → String → List InsertText → Except Thrown Unit
  clockFirst : Int
  clockSecond : Int
  localTZA : Int → Bool → Int

/-! ## Effects inside a `try` block -/

/-- A computation inside a `try` block: the upstream calls issued so far and
either a value or the thrown value that ended it. -/
structure Eff (α : Type) where
  calls : List Call
  out : Except Thrown α

/-- Sequencing: a thrown value ends the computation, keeping the calls made. -/
def Eff.bind {α β : Type} (m : Eff α) (f : α → Eff β) : Eff β :=
  match m.out with
  | .ok a => ⟨m.calls ++ (f a).calls, (f a).out⟩
  | .error e => ⟨m.calls, .error e⟩

instance : Monad Eff where
  pure a := ⟨[], .ok a⟩
  bind := Eff.bind

/-- An awaited upstream call with its outcome. -/
def Eff.call {α : Type} (c : Call) (out : Except Thrown α) : Eff α := ⟨[c], out⟩

/-- A step that issues no call. -/
def Eff.lift {α : Type} (x : Except Thrown α) : Eff α := ⟨[], x⟩

instance : MonadLift (Except Thrown) Eff where
  monadLift := Eff.lift

/-- What a handler did: the upstream calls it issued, in order, and its result. -/
structure Outcome where
  calls : List Call
  result : ToolResult
  deriving DecidableEq, Repr

/-- The statement `try { body } catch (error) { return errorResult(lead + message) }`. -/
def tryCatch (body : Eff ToolResult) (lead : String) : Outcome :=
  match body.out with
  | .ok r => ⟨body.calls, r⟩
  | .error e => ⟨body.calls, errorResult (lead ++ e.describe)⟩

/-! ## Dates

Time values are milliseconds since the epoch, as in ECMAScript. Local time is
UTC shifted by the offset `LocalTZA`, which may change with the time, as it
does where daylight saving time is observed. -/

/-- A number that the schema `z.number()` accepts (`NaN` is rejected): an
integer; a finite value that is not an integer, given by the integer below it
and by the text the runtime renders it with; or an infinity. -/
inductive JsNumber where
  | int (n : Int)
  | fraction (floor : Int) (text : String)
  | infinity (negative : Bool)
  deriving DecidableEq, Repr

instance : OfNat JsNumber n := ⟨.int n⟩

/-- The number inside a template literal. -/
def JsNumber.toJsString : JsNumber → String
  | .int n => toString n
  | .fraction _ text => text
  | .infinity negative => if negative then "-Infinity" else "Infinity"

/-- The call `Math.min(value, bound)` for an integer `bound`. -/
def Math.min (value : JsNumber) (bound : Int) : JsNumber :=
  match value with
  | .int n => .int (if n ≤ bound then n else bound)
  | .fraction floor text => if floor < bound then .fraction floor text else .int bound
  | .infinity negative => if negative then .infinity true else .int bound

/-- The operation `ToIntegerOrInfinity` on the difference `g - value` of an
integer `g` and a number, as `setDate` applies it to its argument: a
difference that is not an integer is truncated towards zero, and `none` stands
for a difference that is not finite. -/
def integerOfDifference (g : Int) (value : JsNumber) : Option Int :=
  match value with
  | .int n => some (g - n)
  | .fraction floor _ => some (if 0 ≤ g - floor - 1 then g - floor - 1 else g - floor)
  | .infinity _ => none

/-- Milliseconds in a day. -/
def msPerDay : Int := 86400000

/-- The day number of a time value (`Day(t)`). -/
def Day (t : Int) : Int := t / msPerDay

/-- The milliseconds since the start of the day (`TimeWithinDay(t)`). -/
def TimeWithinDay (t : Int) : Int := t % msPerDay

/-- Year, month (1 to 12) and day of the month of a day number in the
proleptic Gregorian calendar. -/
def civilFromDays (z : Int) : Int × Int × Int :=
  let z := z + 719468
  let era := z / 146097
  let doe := z - era * 146097
  let yoe := (doe - doe / 1460 + doe / 36524 - doe / 146096) / 365
  let doy := doe - (365 * yoe + yoe / 4 - yoe / 100)
  let mp := (5 * doy + 2) / 153
  let d := doy - (153 * mp + 2) / 5 + 1
  let m := if mp < 10 then mp + 3 else mp - 9
  let y := yoe + era * 400
  (if m ≤ 2 then y + 1 else y, m, d)

/-- The day number of a year, month and day of the month. -/
def daysFromCivil (y m d : Int) : Int :=
  let y := if m ≤ 2 then y - 1 else y
  let era := y / 400
  let yoe := y - era * 400
  let doy := (153 * (if m > 2 then m - 3 else m + 9) + 2) / 5 + d - 1
  let doe := yoe * 365 + yoe / 4 - yoe / 100 + doy
  era * 146097 + doe - 719468

/-- The day number of the first day of the month that contains day `z`. -/
def monthStartDay (z : Int) : Int :=
  let ymd := civilFromDays z
  daysFromCivil ymd.1 ymd.2.1 1

/-- The operation `TimeClip`: `none` is the invalid date. -/
def timeClip (t : Int) : Option Int :=
  if t.natAbs ≤ 8640000000000000 then some t else none

/-- The operation `LocalTime(t)`: the local time value of a UTC time value. -/
def LocalTime (localTZA : Int → Bool → Int) (t : Int) : Int := t + localTZA t true

/-- The operation `UTC(t)`: the UTC time value of a local time value. -/
def UTC (localTZA : Int → Bool → Int) (t : Int) : Int := t - localTZA t false

/-- The call `date.getDate()`: the day of the month in local time. -/
def getDate (localTZA : Int → Bool → Int) (t : Int) : Int :=
  Day (LocalTime localTZA t) - monthStartDay (Day (LocalTime localTZA t)) + 1

/-- The call `date.setDate(dt)`, where `dt` is the argument after
`ToIntegerOrInfinity`: the same local month and local time of day, with day of
the month `dt`, which may lie outside the month, converted back to UTC; the
date is invalid when the argument is not finite. -/
def setDate (localTZA : Int → Bool → Int) (t : Int) (dt : Option Int) : Option Int :=
  match dt with
  | none => none
  | some dt =>
      timeClip (UTC localTZA
        ((monthStartDay (Day (LocalTime localTZA t)) + dt - 1) * msPerDay +
          TimeWithinDay (LocalTime localTZA t)))

/-- A natural number in decimal, padded with zeros to `width` digits. -/
def padZero (width n : Nat) : String :=
  let ds := Nat.toDigits 10 n
  String.mk (List.replicate (width - ds.length) '0' ++ ds)

/-- The local function `formatDate`: `date.toISOString().split("T")[0]`, the
UTC calendar date; `toISOString` throws a `RangeError` on the invalid date. -/
def formatDate (date : Option Int) : Except Thrown String :=
  match date with
  | none => .error (.error "Invalid time value")
  | some t =>
      let ymd := civilFromDays (Day t)
      let year :=
        if 0 ≤ ymd.1 ∧ ymd.1 ≤ 9999 then padZero 4 ymd.1.natAbs
        else (if ymd.1 < 0 then "-" else "+") ++ padZero 6 ymd.1.natAbs
      .ok (year ++ "-" ++ padZero 2 ymd.2.1.natAbs ++ "-" ++ padZero 2 ymd.2.2.natAbs)

/-! ## The handlers registered at `/mcp` (`src/app/mcp/message/route.ts`) -/

namespace MessageRoute

/-- The handler of the `echo` tool. -/
def echo (message : String) : Outcome :=
  ⟨[], textResult ("Tool echo: " ++ message)⟩

/-- The request `list_github_issues` sends. -/
def listIssuesRequest (token : Option String) (owner repo : String) : HttpRequest :=
  { method := "GET"
    url := "https://api.github.com/repos/" ++ owner ++ "/" ++ repo ++
      "/issues?state=open&per_page=100"
    headers := [("Authorization", "Bearer " ++ envString token),
      ("Accept", "application/vnd.github+json"),
      ("X-GitHub-Api-Version", "2022-11-28")]
    body := none }

/-- The filter callback `(issue) => !issue.pull_request`. -/
def notPullRequest (issue : JsVal) : Except Thrown Bool := do
  let pr ← issue.getProp "pull_request"
  pure (!pr.truthy)

/-- The map callback that formats one issue. -/
def formatIssue (issue : JsVal) : Except Thrown JsVal := do
  let number ← issue.getProp "number"
  let title ← issue.getProp "title"
  let state ← issue.getProp "state"
  let labels ← (← issue.getProp "labels").callMap "issue.labels"
    (fun label => label.getProp "name")
  let assignees ← (← issue.getProp "assignees").callMap "issue.assignees"
    (fun assignee => assignee.getProp "login")
  let url ← issue.getProp "html_url"
  pure (.obj [("number", number), ("title", title), ("state", state),
    ("labels", .arr labels), ("assignees", .arr assignees), ("url", url)])

/-- The `try` block of `list_github_issues`. -/
def list_github_issues_try (token : Option String) (w : World) (owner repo : String) :
    Eff ToolResult := do
  let response ← Eff.call (.fetch (listIssuesRequest token owner repo))
    (w.fetch (listIssuesRequest token owner repo))
  if !response.ok then
    let error ← response.text
    pure (errorResult ("GitHub API Error (" ++ toString response.status ++ "): " ++ error))
  else
    let issues ← response.json
    let actualIssues ← issues.callFilter "issues" notPullRequest
    if actualIssues.length = 0 then
      pure (textResult ("No open issues found in " ++ owner ++ "/" ++ repo))
    else
      let formattedIssues ← mapThrowing formatIssue actualIssues
      pure (textResult (JSON.stringifyArray formattedIssues 2))

/-- The handler of `list_github_issues`. -/
def list_github_issues (env : Env) (w : World) (owner repo : String) : Outcome :=
  let token := env.GITHUB_TOKEN
  if falsy token then
    ⟨[], errorResult "Error: GITHUB_TOKEN not configured in environment variables"⟩
  else
    tryCatch (list_github_issues_try token w owner repo) "Error fetching issues: "

/-- The request `get_oura_stress_recovery` sends for a formatted date range. -/
def ouraRequest (token : Option String) (startText endText : String) : HttpRequest :=
  { method := "GET"
    url := "https://api.ouraring.com/v2/usercollection/daily_stress?start_date=" ++
      startText ++ "&end_date=" ++ endText
    headers := [("Authorization", "Bearer " ++ envString token)]
    body := none }

/-- The map callback that formats one entry of the stress data. -/
def formatEntry (entry : JsVal) : Except Thrown JsVal := do
  let day ← entry.getProp "day"
  let stress_high ← entry.getProp "stress_high"
  let recovery_high ← entry.getProp "recovery_high"
  let day_summary ← entry.getProp "day_summary"
  pure (.obj [("date", day), ("stress_high", stress_high),
    ("recovery_high", recovery_high), ("day_summary", day_summary)])

/-- The test `value === 0`. -/
def isZero : JsVal → Bool
  | .num n => n == 0
  | _ => false

/-- The condition `!data.data || data.data.length === 0`; the right operand is
evaluated only when `data.data` is truthy. -/
def noData (dataData : JsVal) : Except Thrown Bool :=
  if !dataData.truthy then pure true
  else do
    let length ← dataData.getProp "length"
    pure (isZero length)

/-- The start of the requested range: the second clock reading with its day of
the month moved back by `Math.min(days, 30)`. -/
def ouraStartDate (w : World) (days : JsNumber) : Option Int :=
  setDate w.localTZA w.clockSecond
    (integerOfDifference (getDate w.localTZA w.clockSecond) (Math.min days 30))

/-- The `try` block of `get_oura_stress_recovery`. -/
def get_oura_stress_recovery_try (token : Option String) (w : World) (days : JsNumber) :
    Eff ToolResult := do
  let endDate := some w.clockFirst
  let startDate := ouraStartDate w days
  let startText ← formatDate startDate
  let endText ← formatDate endDate
  let response ← Eff.call (.fetch (ouraRequest token startText endText))
    (w.fetch (ouraRequest token startText endText))
  if !response.ok then
    let error ← response.text
    pure (errorResult ("OURA API Error (" ++ toString response.status ++ "): " ++ error))
  else
    let data ← response.json
    let dataData ← data.getProp "data"
    if ← noData dataData then
      pure (textResult
        ("No stress/recovery data found for the last " ++ days.toJsString ++ " days"))
    else
      let formattedData ← dataData.callMap "data.data" formatEntry
      pure (textResult (JSON.stringifyObject
        [("period", .str (startText ++ " to " ++ endText)),
         ("total_days", .num formattedData.length),
         ("data", .arr formattedData)] 2))

/-- The handler of `get_oura_stress_recovery`; `daysArg` is `none` when the
argument is omitted, and the parameter default `days = 7` applies. -/
def get_oura_stress_recovery (env : Env) (w : World) (daysArg : Option JsNumber) :
    Outcome :=
  let days := daysArg.getD 7
  let token := env.OURA_API_TOKEN
  if falsy token then
    ⟨[], errorResult "Error: OURA_API_TOKEN not configured in environment variables"⟩
  else
    tryCatch (get_oura_stress_recovery_try token w days) "Error fetching OURA data: "

/-- The OAuth2 client both Google handlers build from the settings. -/
def oauth2Client (env : Env) : OAuth2Client :=
  { clientId := envString env.GOOGLE_CLIENT_ID
    clientSecret := envString env.GOOGLE_CLIENT_SECRET
    redirectUri := "http://localhost"
    refresh_token := envString env.GOOGLE_REFRESH_TOKEN }

/-- The request `create_google_doc_for_issue` sends to fetch the issue. -/
def issueRequest (token : Option String) (owner repo : String) (issueNumber : Int) :
    HttpRequest :=
  { method := "GET"
    url := "https://api.github.com/repos/" ++ owner ++ "/" ++ repo ++ "/issues/" ++
      toString issueNumber
    headers := [("Authorization", "Bearer " ++ envString token),
      ("Accept", "application/vnd.github+json"),
      ("X-GitHub-Api-Version", "2022-11-28")]
    body := none }

/-- The argument of the `drive.files.create` call: the folder is a parent when
the folder setting is truthy. -/
def createParams (folderId : Option String) (docTitle : String) : FilesCreateParams :=
  { name := docTitle
    mimeType := "application/vnd.google-apps.document"
    parents := if falsy folderId then none else some [envString folderId]
    fields := "id"
    supportsAllDrives := true
    supportsTeamDrives := true }

/-- The inner `try` around `drive.files.create`: its `catch (createError)` logs
`createError.stack || createError` and throws `createError` again; reading
`stack` from `null` or `undefined` throws a `TypeError` instead. -/
def logAndRethrow {α : Type} (outcome : Except Thrown α) : Except Thrown α :=
  match outcome with
  | .ok a => .ok a
  | .error (.nullish isNull) =>
      .error (typeError ("Cannot read properties of " ++
        (if isNull then "null" else "undefined") ++ " (reading \x27stack\x27)"))
  | .error e => .error e

/-- The text both Google handlers return when an OAuth2 setting is missing. -/
def googleConfigError : String :=
  "Error: Google OAuth2 credentials not configured. Need GOOGLE_CLIENT_ID, " ++
    "GOOGLE_CLIENT_SECRET, and GOOGLE_REFRESH_TOKEN in .env.local"

/-- The `try` block of `create_google_doc_for_issue`. -/
def create_google_doc_for_issue_try (env : Env) (w : World) (owner repo : String)
    (issueNumber : Int) : Eff ToolResult := do
  let githubToken := env.GITHUB_TOKEN
  let folderId := env.GOOGLE_DRIVE_FOLDER_ID
  let issueResponse ← Eff.call (.fetch (issueRequest githubToken owner repo issueNumber))
    (w.fetch (issueRequest githubToken owner repo issueNumber))
  if !issueResponse.ok then
    let error ← issueResponse.text
    pure (errorResult
      ("GitHub API Error (" ++ toString issueResponse.status ++ "): " ++ error))
  else
    let issue ← issueResponse.json
    let auth := oauth2Client env
    let title ← issue.getProp "title"
    let docTitle := repo ++ " - Issue #" ++ toString issueNumber ++ ": " ++ title.toJsString
    let createResponse ← Eff.call (.filesCreate auth (createParams folderId docTitle))
      (logAndRethrow (w.filesCreate auth (createParams folderId docTitle)))
    let documentId := createResponse.id
    if falsy documentId then
      pure (errorResult "Error: Failed to create document")
    else
      let html_url ← issue.getProp "html_url"
      let insert : InsertText :=
        { index := 1, text := "Issue Details: " ++ html_url.toJsString ++ "\n" }
      Eff.call (.documentsBatchUpdate auth (envString documentId) [insert])
        (w.documentsBatchUpdate auth (envString documentId) [insert])
      let docUrl := "https://docs.google.com/document/d/" ++ envString documentId ++ "/edit"
      pure (textResult (JSON.stringifyObject
        [("success", .bool true),
         ("document_id", .str (envString documentId)),
         ("document_url", .str docUrl),
         ("title", .str docTitle),
         ("issue_url", html_url)] 2))

/-- The handler of `create_google_doc_for_issue`. -/
def create_google_doc_for_issue (env : Env) (w : World) (owner repo : String)
    (issueNumber : Int) : Outcome :=
  if falsy env.GITHUB_TOKEN then
    ⟨[], errorResult "Error: GITHUB_TOKEN not configured"⟩
  else if falsy env.GOOGLE_CLIENT_ID || falsy env.GOOGLE_CLIENT_SECRET ||
      falsy env.GOOGLE_REFRESH_TOKEN then
    ⟨[], errorResult googleConfigError⟩
  else
    tryCatch (create_google_doc_for_issue_try env w owner repo issueNumber)
      "Error creating Google Doc: "

/-- The expression `doc.data.body?.content`. -/
def bodyContent (doc : Document) : Option (List StructuralElement) :=
  match doc.body with
  | none => none
  | some body => body.content

/-- The read `lastElement.endIndex`, where `lastElement` is
`content[content.length - 1]`: it throws when the list is empty. -/
def lastEndIndex (content : List StructuralElement) : Except Thrown (Option Int) :=
  match content.getLast? with
  | none => .error (typeError "Cannot read properties of undefined (reading \x27endIndex\x27)")
  | some lastElement => .ok lastElement.endIndex

/-- The expression `lastElement.endIndex ? lastElement.endIndex - 1 : 1`. -/
def insertionIndex (endIndex : Option Int) : Int :=
  match endIndex with
  | none => 1
  | some e => if e = 0 then 1 else e - 1

/-- The `try` block of `edit_google_doc`. -/
def edit_google_doc_try (env : Env) (w : World) (documentId content : String) :
    Eff ToolResult := do
  let auth := oauth2Client env
  let doc ← Eff.call (.documentsGet auth documentId) (w.documentsGet auth documentId)
  match bodyContent doc with
  | none => pure (errorResult "Error: Could not read document content")
  | some elements =>
      let endIndex := insertionIndex (← lastEndIndex elements)
      let insert : InsertText := { index := endIndex, text := "\n" ++ content }
      Eff.call (.documentsBatchUpdate auth documentId [insert])
        (w.documentsBatchUpdate auth documentId [insert])
      let docUrl := "https://docs.google.com/document/d/" ++ documentId ++ "/edit"
      pure (textResult (JSON.stringifyObject
        [("success", .bool true),
         ("document_id", .str documentId),
         ("document_url", .str docUrl),
         ("content_added", .str content)] 2))

/-- The handler of `edit_google_doc`. -/
def edit_google_doc (env : Env) (w : World) (documentId content : String) : Outcome :=
  if falsy env.GOOGLE_CLIENT_ID || falsy env.GOOGLE_CLIENT_SECRET ||
      falsy env.GOOGLE_REFRESH_TOKEN then
    ⟨[], errorResult googleConfigError⟩
  else
    tryCatch (edit_google_doc_try env w documentId content) "Error editing Google Doc: "

/-- The request `add_github_issue_comment` sends. -/
def commentRequest (token : Option String) (owner repo : String) (issueNumber : Int)
    (comment : String) : HttpRequest :=
  { method := "POST"
    url := "https://api.github.com/repos/" ++ owner ++ "/" ++ repo ++ "/issues/" ++
      toString issueNumber ++ "/comments"
    headers := [("Authorization", "Bearer " ++ envString token),
      ("Accept", "application/vnd.github+json"),
      ("X-GitHub-Api-Version", "2022-11-28"),
      ("Content-Type", "application/json")]
    body := some (JSON.stringifyObject [("body", .str comment)] 0) }

/-- The `issue_url` the comment envelope reports. -/
def issueUrl (owner repo : String) (issueNumber : Int) : String :=
  "https://github.com/" ++ owner ++ "/" ++ repo ++ "/issues/" ++ toString issueNumber

/-- The object `add_github_issue_comment` serialises on success. -/
def commentEnvelope (commentData : JsVal) (owner repo : String) (issueNumber : Int) :
    Except Thrown (List (String × JsVal)) := do
  let comment_id ← commentData.getProp "id"
  let comment_url ← commentData.getProp "html_url"
  let created_at ← commentData.getProp "created_at"
  pure [("success", .bool true),
    ("comment_id", comment_id),
    ("comment_url", comment_url),
    ("issue_url", .str (issueUrl owner repo issueNumber)),
    ("created_at", created_at)]

/-- The `try` block of `add_github_issue_comment`. -/
def add_github_issue_comment_try (token : Option String) (w : World) (owner repo : String)
    (issueNumber : Int) (comment : String) : Eff ToolResult := do
  let response ← Eff.call (.fetch (commentRequest token owner repo issueNumber comment))
    (w.fetch (commentRequest token owner repo issueNumber comment))
  if !response.ok then
    let error ← response.text
    pure (errorResult ("GitHub API Error (" ++ toString response.status ++ "): " ++ error))
  else
    let commentData ← response.json
    let envelope ← commentEnvelope commentData owner repo issueNumber
    pure (textResult (JSON.stringifyObject envelope 2))

/-- The handler of `add_github_issue_comment`. -/
def add_github_issue_comment (env : Env) (w : World) (owner repo : String)
    (issueNumber : Int) (comment : String) : Outcome :=
  let token := env.GITHUB_TOKEN
  if falsy token then
    ⟨[], errorResult "Error: GITHUB_TOKEN not configured in environment variables"⟩
  else
    tryCatch (add_github_issue_comment_try token w owner repo issueNumber comment)
      "Error adding comment to GitHub issue: "

end MessageRoute

/-! ## The handler registered at `/mcp/github-issues`
(`src/app/mcp/github issues/route.ts`) -/

namespace GithubIssuesRoute

/-- The request `list_github_issues` sends. -/
def listIssuesRequest (token : Option String) (owner repo : String) : HttpRequest :=
  { method := "GET"
    url := "https://api.github.com/repos/" ++ owner ++ "/" ++ repo ++ "/issues?state=open"
    headers := [("Authorization", "Bearer " ++ envString token),
      ("Accept", "application/vnd.github.v3+json"),
      ("User-Agent", "MCP-Server")]
    body := none }

/-- The filter callback `(issue) => !("pull_request" in issue)`. -/
def notPullRequest (issue : JsVal) : Except Thrown Bool := do
  let marked ← JsVal.hasKey "pull_request" issue
  pure (!marked)

/-- The expression `text || fallback` on strings. -/
def orElse (text fallback : String) : String :=
  if text = "" then fallback else text

/-- The map callback that formats one issue. -/
def formatIssue (issue : JsVal) : Except Thrown JsVal := do
  let labels := JsVal.join
    (← (← issue.getProp "labels").callMap "issue.labels" (fun label => label.getProp "name"))
    ", "
  let assignees := JsVal.join
    (← (← issue.getProp "assignees").callMap "issue.assignees"
      (fun assignee => assignee.getProp "login"))
    ", "
  let number ← issue.getProp "number"
  let title ← issue.getProp "title"
  let state ← issue.getProp "state"
  let url ← issue.getProp "html_url"
  pure (.obj [("number", number), ("title", title), ("state", state),
    ("labels", .str (orElse labels "none")),
    ("assignees", .str (orElse assignees "unassigned")), ("url", url)])

/-- The `try` block of `list_github_issues`. -/
def list_github_issues_try (token : Option String) (w : World) (owner repo : String) :
    Eff ToolResult := do
  let response ← Eff.call (.fetch (listIssuesRequest token owner repo))
    (w.fetch (listIssuesRequest token owner repo))
  if !response.ok then
    let errorText ← response.text
    pure (errorResult
      ("GitHub API Error (" ++ toString response.status ++ "): " ++ errorText))
  else
    let issues ← response.json
    let actualIssues ← issues.callFilter "issues" notPullRequest
    if actualIssues.length = 0 then
      pure (textResult ("No open issues found in " ++ owner ++ "/" ++ repo))
    else
      let issueList ← mapThrowing formatIssue actualIssues
      pure (textResult (JSON.stringifyObject
        [("repository", .str (owner ++ "/" ++ repo)),
         ("total_issues", .num issueList.length),
         ("issues", .arr issueList)] 2))

/-- The handler of `list_github_issues`. -/
def list_github_issues (env : Env) (w : World) (owner repo : String) : Outcome :=
  let token := env.GITHUB_TOKEN
  if falsy token then
    ⟨[], errorResult "Error: GITHUB_TOKEN environment variable is not set"⟩
  else
    tryCatch (list_github_issues_try token w owner repo) "Error fetching issues: "

end GithubIssuesRoute

/-! ## Vocabulary of the statements -/

/-- The text `part` occurs in `text`. -/
def Contains (text part : String) : Prop := ∃ pre post, text = pre ++ part ++ post

/-- The text `<provider> API Error (<status>): <body>`. -/
def apiErrorText (provider : String) (status : Nat) (body : String) : String :=
  provider ++ " API Error (" ++ toString status ++ "): " ++ body

/-! ## Sample data -/

/-- An environment with every setting configured. -/
def sampleEnv : Env :=
  { GITHUB_TOKEN := some "ghp_token"
    OURA_API_TOKEN := some "oura_token"
    GOOGLE_CLIENT_ID := some "client-id"
    GOOGLE_CLIENT_SECRET := some "client-secret"
    GOOGLE_REFRESH_TOKEN := some "refresh-token"
    GOOGLE_DRIVE_FOLDER_ID := none }

/-- A world whose HTTP upstreams answer every request with `response`, whose
Google services fail, and whose clock reads 2022-01-08T00:00:05Z in UTC. -/
def worldAnswering (response : Except Thrown Response) : World :=
  { fetch := fun _ => response
    filesCreate := fun _ _ => .error (.error "unavailable")
    documentsGet := fun _ _ => .error (.error "unavailable")
    documentsBatchUpdate := fun _ _ _ => .error (.error "unavailable")
    clockFirst := 1641600005000
    clockSecond := 1641600005000
    localTZA := fun _ _ => 0 }

/-- A `404 Not Found` answer. -/
def notFound : Response :=
  { status := 404, text := .ok "Not Found", json := .error (.error "Unexpected token") }

/-- A successful answer with a JSON body. -/
def okJson (status : Nat) (body : JsVal) : Response :=
  { status := status, text := .ok "", json := .ok body }

/-- An upstream list that holds one pull request and no issue. -/
def onlyPullRequest : JsVal :=
  .arr [.obj [("number", .num 7), ("title", .str "Fix typo"),
    ("pull_request", .obj [("url", .str "https://api.github.com/repos/o/r/pulls/7")])]]

/-- A successful answer of the stress endpoint that holds no entry. -/
def emptyStressData : Response := okJson 200 (.obj [("data", .arr [])])

/-- The value is neither `undefined` nor `null`. -/
def nonNullish : JsVal → Bool
  | .undefined => false
  | .null => false
  | _ => true

/-- The member is present and is an array without `undefined` or `null` elements. -/
def isArrayOfValues : Option JsVal → Bool
  | some (.arr xs) => xs.all nonNullish
  | _ => false

/-- The value has the shape of an issue of the GitHub API as far as the
handlers rely on it: an object whose `labels` and `assignees` are arrays. -/
def issueShaped : JsVal → Bool
  | .obj kvs =>
      isArrayOfValues (JsVal.lookup "labels" kvs) &&
        isArrayOfValues (JsVal.lookup "assignees" kvs)
  | _ => false

/-- The pull-request marker as `/mcp/github-issues` tests it: the key
`pull_request` is present. -/
def hasPullRequestKey : JsVal → Bool
  | .obj kvs => (JsVal.lookup "pull_request" kvs).isSome
  | _ => false

/-- The pull-request marker as `/mcp` tests it: the value of `pull_request` is
truthy. -/
def hasTruthyPullRequest : JsVal → Bool
  | .obj kvs => ((JsVal.lookup "pull_request" kvs).getD .undefined).truthy
  | _ => false

/-- The text is the JSON of an object whose `issues` member is a list of `n`
entries and whose `total_issues` member is `n`. -/
def IsIssuesEnvelope (text : String) (n : Nat) : Prop :=
  ∃ fields entries space,
    JSON.stringify (.obj fields) space = some text ∧
    JsVal.lookup "issues" fields = some (.arr entries) ∧
    entries.length = n ∧
    JsVal.lookup "total_issues" fields = some (.num n)

/-- An open issue as the GitHub API returns it. -/
def sampleIssue : JsVal :=
  .obj [("number", .num 1), ("title", .str "Bug"), ("state", .str "open"),
    ("labels", .arr [.obj [("name", .str "bug")]]), ("assignees", .arr []),
    ("html_url", .str "https://github.com/o/r/issues/1")]

/-- A pull request as the GitHub API returns it in an issue list. -/
def samplePullRequest : JsVal :=
  .obj [("number", .num 2), ("title", .str "Patch"), ("state", .str "open"),
    ("labels", .arr []), ("assignees", .arr [.obj [("login", .str "ann")]]),
    ("html_url", .str "https://github.com/o/r/pull/2"),
    ("pull_request", .obj [("url", .str "https://api.github.com/repos/o/r/pulls/2")])]

/-- The text of the `/mcp` registration for the upstream list `[sampleIssue]`. -/
def sampleIssueListing : String :=
  "[\n  \x7b\n    \"number\": 1,\n    \"title\": \"Bug\",\n    \"state\": \"open\",\n" ++
  "    \"labels\": [\n      \"bug\"\n    ],\n    \"assignees\": [],\n" ++
  "    \"url\": \"https://github.com/o/r/issues/1\"\n  \x7d\n]"

/-- The text `text` begins with `start`. -/
def StartsWith (text start : String) : Prop := start.data <+: text.data

/-- The answer of the GitHub API to a comment posted on number 5 of `o/r` when
that number is a pull request. -/
def pullRequestComment : JsVal :=
  .obj [("id", .num 1001),
    ("html_url", .str "https://github.com/o/r/pull/5#issuecomment-1001"),
    ("created_at", .str "2024-01-01T00:00:00Z")]

/-- The answer of the GitHub API to a comment posted on issue 5 of `o/r`. -/
def issueComment : JsVal :=
  .obj [("id", .num 1002),
    ("html_url", .str "https://github.com/o/r/issues/5#issuecomment-1002"),
    ("created_at", .str "2024-01-01T00:00:00Z")]

/-- The outcome is a configuration error that names each of `settings`: no
upstream call was issued, `isError` is `true`, and the single text block
contains every name. -/
def ConfigurationError (o : Outcome) (settings : List String) : Prop :=
  o.calls = [] ∧ o.result.isError = some true ∧
    ∃ text, o.result.content = [{ type := "text", text := text }] ∧
      ∀ setting ∈ settings, Contains text setting

/-- The three OAuth2 settings of the Google handlers. -/
def googleSettings : List String :=
  ["GOOGLE_CLIENT_ID", "GOOGLE_CLIENT_SECRET", "GOOGLE_REFRESH_TOKEN"]

/-- An environment without any setting. -/
def emptyEnv : Env :=
  { GITHUB_TOKEN := none
    OURA_API_TOKEN := none
    GOOGLE_CLIENT_ID := none
    GOOGLE_CLIENT_SECRET := none
    GOOGLE_REFRESH_TOKEN := none
    GOOGLE_DRIVE_FOLDER_ID := none }

/-- An environment with the GitHub token, an empty OURA token and an empty
Google client secret. -/
def emptySecretEnv : Env :=
  { GITHUB_TOKEN := some "ghp_token"
    OURA_API_TOKEN := some ""
    GOOGLE_CLIENT_ID := some "client-id"
    GOOGLE_CLIENT_SECRET := some ""
    GOOGLE_REFRESH_TOKEN := some "refresh-token"
    GOOGLE_DRIVE_FOLDER_ID := none }

/-- The result's content is exactly one block, of type `text`. -/
def SingleTextBlock (r : ToolResult) : Prop :=
  ∃ text, r.content = [{ type := "text", text := text }]

/-- Every value the computation can complete with satisfies `P`. -/
def Eff.Yields {α : Type} (P : α → Prop) (m : Eff α) : Prop :=
  ∀ a, m.out = .ok a → P a

/-- The outcome is the recovery of the thrown value `e` by a `catch` clause
with lead text `lead`: the handler returned `isError = true` with the single
text block that holds the lead followed by the message of `e`. -/
def Recovered (o : Outcome) (lead : String) (e : Thrown) : Prop :=
  o.result = errorResult (lead ++ e.describe)

/-- The handler returned a result built by one of its two return literals:
a single text block, with `isError` absent or `true`. -/
def ReturnsEnvelope (o : Outcome) : Prop :=
  ∃ text, o.result = textResult text ∨ o.result = errorResult text

/-- A successful answer whose body is not JSON. -/
def htmlBody : Response :=
  { status := 200
    text := .ok "<html></html>"
    json := .error (.error "Unexpected token < in JSON at position 0") }

/-- An issue object that lacks the `labels` member. -/
def issueWithoutLabels : JsVal :=
  .obj [("number", .num 3), ("title", .str "No labels"), ("state", .str "open"),
    ("assignees", .arr []), ("html_url", .str "https://github.com/o/r/issues/3")]

/-! ## The Document Service as the handlers see it

The Document Service is an external collaborator. Its state is modelled after
the contract of the Google Docs API that `edit_google_doc` relies on: the body
text of a document occupies the offsets from 1, its last structural element
ends one past the last character, and `insertText` at offset `i` puts the text
before the character at offset `i`, which must exist. -/

/-- The body text of the stored document; every character takes one offset. -/
structure DocState where
  text : List Char
  deriving DecidableEq, Repr

/-- What `documents.get` answers: a section break that ends at offset 1 and an
element that ends one past the last character of the text. -/
def DocState.document (d : DocState) : Document :=
  { body := some
      { content := some [{ endIndex := some 1 }, { endIndex := some (1 + d.text.length) }] } }

/-- One `insertText` request: the offset must be that of a character of the
text; the service rejects an offset at or past the end of the body. -/
def DocState.insertText (d : DocState) (request : InsertText) : Except Thrown DocState :=
  if 1 ≤ request.index ∧ request.index < 1 + d.text.length then
    .ok { text := d.text.take (request.index - 1).toNat ++ request.text.data ++
            d.text.drop (request.index - 1).toNat }
  else
    .error (.error "Index must be less than the end index of the referenced segment")

/-- The requests of one `documents.batchUpdate` call, applied in order. -/
def DocState.batchUpdate : DocState → List InsertText → Except Thrown DocState
  | d, [] => .ok d
  | d, request :: rest =>
      match d.insertText request with
      | .ok d' => d'.batchUpdate rest
      | .error e => .error e

/-- The world in which the Google client serves the document `d`. -/
def docWorld (d : DocState) : World :=
  { fetch := fun _ => .error (.error "unavailable")
    filesCreate := fun _ _ => .error (.error "unavailable")
    documentsGet := fun _ _ => .ok d.document
    documentsBatchUpdate := fun _ _ requests =>
      match d.batchUpdate requests with
      | .ok _ => .ok ()
      | .error e => .error e
    clockFirst := 1641600005000
    clockSecond := 1641600005000
    localTZA := fun _ _ => 0 }

/-- The document after the service has executed the calls of a handler. -/
def DocState.afterCalls : DocState → List Call → DocState
  | d, [] => d
  | d, .documentsBatchUpdate _ _ requests :: rest =>
      match d.batchUpdate requests with
      | .ok d' => d'.afterCalls rest
      | .error _ => d.afterCalls rest
  | d, _ :: rest => d.afterCalls rest

/-- One invocation of `edit_google_doc` on the stored document: the outcome of
the handler and the document afterwards. -/
def editDocument (env : Env) (d : DocState) (content : String) : Outcome × DocState :=
  (MessageRoute.edit_google_doc env (docWorld d) "doc" content,
    d.afterCalls (MessageRoute.edit_google_doc env (docWorld d) "doc" content).calls)

/-- What a handler invokes with a call: an HTTP request that it sends itself
with `fetch`, given by method and URL, or a method of the Google client. A
method of the client stands for its invocation by the handler, not for the
HTTP requests the client sends to carry it out. -/
inductive Operation where
  | http (method url : String)
  | filesCreate
  | documentsGet
  | documentsBatchUpdate
  deriving DecidableEq, Repr

/-- The operation a call invokes. -/
def Call.operation : Call → Operation
  | .fetch req => .http req.method req.url
  | .filesCreate _ _ => .filesCreate
  | .documentsGet _ _ => .documentsGet
  | .documentsBatchUpdate _ _ _ => .documentsBatchUpdate

/-- The calls of the computation invoke operations of `allowed`, in the order
of `allowed`, each at most as often as it occurs there. -/
def Eff.CallsWithin {α : Type} (allowed : List Operation) (m : Eff α) : Prop :=
  (m.calls.map Call.operation).Sublist allowed

/-- The handler invokes no operation twice during the invocation. -/
def InvokesOnce (o : Outcome) : Prop := (o.calls.map Call.operation).Nodup

/-- The statuses after which the transport of the Google client sends a `GET`
again, by the defaults of the client library: 1xx, 408, 429 and 5xx. -/
def retriedStatus (status : Nat) : Bool :=
  (decide (100 ≤ status) && decide (status ≤ 199)) || status == 408 || status == 429 ||
    (decide (500 ≤ status) && decide (status ≤ 599))

/-- The number of HTTP requests the Google client sends for one `GET` method
when it has `retries` retries left, where `answers n` is the status of the
upstream's answer to the `n`-th request: the client sends the request again
after a retried status. -/
def getRequestsSent : Nat → (Nat → Nat) → Nat → Nat
  | 0, _, _ => 1
  | retries + 1, answers, n =>
      if retriedStatus (answers n) then 1 + getRequestsSent retries answers (n + 1) else 1

/-- The number of HTTP requests sent to the upstream for one call of a
handler, where `answers n` is the status of the upstream's answer to the
`n`-th of them: `fetch` sends its request once; the Google client sends the
`POST` of `files.create` and of `documents.batchUpdate` once, and the `GET` of
`documents.get` again after a retried status, up to three times. -/
def Call.requestsSent (c : Call) (answers : Nat → Nat) : Nat :=
  match c with
  | .documentsGet _ _ => getRequestsSent 3 answers 0
  | _ => 1

/-- Every call of the invocation sends exactly one HTTP request, whatever the
upstream answers. -/
def SendsOnce (o : Outcome) : Prop :=
  ∀ c ∈ o.calls, ∀ answers, c.requestsSent answers = 1


/-- A world whose Google client answers `documents.get` with `doc` and accepts
every write. -/
def worldServing (doc : Document) : World :=
  { fetch := fun _ => .error (.error "unavailable")
    filesCreate := fun _ _ => .error (.error "unavailable")
    documentsGet := fun _ _ => .ok doc
    documentsBatchUpdate := fun _ _ _ => .ok ()
    clockFirst := 1641600005000
    clockSecond := 1641600005000
    localTZA := fun _ _ => 0 }

/-- A document whose body ends at offset 7. -/
def helloDocument : Document :=
  { body := some { content := some [{ endIndex := some 1 }, { endIndex := some 7 }] } }

/-- A document whose body has an empty content list. -/
def emptyContentDocument : Document :=
  { body := some { content := some [] } }

/-- A world in which GitHub answers with `sampleIssue`, Drive creates the
document `doc-1` and Docs accepts every write. -/
def creatingWorld : World :=
  { fetch := fun _ => .ok (okJson 200 sampleIssue)
    filesCreate := fun _ _ => .ok { id := some "doc-1" }
    documentsGet := fun _ _ => .error (.error "unavailable")
    documentsBatchUpdate := fun _ _ _ => .ok ()
    clockFirst := 1641600005000
    clockSecond := 1641600005000
    localTZA := fun _ _ => 0 }

/-- An environment with every setting configured, the Drive folder included. -/
def folderEnv : Env :=
  { GITHUB_TOKEN := some "ghp_token"
    OURA_API_TOKEN := some "oura_token"
    GOOGLE_CLIENT_ID := some "client-id"
    GOOGLE_CLIENT_SECRET := some "client-secret"
    GOOGLE_REFRESH_TOKEN := some "refresh-token"
    GOOGLE_DRIVE_FOLDER_ID := some "folder-9" }

/-- The calendar date of the day number `z`, as `formatDate` writes it. -/
def dateText (z : Int) : String :=
  let ymd := civilFromDays z
  let year :=
    if 0 ≤ ymd.1 ∧ ymd.1 ≤ 9999 then padZero 4 ymd.1.natAbs
    else (if ymd.1 < 0 then "-" else "+") ++ padZero 6 ymd.1.natAbs
  year ++ "-" ++ padZero 2 ymd.2.1.natAbs ++ "-" ++ padZero 2 ymd.2.2.natAbs

/-- The error the Google client throws when the backing API answers with a
non-success status (`GaxiosError`): the status, the response body, and the
message the client library gives the error. -/
structure GaxiosError where
  status : Nat
  body : String
  message : String
  deriving DecidableEq, Repr

/-- The thrown value as the `catch` clause sees it: an `Error` instance, of
which the clause reads `message` only. -/
def GaxiosError.thrown (e : GaxiosError) : Thrown := .error e.message

/-- The error of the Docs API for a document that does not exist. -/
def documentNotFound : GaxiosError :=
  { status := 404
    body := "\x7b\"error\":\x7b\"code\":404,\"message\":\"Requested entity was not found.\"," ++
      "\"status\":\"NOT_FOUND\"\x7d\x7d"
    message := "Requested entity was not found." }

/-- The error of the Google client for an upstream that answers `503`. -/
def serviceUnavailable : GaxiosError :=
  { status := 503
    body := "Service Unavailable"
    message := "The service is currently unavailable." }

/-- A world whose Google client rejects every call with the error `e`, and in
which GitHub answers with `sampleIssue`. -/
def worldRejecting (e : GaxiosError) : World :=
  { fetch := fun _ => .ok (okJson 200 sampleIssue)
    filesCreate := fun _ _ => .error e.thrown
    documentsGet := fun _ _ => .error e.thrown
    documentsBatchUpdate := fun _ _ _ => .error e.thrown
    clockFirst := 1641600005000
    clockSecond := 1641600005000
    localTZA := fun _ _ => 0 }

/-- The member `k` of a value, `undefined` when the value has no such member. -/
def memberOf (v : JsVal) (k : String) : JsVal :=
  match v with
  | .obj kvs => (JsVal.lookup k kvs).getD .undefined
  | _ => .undefined

/-- The member `k` of every element of a list member, in order. -/
def membersOf (list : Option JsVal) (k : String) : List JsVal :=
  match list with
  | some (.arr xs) => xs.map (fun x => memberOf x k)
  | _ => []

/-- The entry of the listing for one issue, in the words of the contract:
`number`, `title` and `state` copied, `labels` the names of the issue's labels
in order, `assignees` the logins of its assignees in order, and `url` the
issue's `html_url`. -/
def listedEntry (issue : JsVal) : JsVal :=
  match issue with
  | .obj kvs =>
      .obj [("number", memberOf issue "number"), ("title", memberOf issue "title"),
        ("state", memberOf issue "state"),
        ("labels", .arr (membersOf (JsVal.lookup "labels" kvs) "name")),
        ("assignees", .arr (membersOf (JsVal.lookup "assignees" kvs) "login")),
        ("url", memberOf issue "html_url")]
  | _ => .undefined

/-- An issue object whose `pull_request` member is `null`. -/
def nullPullRequestIssue : JsVal :=
  .obj [("number", .num 4), ("title", .str "Odd"), ("state", .str "open"),
    ("labels", .arr []), ("assignees", .arr []),
    ("html_url", .str "https://github.com/o/r/issues/4"), ("pull_request", .null)]

/-- The value is a JSON object. -/
def isObject : JsVal → Bool
  | .obj _ => true
  | _ => false

/-- The settings of `sampleEnv` with every credential replaced by another
non-empty value. -/
def otherSecretsEnv : Env :=
  { GITHUB_TOKEN := some "ghp_other"
    OURA_API_TOKEN := some "oura_other"
    GOOGLE_CLIENT_ID := some "other-id"
    GOOGLE_CLIENT_SECRET := some "other-secret"
    GOOGLE_REFRESH_TOKEN := some "other-refresh"
    GOOGLE_DRIVE_FOLDER_ID := none }

/-- A world in the time zone of New York in March 2022 (five hours behind UTC
until 2022-03-13T07:00Z, four hours behind from then on) whose clock reads
2022-03-16T23:30:00Z and whose HTTP upstreams answer with `response`. -/
def newYorkWorld (response : Except Thrown Response) : World :=
  { fetch := fun _ => response
    filesCreate := fun _ _ => .error (.error "unavailable")
    documentsGet := fun _ _ => .error (.error "unavailable")
    documentsBatchUpdate := fun _ _ _ => .error (.error "unavailable")
    clockFirst := 1647473400000
    clockSecond := 1647473400000
    localTZA := fun t isUTC =>
      if isUTC then (if t < 1647154800000 then -18000000 else -14400000)
      else (if t < 1647136800000 then -18000000 else -14400000) }

/-- What a call carries besides the credentials: an HTTP request without its
`Authorization` header, or a method of the Google client with its arguments
and without the OAuth2 client. -/
inductive Payload where
  | fetch (method url : String) (headers : List (String × String)) (body : Option String)
  | filesCreate (params : FilesCreateParams)
  | documentsGet (documentId : String)
  | documentsBatchUpdate (documentId : String) (requests : List InsertText)
  deriving DecidableEq, Repr

/-- The payload of a call. -/
def Call.payload : Call → Payload
  | .fetch req =>
      .fetch req.method req.url
        (req.headers.filter (fun header => header.1 != "Authorization")) req.body
  | .filesCreate _ params => .filesCreate params
  | .documentsGet _ documentId => .documentsGet documentId
  | .documentsBatchUpdate _ documentId requests => .documentsBatchUpdate documentId requests

/-- Two computations issue the same calls except for the credentials the calls
carry, and end alike. -/
def Eff.SameBesidesCredentials {α : Type} (m m' : Eff α) : Prop :=
  m.calls.map Call.payload = m'.calls.map Call.payload ∧ m.out = m'.out

/-- Two invocations issue the same calls except for the credentials the calls
carry, and return the same result. -/
def Outcome.SameBesidesCredentials (o o' : Outcome) : Prop :=
  o.calls.map Call.payload = o'.calls.map Call.payload ∧ o.result = o'.result

/-- A world in which GitHub accepts the token `ghp_token` only: a request that
carries it is answered with the empty list, and any other request with `401`
and a body that repeats the `Authorization` header of the request. -/
def tokenCheckingWorld : World :=
  { fetch := fun req =>
      if req.headers.lookup "Authorization" = some "Bearer ghp_token" then
        .ok (okJson 200 (.arr []))
      else
        .ok { status := 401
              text := .ok ("Bad credentials: " ++
                (req.headers.lookup "Authorization").getD "")
              json := .error (.error "Unexpected token") }
    filesCreate := fun _ _ => .error (.error "unavailable")
    documentsGet := fun _ _ => .error (.error "unavailable")
    documentsBatchUpdate := fun _ _ _ => .error (.error "unavailable")
    clockFirst := 1641600005000
    clockSecond := 1641600005000
    localTZA := fun _ _ => 0 }

/-! ## Lemmas on effects -/

@[simp] theorem Eff.bind_call_ok {α β : Type} (c : Call) (a : α) (f : α → Eff β) :
    (Eff.call c (.ok a) >>= f) = ⟨c :: (f a).calls, (f a).out⟩ := rfl

@[simp] theorem Eff.bind_call_error {α β : Type} (c : Call) (e : Thrown) (f : α → Eff β) :
    (Eff.call c (.error e : Except Thrown α) >>= f) = ⟨[c], .error e⟩ := rfl

@[simp] theorem Eff.bind_lift_ok {α β : Type} (a : α) (f : α → Eff β) :
    ((liftM (Except.ok a : Except Thrown α) : Eff α) >>= f) = f a := rfl

@[simp] theorem Eff.bind_lift_error {α β : Type} (e : Thrown) (f : α → Eff β) :
    ((liftM (Except.error e : Except Thrown α) : Eff α) >>= f) = ⟨[], .error e⟩ := rfl

@[simp] theorem except_bind_ok {α β : Type} (a : α) (f : α → Except Thrown β) :
    (Except.ok a >>= f) = f a := rfl

@[simp] theorem except_bind_error {α β : Type} (e : Thrown) (f : α → Except Thrown β) :
    ((Except.error e : Except Thrown α) >>= f) = .error e := rfl

@[simp] theorem except_pure {α : Type} (a : α) : (pure a : Except Thrown α) = .ok a := rfl

theorem getProp_obj (kvs : List (String × JsVal)) (k : String) :
    (JsVal.obj kvs).getProp k = .ok ((JsVal.lookup k kvs).getD .undefined) := rfl

@[simp] theorem Eff.pure_out {α : Type} (a : α) : (pure a : Eff α).out = .ok a := rfl

@[simp] theorem Eff.pure_calls {α : Type} (a : α) : (pure a : Eff α).calls = [] := rfl

theorem contains_apiErrorText_status (provider : String) (status : Nat) (body : String) :
    Contains (apiErrorText provider status body) (toString status) :=
  ⟨provider ++ " API Error (", "): " ++ body, by simp [apiErrorText, String.append_assoc]⟩

theorem contains_apiErrorText_body (provider : String) (status : Nat) (body : String) :
    Contains (apiErrorText provider status body) body :=
  ⟨provider ++ " API Error (" ++ toString status ++ "): ", "", by simp [apiErrorText]⟩

theorem yields_pure {α : Type} {P : α → Prop} {a : α} (h : P a) :
    Eff.Yields P (pure a) := by
  intro b hb
  cases hb
  exact h

theorem yields_bind {α β : Type} {P : β → Prop} (m : Eff α) (f : α → Eff β)
    (h : ∀ a, Eff.Yields P (f a)) : Eff.Yields P (m >>= f) := by
  intro b hb
  have hb' : (Eff.bind m f).out = .ok b := hb
  unfold Eff.bind at hb'
  split at hb'
  · exact h _ b hb'
  · cases hb'

/-! ## C1: upstream errors -/

/-- C1: with the credential configured, when the upstream answers the request of
`list_github_issues` (either registration), `get_oura_stress_recovery` or
`add_github_issue_comment` with a status `s` outside 200 to 299 and body `b`,
the handler returns the error result whose single text is
`<Provider> API Error (s): b`; that text contains the decimal rendering of `s`
and contains `b`. -/
theorem upstream_error_is_reported (env : Env) (w : World) (r : Response) (b : String)
    (hok : r.ok = false) (hb : r.text = .ok b) :
    (∀ owner repo, falsy env.GITHUB_TOKEN = false →
      w.fetch (MessageRoute.listIssuesRequest env.GITHUB_TOKEN owner repo) = .ok r →
      (MessageRoute.list_github_issues env w owner repo).result =
        errorResult (apiErrorText "GitHub" r.status b)) ∧
    (∀ owner repo, falsy env.GITHUB_TOKEN = false →
      w.fetch (GithubIssuesRoute.listIssuesRequest env.GITHUB_TOKEN owner repo) = .ok r →
      (GithubIssuesRoute.list_github_issues env w owner repo).result =
        errorResult (apiErrorText "GitHub" r.status b)) ∧
    (∀ daysArg startText endText, falsy env.OURA_API_TOKEN = false →
      formatDate (MessageRoute.ouraStartDate w (daysArg.getD 7)) = .ok startText →
      formatDate (some w.clockFirst) = .ok endText →
      w.fetch (MessageRoute.ouraRequest env.OURA_API_TOKEN startText endText) = .ok r →
      (MessageRoute.get_oura_stress_recovery env w daysArg).result =
        errorResult (apiErrorText "OURA" r.status b)) ∧
    (∀ owner repo issueNumber comment, falsy env.GITHUB_TOKEN = false →
      w.fetch (MessageRoute.commentRequest env.GITHUB_TOKEN owner repo issueNumber comment)
        = .ok r →
      (MessageRoute.add_github_issue_comment env w owner repo issueNumber comment).result =
        errorResult (apiErrorText "GitHub" r.status b)) ∧
    (∀ provider, (errorResult (apiErrorText provider r.status b)).isError = some true ∧
      Contains (apiErrorText provider r.status b) (toString r.status) ∧
      Contains (apiErrorText provider r.status b) b) := by
  refine ⟨?_, ?_, ?_, ?_, ?_⟩
  · intro owner repo ht hf
    simp [MessageRoute.list_github_issues, MessageRoute.list_github_issues_try, tryCatch,
      ht, hf, hok, hb, apiErrorText]
  · intro owner repo ht hf
    simp [GithubIssuesRoute.list_github_issues, GithubIssuesRoute.list_github_issues_try,
      tryCatch, ht, hf, hok, hb, apiErrorText]
  · intro daysArg startText endText ht hs he hf
    simp [MessageRoute.get_oura_stress_recovery, MessageRoute.get_oura_stress_recovery_try,
      tryCatch, ht, hs, he, hf, hok, hb, apiErrorText]
  · intro owner repo issueNumber comment ht hf
    simp [MessageRoute.add_github_issue_comment, MessageRoute.add_github_issue_comment_try,
      tryCatch, ht, hf, hok, hb, apiErrorText]
  · intro provider
    exact ⟨rfl, contains_apiErrorText_status _ _ _, contains_apiErrorText_body _ _ _⟩

/-- C1 at a `404 Not Found` answer. -/
theorem upstream_error_is_reported_witness :
    (MessageRoute.list_github_issues sampleEnv (worldAnswering (.ok notFound)) "o" "r").result =
        errorResult "GitHub API Error (404): Not Found" ∧
    (GithubIssuesRoute.list_github_issues sampleEnv (worldAnswering (.ok notFound))
        "o" "r").result = errorResult "GitHub API Error (404): Not Found" ∧
    (MessageRoute.get_oura_stress_recovery sampleEnv (worldAnswering (.ok notFound))
        (some 45)).result = errorResult "OURA API Error (404): Not Found" ∧
    (MessageRoute.add_github_issue_comment sampleEnv (worldAnswering (.ok notFound))
        "o" "r" 5 "hello").result = errorResult "GitHub API Error (404): Not Found" := by
  have h := upstream_error_is_reported sampleEnv (worldAnswering (.ok notFound)) notFound
    "Not Found" (by decide) rfl
  refine ⟨?_, ?_, ?_, ?_⟩
  · have h1 := h.1 "o" "r" (by decide) rfl
    rw [h1]; decide
  · have h2 := h.2.1 "o" "r" (by decide) rfl
    rw [h2]; decide
  · have h3 := h.2.2.1 (some 45) "2021-12-09" "2022-01-08" (by decide) (by decide) (by decide) rfl
    rw [h3]; decide
  · have h4 := h.2.2.2.1 "o" "r" 5 "hello" (by decide) rfl
    rw [h4]; decide

/-! ## C3: no open issues -/

/-- C3: in both registrations of `list_github_issues`, for every owner and repo,
when the upstream answers successfully with a list from which the filter keeps
no issue (the empty list included), the result is exactly one block of type
`text` reading `No open issues found in <owner>/<repo>`, and `isError` is not
`true` (it is absent). -/
theorem no_open_issues_message (env : Env) (w : World) (owner repo : String) (r : Response)
    (issues : List JsVal) (ht : falsy env.GITHUB_TOKEN = false) (hok : r.ok = true)
    (hj : r.json = .ok (.arr issues)) :
    (w.fetch (MessageRoute.listIssuesRequest env.GITHUB_TOKEN owner repo) = .ok r →
      filterThrowing MessageRoute.notPullRequest issues = .ok [] →
      (MessageRoute.list_github_issues env w owner repo).result =
          { content := [{ type := "text",
                          text := "No open issues found in " ++ owner ++ "/" ++ repo }],
            isError := none } ∧
        (MessageRoute.list_github_issues env w owner repo).result.isError ≠ some true) ∧
    (w.fetch (GithubIssuesRoute.listIssuesRequest env.GITHUB_TOKEN owner repo) = .ok r →
      filterThrowing GithubIssuesRoute.notPullRequest issues = .ok [] →
      (GithubIssuesRoute.list_github_issues env w owner repo).result =
          { content := [{ type := "text",
                          text := "No open issues found in " ++ owner ++ "/" ++ repo }],
            isError := none } ∧
        (GithubIssuesRoute.list_github_issues env w owner repo).result.isError ≠ some true) := by
  constructor
  · intro hf hnone
    simp [MessageRoute.list_github_issues, MessageRoute.list_github_issues_try, tryCatch,
      ht, hf, hok, hj, JsVal.callFilter, hnone, textResult]
  · intro hf hnone
    simp [GithubIssuesRoute.list_github_issues, GithubIssuesRoute.list_github_issues_try,
      tryCatch, ht, hf, hok, hj, JsVal.callFilter, hnone, textResult]

/-- C3 at an upstream list that holds only a pull request. -/
theorem no_open_issues_message_witness :
    (MessageRoute.list_github_issues sampleEnv (worldAnswering (.ok (okJson 200 onlyPullRequest)))
        "octo" "demo").result = textResult "No open issues found in octo/demo" ∧
    (GithubIssuesRoute.list_github_issues sampleEnv
        (worldAnswering (.ok (okJson 200 onlyPullRequest))) "octo" "demo").result =
      textResult "No open issues found in octo/demo" := by
  have h := no_open_issues_message sampleEnv (worldAnswering (.ok (okJson 200 onlyPullRequest)))
    "octo" "demo" (okJson 200 onlyPullRequest) _ (by decide) (by decide) rfl
  exact ⟨(h.1 rfl rfl).1, (h.2 rfl rfl).1⟩

/-! ## C4 and C5: the `days` argument of `get_oura_stress_recovery` -/

/-- C4: with a token configured and an upstream that answers with an empty
`data` list, `days = 45` and `days = 30` issue the same request but return
different results: the text names the unclamped `days`. -/
theorem oura_days_45_differs_from_30 :
    (MessageRoute.get_oura_stress_recovery sampleEnv (worldAnswering (.ok emptyStressData))
        (some 45)).calls =
      (MessageRoute.get_oura_stress_recovery sampleEnv (worldAnswering (.ok emptyStressData))
        (some 30)).calls ∧
    (MessageRoute.get_oura_stress_recovery sampleEnv (worldAnswering (.ok emptyStressData))
        (some 45)).result =
      textResult "No stress/recovery data found for the last 45 days" ∧
    (MessageRoute.get_oura_stress_recovery sampleEnv (worldAnswering (.ok emptyStressData))
        (some 30)).result =
      textResult "No stress/recovery data found for the last 30 days" ∧
    (MessageRoute.get_oura_stress_recovery sampleEnv (worldAnswering (.ok emptyStressData))
        (some 45)).result ≠
      (MessageRoute.get_oura_stress_recovery sampleEnv (worldAnswering (.ok emptyStressData))
        (some 30)).result := by
  decide

/-- C5: `get_oura_stress_recovery` with `days` omitted issues the same upstream
calls and returns the same result as with `days = 7`, for every environment and
every behaviour of the clock and the upstream. -/
theorem oura_days_omitted_is_seven (env : Env) (w : World) :
    MessageRoute.get_oura_stress_recovery env w none =
      MessageRoute.get_oura_stress_recovery env w (some 7) := rfl

/-! ## C2: the number of issues listed -/

theorem filterThrowing_total {α : Type} {p : α → Except Thrown Bool} {q : α → Bool}
    (xs : List α) (h : ∀ x ∈ xs, p x = .ok (q x)) :
    filterThrowing p xs = .ok (xs.filter q) := by
  induction xs with
  | nil => rfl
  | cons x xs ih =>
      have hx := h x (List.mem_cons_self x xs)
      have hxs := ih (fun y hy => h y (List.mem_cons_of_mem x hy))
      simp only [filterThrowing, hx, hxs, List.filter_cons]

theorem mapThrowing_total {α β : Type} {f : α → Except Thrown β} (xs : List α)
    (h : ∀ x ∈ xs, ∃ y, f x = .ok y) :
    ∃ ys, mapThrowing f xs = .ok ys ∧ ys.length = xs.length := by
  induction xs with
  | nil => exact ⟨[], rfl, rfl⟩
  | cons x xs ih =>
      obtain ⟨y, hy⟩ := h x (List.mem_cons_self x xs)
      obtain ⟨ys, hys, hlen⟩ := ih (fun z hz => h z (List.mem_cons_of_mem x hz))
      exact ⟨y :: ys, by simp [mapThrowing, hy, hys], by simp [hlen]⟩

theorem length_filter_not {α : Type} (m : α → Bool) (xs : List α) :
    (xs.filter (fun i => !m i)).length = xs.length - xs.countP m := by
  rw [← List.countP_eq_length_filter, List.length_eq_countP_add_countP m xs]
  simp

theorem getProp_nonNullish (v : JsVal) (k : String) (h : nonNullish v = true) :
    ∃ y, v.getProp k = .ok y := by
  cases v <;> simp [nonNullish] at h <;> simp [JsVal.getProp]

theorem callMap_isArrayOfValues (v : Option JsVal) (expr k : String)
    (h : isArrayOfValues v = true) :
    ∃ ys, (v.getD .undefined).callMap expr (fun x => x.getProp k) = .ok ys := by
  match v, h with
  | some (.arr xs), h =>
      simp only [isArrayOfValues, List.all_eq_true] at h
      obtain ⟨ys, hys, _⟩ := mapThrowing_total (f := fun x => x.getProp k) xs
        (fun x hx => getProp_nonNullish x k (h x hx))
      exact ⟨ys, by simp [JsVal.callMap, hys]⟩

theorem message_formatIssue_issueShaped (issue : JsVal) (h : issueShaped issue = true) :
    ∃ y, MessageRoute.formatIssue issue = .ok y := by
  match issue, h with
  | .obj kvs, h =>
      simp only [issueShaped, Bool.and_eq_true] at h
      obtain ⟨ls, hls⟩ := callMap_isArrayOfValues _ "issue.labels" "name" h.1
      obtain ⟨as, has⟩ := callMap_isArrayOfValues _ "issue.assignees" "login" h.2
      simp [MessageRoute.formatIssue, getProp_obj, hls, has]

theorem github_formatIssue_issueShaped (issue : JsVal)
    (h : issueShaped issue = true) :
    ∃ y, GithubIssuesRoute.formatIssue issue = .ok y := by
  match issue, h with
  | .obj kvs, h =>
      simp only [issueShaped, Bool.and_eq_true] at h
      obtain ⟨ls, hls⟩ := callMap_isArrayOfValues _ "issue.labels" "name" h.1
      obtain ⟨as, has⟩ := callMap_isArrayOfValues _ "issue.assignees" "login" h.2
      simp [GithubIssuesRoute.formatIssue, getProp_obj, hls, has]

theorem message_notPullRequest_issueShaped (issue : JsVal)
    (h : issueShaped issue = true) :
    MessageRoute.notPullRequest issue = .ok (!hasTruthyPullRequest issue) := by
  match issue, h with
  | .obj kvs, _ => rfl

theorem github_notPullRequest_issueShaped (issue : JsVal)
    (h : issueShaped issue = true) :
    GithubIssuesRoute.notPullRequest issue = .ok (!hasPullRequestKey issue) := by
  match issue, h with
  | .obj kvs, _ => rfl

theorem wrap_data (opening closing : String) (parts : List String) (gap indent : String) :
    ∃ rest, (JSON.wrap opening closing parts gap indent).data = opening.data ++ rest := by
  unfold JSON.wrap
  split
  · exact ⟨closing.data, by simp [String.data_append]⟩
  · split
    · exact ⟨_, by simp only [String.data_append, List.append_assoc]; rfl⟩
    · exact ⟨_, by simp only [String.data_append, List.append_assoc]; rfl⟩

/-- C2, as stated, fails at `/mcp`: for an upstream list of one issue and no
pull request the text is the JSON of a bare array, not of an object with
`issues` and `total_issues` members. -/
theorem issues_at_mcp_is_not_an_envelope :
    (MessageRoute.list_github_issues sampleEnv
        (worldAnswering (.ok (okJson 200 (.arr [sampleIssue])))) "o" "r").result =
      textResult sampleIssueListing ∧
    ¬ IsIssuesEnvelope sampleIssueListing 1 := by
  constructor
  · rfl
  · rintro ⟨fields, entries, space, h, -⟩
    simp only [JSON.stringify, JSON.serialize, Option.some.injEq] at h
    obtain ⟨rest, hr⟩ := wrap_data "\x7b" "\x7d"
      (JSON.members fields (JSON.gapOf space) ("" ++ JSON.gapOf space)) (JSON.gapOf space) ""
    rw [h] at hr
    have h1 : sampleIssueListing.data.head? = some '[' := by decide
    rw [hr] at h1
    have h2 : ("\x7b".data ++ rest).head? = some (Char.ofNat 123) := rfl
    rw [h2] at h1
    exact absurd h1 (by decide)

/-- C2, amended: for every successful upstream list of `N` values shaped like
issues, of which `K` carry the pull-request marker as the registration tests
it, with `N - K ≥ 1`: at `/mcp/github-issues` the text is the JSON of an object
whose `total_issues` is `N - K` and whose `issues` holds `N - K` entries; at
`/mcp` the text is the JSON of an array of `N - K` entries. -/
theorem issue_count_listed (env : Env) (w : World) (owner repo : String) (r : Response)
    (issues : List JsVal) (ht : falsy env.GITHUB_TOKEN = false) (hok : r.ok = true)
    (hj : r.json = .ok (.arr issues)) (hshape : ∀ i ∈ issues, issueShaped i = true) :
    (w.fetch (GithubIssuesRoute.listIssuesRequest env.GITHUB_TOKEN owner repo) = .ok r →
      1 ≤ issues.length - issues.countP hasPullRequestKey →
      ∃ entries, entries.length = issues.length - issues.countP hasPullRequestKey ∧
        (GithubIssuesRoute.list_github_issues env w owner repo).result =
          textResult (JSON.stringifyObject
            [("repository", .str (owner ++ "/" ++ repo)),
             ("total_issues", .num ((issues.length - issues.countP hasPullRequestKey : Nat))),
             ("issues", .arr entries)] 2) ∧
        IsIssuesEnvelope (JSON.stringifyObject
            [("repository", .str (owner ++ "/" ++ repo)),
             ("total_issues", .num ((issues.length - issues.countP hasPullRequestKey : Nat))),
             ("issues", .arr entries)] 2)
          (issues.length - issues.countP hasPullRequestKey)) ∧
    (w.fetch (MessageRoute.listIssuesRequest env.GITHUB_TOKEN owner repo) = .ok r →
      1 ≤ issues.length - issues.countP hasTruthyPullRequest →
      ∃ entries, entries.length = issues.length - issues.countP hasTruthyPullRequest ∧
        (MessageRoute.list_github_issues env w owner repo).result =
          textResult (JSON.stringifyArray entries 2)) := by
  constructor
  · intro hf hpos
    have hfilter := filterThrowing_total (q := fun i => !hasPullRequestKey i) issues
      (fun i hi => github_notPullRequest_issueShaped i (hshape i hi))
    have hlen := length_filter_not hasPullRequestKey issues
    obtain ⟨entries, hmap, hentries⟩ :=
      mapThrowing_total (f := GithubIssuesRoute.formatIssue)
        (issues.filter (fun i => !hasPullRequestKey i))
        (fun i hi => github_formatIssue_issueShaped i
          (hshape i (List.mem_of_mem_filter hi)))
    have hne : (issues.filter (fun i => !hasPullRequestKey i)).length ≠ 0 := by omega
    have hne' : issues.length - issues.countP hasPullRequestKey ≠ 0 := by omega
    refine ⟨entries, by omega, ?_, ?_⟩
    · simp only [GithubIssuesRoute.list_github_issues, GithubIssuesRoute.list_github_issues_try,
        tryCatch, ht, hf, hok, hj, JsVal.callFilter, hfilter, hne, hne', hmap, hentries, hlen,
        Eff.bind_call_ok, Eff.bind_lift_ok, Bool.not_true, Bool.false_eq_true, if_false,
        Eff.pure_out]
    · exact ⟨[("repository", .str (owner ++ "/" ++ repo)),
          ("total_issues", .num ((issues.length - issues.countP hasPullRequestKey : Nat))),
          ("issues", .arr entries)], entries, 2,
        by simp [JSON.stringify, JSON.serialize, JSON.stringifyObject],
        by simp [JsVal.lookup], by omega, by simp [JsVal.lookup]⟩
  · intro hf hpos
    have hfilter := filterThrowing_total (q := fun i => !hasTruthyPullRequest i) issues
      (fun i hi => message_notPullRequest_issueShaped i (hshape i hi))
    have hlen := length_filter_not hasTruthyPullRequest issues
    obtain ⟨entries, hmap, hentries⟩ :=
      mapThrowing_total (f := MessageRoute.formatIssue)
        (issues.filter (fun i => !hasTruthyPullRequest i))
        (fun i hi => message_formatIssue_issueShaped i
          (hshape i (List.mem_of_mem_filter hi)))
    have hne : (issues.filter (fun i => !hasTruthyPullRequest i)).length ≠ 0 := by omega
    refine ⟨entries, by omega, ?_⟩
    simp only [MessageRoute.list_github_issues, MessageRoute.list_github_issues_try,
      tryCatch, ht, hf, hok, hj, JsVal.callFilter, hfilter, hne, hmap,
      Eff.bind_call_ok, Eff.bind_lift_ok, Bool.not_true, Bool.false_eq_true, if_false,
      Eff.pure_out]

/-- The amended C2 at an upstream list of one issue and one pull request. -/
theorem issue_count_listed_witness :
    (∃ entries, entries.length = 1 ∧
      (GithubIssuesRoute.list_github_issues sampleEnv
          (worldAnswering (.ok (okJson 200 (.arr [sampleIssue, samplePullRequest]))))
          "o" "r").result =
        textResult (JSON.stringifyObject
          [("repository", .str "o/r"), ("total_issues", .num 1),
           ("issues", .arr entries)] 2)) ∧
    (∃ entries, entries.length = 1 ∧
      (MessageRoute.list_github_issues sampleEnv
          (worldAnswering (.ok (okJson 200 (.arr [sampleIssue, samplePullRequest]))))
          "o" "r").result =
        textResult (JSON.stringifyArray entries 2)) := by
  have h := issue_count_listed sampleEnv
    (worldAnswering (.ok (okJson 200 (.arr [sampleIssue, samplePullRequest])))) "o" "r"
    (okJson 200 (.arr [sampleIssue, samplePullRequest])) [sampleIssue, samplePullRequest]
    (by decide) (by decide) rfl (by decide)
  constructor
  · obtain ⟨entries, hlen, hres, -⟩ := h.1 rfl (by decide)
    exact ⟨entries, hlen, hres⟩
  · obtain ⟨entries, hlen, hres⟩ := h.2 rfl (by decide)
    exact ⟨entries, hlen, hres⟩

/-! ## C7: the envelope of `add_github_issue_comment` -/

/-- C7, as stated, fails: when the commented number is a pull request the
upstream answers successfully with an `html_url` under `/pull/`, and the
envelope's `comment_url` does not begin with the `issue_url` it reports. -/
theorem comment_url_need_not_extend_issue_url :
    (MessageRoute.add_github_issue_comment sampleEnv
        (worldAnswering (.ok (okJson 201 pullRequestComment))) "o" "r" 5 "hi").result =
      textResult (JSON.stringifyObject
        [("success", .bool true),
         ("comment_id", .num 1001),
         ("comment_url", .str "https://github.com/o/r/pull/5#issuecomment-1001"),
         ("issue_url", .str "https://github.com/o/r/issues/5"),
         ("created_at", .str "2024-01-01T00:00:00Z")] 2) ∧
    MessageRoute.issueUrl "o" "r" 5 = "https://github.com/o/r/issues/5" ∧
    ¬ StartsWith "https://github.com/o/r/pull/5#issuecomment-1001"
        "https://github.com/o/r/issues/5" := by
  refine ⟨rfl, by decide, ?_⟩
  unfold StartsWith
  decide

/-- C7, amended: on a successful upstream answer whose JSON is an object, the
result is the non-error envelope whose `comment_id` and `comment_url` are the
answer's `id` and `html_url` copied unchanged (left out when the answer lacks
them) and whose `issue_url` is
`https://github.com/<owner>/<repo>/issues/<issueNumber>`; so `comment_url`
begins with `issue_url` whenever the answer's `html_url` does. -/
theorem comment_envelope_copies_upstream (env : Env) (w : World) (owner repo : String)
    (issueNumber : Int) (comment : String) (r : Response) (fields : List (String × JsVal))
    (ht : falsy env.GITHUB_TOKEN = false)
    (hf : w.fetch (MessageRoute.commentRequest env.GITHUB_TOKEN owner repo issueNumber comment)
      = .ok r)
    (hok : r.ok = true) (hj : r.json = .ok (.obj fields)) :
    (MessageRoute.add_github_issue_comment env w owner repo issueNumber comment).result =
      textResult (JSON.stringifyObject
        [("success", .bool true),
         ("comment_id", (JsVal.lookup "id" fields).getD .undefined),
         ("comment_url", (JsVal.lookup "html_url" fields).getD .undefined),
         ("issue_url", .str ("https://github.com/" ++ owner ++ "/" ++ repo ++ "/issues/" ++
            toString issueNumber)),
         ("created_at", (JsVal.lookup "created_at" fields).getD .undefined)] 2) ∧
    (∀ url, JsVal.lookup "html_url" fields = some (.str url) →
      StartsWith url (MessageRoute.issueUrl owner repo issueNumber) →
      ∃ rest, (JsVal.lookup "html_url" fields).getD .undefined =
        .str ("https://github.com/" ++ owner ++ "/" ++ repo ++ "/issues/" ++
          toString issueNumber ++ rest)) := by
  constructor
  · simp [MessageRoute.add_github_issue_comment, MessageRoute.add_github_issue_comment_try,
      tryCatch, ht, hf, hok, hj, MessageRoute.commentEnvelope, getProp_obj,
      MessageRoute.issueUrl]
  · intro url hurl hstart
    obtain ⟨rest, hrest⟩ := hstart
    refine ⟨String.mk rest, ?_⟩
    rw [hurl, Option.getD_some]
    congr 1
    apply String.ext
    rw [← hrest, String.data_append]
    rfl

/-- The amended C7 at the answer to a comment on issue 5 of `o/r`. -/
theorem comment_envelope_copies_upstream_witness :
    (MessageRoute.add_github_issue_comment sampleEnv
        (worldAnswering (.ok (okJson 201 issueComment))) "o" "r" 5 "hi").result =
      textResult (JSON.stringifyObject
        [("success", .bool true),
         ("comment_id", .num 1002),
         ("comment_url", .str "https://github.com/o/r/issues/5#issuecomment-1002"),
         ("issue_url", .str "https://github.com/o/r/issues/5"),
         ("created_at", .str "2024-01-01T00:00:00Z")] 2) :=
  (comment_envelope_copies_upstream sampleEnv (worldAnswering (.ok (okJson 201 issueComment)))
    "o" "r" 5 "hi" (okJson 201 issueComment) _ (by decide) rfl (by decide) rfl).1

/-! ## C8: configuration errors -/

theorem contains_intro (pre part post : String) : Contains (pre ++ part ++ post) part :=
  ⟨pre, post, rfl⟩

theorem googleConfigError_names (setting : String) (h : setting ∈ googleSettings) :
    Contains MessageRoute.googleConfigError setting := by
  simp only [googleSettings, List.mem_cons, List.mem_singleton, List.not_mem_nil,
    or_false] at h
  rcases h with h | h | h <;> subst h
  · exact ⟨"Error: Google OAuth2 credentials not configured. Need ",
      ", GOOGLE_CLIENT_SECRET, and GOOGLE_REFRESH_TOKEN in .env.local", by decide⟩
  · exact ⟨"Error: Google OAuth2 credentials not configured. Need GOOGLE_CLIENT_ID, ",
      ", and GOOGLE_REFRESH_TOKEN in .env.local", by decide⟩
  · exact ⟨"Error: Google OAuth2 credentials not configured. Need GOOGLE_CLIENT_ID, " ++
      "GOOGLE_CLIENT_SECRET, and ", " in .env.local", by decide⟩

/-- C8: for every environment, world and argument value, a handler whose
required credential is absent (`undefined` or empty) issues no upstream call
and returns `isError = true` with a single text that names the missing
setting: `GITHUB_TOKEN` for both `list_github_issues`, for
`add_github_issue_comment` and for `create_google_doc_for_issue`;
`OURA_API_TOKEN` for `get_oura_stress_recovery`; and the three Google settings
for `edit_google_doc` and, when the GitHub token is configured, for
`create_google_doc_for_issue`. -/
theorem missing_credential_is_reported (env : Env) (w : World) :
    (falsy env.GITHUB_TOKEN = true →
      (∀ owner repo,
        ConfigurationError (MessageRoute.list_github_issues env w owner repo)
          ["GITHUB_TOKEN"]) ∧
      (∀ owner repo,
        ConfigurationError (GithubIssuesRoute.list_github_issues env w owner repo)
          ["GITHUB_TOKEN"]) ∧
      (∀ owner repo issueNumber comment,
        ConfigurationError
          (MessageRoute.add_github_issue_comment env w owner repo issueNumber comment)
          ["GITHUB_TOKEN"]) ∧
      (∀ owner repo issueNumber,
        ConfigurationError
          (MessageRoute.create_google_doc_for_issue env w owner repo issueNumber)
          ["GITHUB_TOKEN"])) ∧
    (falsy env.OURA_API_TOKEN = true →
      ∀ daysArg,
        ConfigurationError (MessageRoute.get_oura_stress_recovery env w daysArg)
          ["OURA_API_TOKEN"]) ∧
    ((falsy env.GOOGLE_CLIENT_ID || falsy env.GOOGLE_CLIENT_SECRET ||
        falsy env.GOOGLE_REFRESH_TOKEN) = true →
      (∀ documentId content,
        ConfigurationError (MessageRoute.edit_google_doc env w documentId content)
          googleSettings) ∧
      (falsy env.GITHUB_TOKEN = false → ∀ owner repo issueNumber,
        ConfigurationError
          (MessageRoute.create_google_doc_for_issue env w owner repo issueNumber)
          googleSettings)) := by
  refine ⟨fun ht => ⟨?_, ?_, ?_, ?_⟩, fun ht daysArg => ?_, fun hg => ⟨?_, ?_⟩⟩
  · intro owner repo
    have h : MessageRoute.list_github_issues env w owner repo =
        ⟨[], errorResult "Error: GITHUB_TOKEN not configured in environment variables"⟩ := by
      simp only [MessageRoute.list_github_issues, ht, if_true]
    rw [h]
    refine ⟨rfl, rfl, _, rfl, ?_⟩
    simp only [List.mem_singleton, forall_eq]
    exact ⟨"Error: ", " not configured in environment variables", by decide⟩
  · intro owner repo
    have h : GithubIssuesRoute.list_github_issues env w owner repo =
        ⟨[], errorResult "Error: GITHUB_TOKEN environment variable is not set"⟩ := by
      simp only [GithubIssuesRoute.list_github_issues, ht, if_true]
    rw [h]
    refine ⟨rfl, rfl, _, rfl, ?_⟩
    simp only [List.mem_singleton, forall_eq]
    exact ⟨"Error: ", " environment variable is not set", by decide⟩
  · intro owner repo issueNumber comment
    have h : MessageRoute.add_github_issue_comment env w owner repo issueNumber comment =
        ⟨[], errorResult "Error: GITHUB_TOKEN not configured in environment variables"⟩ := by
      simp only [MessageRoute.add_github_issue_comment, ht, if_true]
    rw [h]
    refine ⟨rfl, rfl, _, rfl, ?_⟩
    simp only [List.mem_singleton, forall_eq]
    exact ⟨"Error: ", " not configured in environment variables", by decide⟩
  · intro owner repo issueNumber
    have h : MessageRoute.create_google_doc_for_issue env w owner repo issueNumber =
        ⟨[], errorResult "Error: GITHUB_TOKEN not configured"⟩ := by
      simp only [MessageRoute.create_google_doc_for_issue, ht, if_true]
    rw [h]
    refine ⟨rfl, rfl, _, rfl, ?_⟩
    simp only [List.mem_singleton, forall_eq]
    exact ⟨"Error: ", " not configured", by decide⟩
  · have h : MessageRoute.get_oura_stress_recovery env w daysArg =
        ⟨[], errorResult "Error: OURA_API_TOKEN not configured in environment variables"⟩ := by
      simp only [MessageRoute.get_oura_stress_recovery, ht, if_true]
    rw [h]
    refine ⟨rfl, rfl, _, rfl, ?_⟩
    simp only [List.mem_singleton, forall_eq]
    exact ⟨"Error: ", " not configured in environment variables", by decide⟩
  · intro documentId content
    have h : MessageRoute.edit_google_doc env w documentId content =
        ⟨[], errorResult MessageRoute.googleConfigError⟩ := by
      simp only [MessageRoute.edit_google_doc, hg, if_true]
    rw [h]
    exact ⟨rfl, rfl, _, rfl, googleConfigError_names⟩
  · intro ht owner repo issueNumber
    have h : MessageRoute.create_google_doc_for_issue env w owner repo issueNumber =
        ⟨[], errorResult MessageRoute.googleConfigError⟩ := by
      simp only [MessageRoute.create_google_doc_for_issue, ht, hg, if_true, if_false,
        Bool.false_eq_true]
    rw [h]
    exact ⟨rfl, rfl, _, rfl, googleConfigError_names⟩

/-- C8 at an environment without any setting and at one whose Google client
secret is the empty string. -/
theorem missing_credential_is_reported_witness :
    ConfigurationError (MessageRoute.list_github_issues emptyEnv
      (worldAnswering (.ok notFound)) "o" "r") ["GITHUB_TOKEN"] ∧
    ConfigurationError (MessageRoute.create_google_doc_for_issue emptyEnv
      (worldAnswering (.ok notFound)) "o" "r" 5) ["GITHUB_TOKEN"] ∧
    ConfigurationError (MessageRoute.get_oura_stress_recovery emptySecretEnv
      (worldAnswering (.ok notFound)) (some 3)) ["OURA_API_TOKEN"] ∧
    ConfigurationError (MessageRoute.edit_google_doc emptySecretEnv
      (worldAnswering (.ok notFound)) "doc" "text") googleSettings ∧
    ConfigurationError (MessageRoute.create_google_doc_for_issue emptySecretEnv
      (worldAnswering (.ok notFound)) "o" "r" 5) googleSettings :=
  ⟨((missing_credential_is_reported emptyEnv (worldAnswering (.ok notFound))).1
      (by decide)).1 "o" "r",
   ((missing_credential_is_reported emptyEnv (worldAnswering (.ok notFound))).1
      (by decide)).2.2.2 "o" "r" 5,
   (missing_credential_is_reported emptySecretEnv (worldAnswering (.ok notFound))).2.1
      (by decide) (some 3),
   ((missing_credential_is_reported emptySecretEnv (worldAnswering (.ok notFound))).2.2
      (by decide)).1 "doc" "text",
   ((missing_credential_is_reported emptySecretEnv (worldAnswering (.ok notFound))).2.2
      (by decide)).2 (by decide) "o" "r" 5⟩

/-! ## C9: thrown values are recovered into the result -/

theorem returns_error (text : String) (calls : List Call) :
    ReturnsEnvelope ⟨calls, errorResult text⟩ := ⟨text, Or.inr rfl⟩

theorem tryCatch_returns (body : Eff ToolResult) (lead : String)
    (h : Eff.Yields (fun r => ∃ text, r = textResult text ∨ r = errorResult text) body) :
    ReturnsEnvelope (tryCatch body lead) := by
  unfold tryCatch
  split
  · next r hr => exact h r hr
  · exact ⟨_, Or.inr rfl⟩

theorem message_list_try_returns (token : Option String) (w : World) (owner repo : String) :
    Eff.Yields (fun r => ∃ text, r = textResult text ∨ r = errorResult text)
      (MessageRoute.list_github_issues_try token w owner repo) := by
  unfold MessageRoute.list_github_issues_try
  refine yields_bind _ _ (fun response => ?_)
  split
  · refine yields_bind _ _ (fun error => ?_)
    exact yields_pure ⟨_, Or.inr rfl⟩
  · refine yields_bind _ _ (fun issues => ?_)
    refine yields_bind _ _ (fun actualIssues => ?_)
    split
    · exact yields_pure ⟨_, Or.inl rfl⟩
    · refine yields_bind _ _ (fun formattedIssues => ?_)
      exact yields_pure ⟨_, Or.inl rfl⟩

theorem github_list_try_returns (token : Option String) (w : World) (owner repo : String) :
    Eff.Yields (fun r => ∃ text, r = textResult text ∨ r = errorResult text)
      (GithubIssuesRoute.list_github_issues_try token w owner repo) := by
  unfold GithubIssuesRoute.list_github_issues_try
  refine yields_bind _ _ (fun response => ?_)
  split
  · refine yields_bind _ _ (fun errorText => ?_)
    exact yields_pure ⟨_, Or.inr rfl⟩
  · refine yields_bind _ _ (fun issues => ?_)
    refine yields_bind _ _ (fun actualIssues => ?_)
    split
    · exact yields_pure ⟨_, Or.inl rfl⟩
    · refine yields_bind _ _ (fun issueList => ?_)
      exact yields_pure ⟨_, Or.inl rfl⟩

theorem oura_try_returns (token : Option String) (w : World) (days : JsNumber) :
    Eff.Yields (fun r => ∃ text, r = textResult text ∨ r = errorResult text)
      (MessageRoute.get_oura_stress_recovery_try token w days) := by
  unfold MessageRoute.get_oura_stress_recovery_try
  refine yields_bind _ _ (fun startText => ?_)
  refine yields_bind _ _ (fun endText => ?_)
  refine yields_bind _ _ (fun response => ?_)
  split
  · refine yields_bind _ _ (fun error => ?_)
    exact yields_pure ⟨_, Or.inr rfl⟩
  · refine yields_bind _ _ (fun data => ?_)
    refine yields_bind _ _ (fun dataData => ?_)
    refine yields_bind _ _ (fun empty => ?_)
    split
    · exact yields_pure ⟨_, Or.inl rfl⟩
    · refine yields_bind _ _ (fun formattedData => ?_)
      exact yields_pure ⟨_, Or.inl rfl⟩

theorem create_doc_try_returns (env : Env) (w : World) (owner repo : String)
    (issueNumber : Int) :
    Eff.Yields (fun r => ∃ text, r = textResult text ∨ r = errorResult text)
      (MessageRoute.create_google_doc_for_issue_try env w owner repo issueNumber) := by
  unfold MessageRoute.create_google_doc_for_issue_try
  refine yields_bind _ _ (fun issueResponse => ?_)
  split
  · refine yields_bind _ _ (fun error => ?_)
    exact yields_pure ⟨_, Or.inr rfl⟩
  · refine yields_bind _ _ (fun issue => ?_)
    refine yields_bind _ _ (fun title => ?_)
    refine yields_bind _ _ (fun createResponse => ?_)
    dsimp only
    split
    · exact yields_pure ⟨_, Or.inr rfl⟩
    · refine yields_bind _ _ (fun html_url => ?_)
      refine yields_bind _ _ (fun _ => ?_)
      exact yields_pure ⟨_, Or.inl rfl⟩

theorem edit_doc_try_returns (env : Env) (w : World) (documentId content : String) :
    Eff.Yields (fun r => ∃ text, r = textResult text ∨ r = errorResult text)
      (MessageRoute.edit_google_doc_try env w documentId content) := by
  unfold MessageRoute.edit_google_doc_try
  refine yields_bind _ _ (fun doc => ?_)
  split
  · exact yields_pure ⟨_, Or.inr rfl⟩
  · refine yields_bind _ _ (fun endIndex => ?_)
    refine yields_bind _ _ (fun _ => ?_)
    exact yields_pure ⟨_, Or.inl rfl⟩

theorem comment_try_returns (token : Option String) (w : World) (owner repo : String)
    (issueNumber : Int) (comment : String) :
    Eff.Yields (fun r => ∃ text, r = textResult text ∨ r = errorResult text)
      (MessageRoute.add_github_issue_comment_try token w owner repo issueNumber comment) := by
  unfold MessageRoute.add_github_issue_comment_try
  refine yields_bind _ _ (fun response => ?_)
  split
  · refine yields_bind _ _ (fun error => ?_)
    exact yields_pure ⟨_, Or.inr rfl⟩
  · refine yields_bind _ _ (fun commentData => ?_)
    refine yields_bind _ _ (fun envelope => ?_)
    exact yields_pure ⟨_, Or.inl rfl⟩

theorem handlers_return_envelopes (env : Env) (w : World) :
    (∀ message, ReturnsEnvelope (MessageRoute.echo message)) ∧
    (∀ owner repo, ReturnsEnvelope (MessageRoute.list_github_issues env w owner repo)) ∧
    (∀ owner repo, ReturnsEnvelope (GithubIssuesRoute.list_github_issues env w owner repo)) ∧
    (∀ daysArg, ReturnsEnvelope (MessageRoute.get_oura_stress_recovery env w daysArg)) ∧
    (∀ owner repo issueNumber,
      ReturnsEnvelope (MessageRoute.create_google_doc_for_issue env w owner repo issueNumber)) ∧
    (∀ documentId content,
      ReturnsEnvelope (MessageRoute.edit_google_doc env w documentId content)) ∧
    (∀ owner repo issueNumber comment,
      ReturnsEnvelope
        (MessageRoute.add_github_issue_comment env w owner repo issueNumber comment)) := by
  refine ⟨fun message => ⟨_, Or.inl rfl⟩, ?_, ?_, ?_, ?_, ?_, ?_⟩
  · intro owner repo
    unfold MessageRoute.list_github_issues
    dsimp only
    split
    · exact returns_error _ _
    · exact tryCatch_returns _ _ (message_list_try_returns _ _ _ _)
  · intro owner repo
    unfold GithubIssuesRoute.list_github_issues
    dsimp only
    split
    · exact returns_error _ _
    · exact tryCatch_returns _ _ (github_list_try_returns _ _ _ _)
  · intro daysArg
    unfold MessageRoute.get_oura_stress_recovery
    dsimp only
    split
    · exact returns_error _ _
    · exact tryCatch_returns _ _ (oura_try_returns _ _ _)
  · intro owner repo issueNumber
    unfold MessageRoute.create_google_doc_for_issue
    split
    · exact returns_error _ _
    · split
      · exact returns_error _ _
      · exact tryCatch_returns _ _ (create_doc_try_returns _ _ _ _ _)
  · intro documentId content
    unfold MessageRoute.edit_google_doc
    split
    · exact returns_error _ _
    · exact tryCatch_returns _ _ (edit_doc_try_returns _ _ _ _)
  · intro owner repo issueNumber comment
    unfold MessageRoute.add_github_issue_comment
    dsimp only
    split
    · exact returns_error _ _
    · exact tryCatch_returns _ _ (comment_try_returns _ _ _ _ _ _)

/-- C9: for every environment, world and argument value every handler returns
an envelope built by one of its return statements; and with the credentials
configured, whichever step of a handler throws (the request, reading the body
of a non-success answer, parsing a body that is not JSON, filtering a JSON
value that is not a list, formatting an issue without `labels`, reading a
member of `null`, formatting the invalid date, a call of the Google client,
reading the last element of an empty content list), the handler returns
`isError = true` with the single text `<lead>` followed by the message of the
thrown value. -/
theorem thrown_values_are_recovered (env : Env) (w : World) :
    ((∀ message, ReturnsEnvelope (MessageRoute.echo message)) ∧
      (∀ owner repo, ReturnsEnvelope (MessageRoute.list_github_issues env w owner repo)) ∧
      (∀ owner repo,
        ReturnsEnvelope (GithubIssuesRoute.list_github_issues env w owner repo)) ∧
      (∀ daysArg, ReturnsEnvelope (MessageRoute.get_oura_stress_recovery env w daysArg)) ∧
      (∀ owner repo issueNumber,
        ReturnsEnvelope
          (MessageRoute.create_google_doc_for_issue env w owner repo issueNumber)) ∧
      (∀ documentId content,
        ReturnsEnvelope (MessageRoute.edit_google_doc env w documentId content)) ∧
      (∀ owner repo issueNumber comment,
        ReturnsEnvelope
          (MessageRoute.add_github_issue_comment env w owner repo issueNumber comment))) ∧
    (∀ owner repo, falsy env.GITHUB_TOKEN = false →
      (∀ e, w.fetch (MessageRoute.listIssuesRequest env.GITHUB_TOKEN owner repo) = .error e →
        Recovered (MessageRoute.list_github_issues env w owner repo)
          "Error fetching issues: " e) ∧
      (∀ r, w.fetch (MessageRoute.listIssuesRequest env.GITHUB_TOKEN owner repo) = .ok r →
        (∀ e, r.ok = false → r.text = .error e →
          Recovered (MessageRoute.list_github_issues env w owner repo)
            "Error fetching issues: " e) ∧
        (r.ok = true →
          (∀ e, r.json = .error e →
            Recovered (MessageRoute.list_github_issues env w owner repo)
              "Error fetching issues: " e) ∧
          (∀ issues, r.json = .ok issues →
            (∀ e, issues.callFilter "issues" MessageRoute.notPullRequest = .error e →
              Recovered (MessageRoute.list_github_issues env w owner repo)
                "Error fetching issues: " e) ∧
            (∀ actualIssues e,
              issues.callFilter "issues" MessageRoute.notPullRequest = .ok actualIssues →
              mapThrowing MessageRoute.formatIssue actualIssues = .error e →
              Recovered (MessageRoute.list_github_issues env w owner repo)
                "Error fetching issues: " e) ∧
            (∀ members, issues = .obj members →
              Recovered (MessageRoute.list_github_issues env w owner repo)
                "Error fetching issues: " (typeError "issues.filter is not a function")) ∧
            (∀ members rest kept, issues = .arr (.obj members :: rest) →
              JsVal.lookup "pull_request" members = none →
              JsVal.lookup "labels" members = none →
              filterThrowing MessageRoute.notPullRequest rest = .ok kept →
              Recovered (MessageRoute.list_github_issues env w owner repo)
                "Error fetching issues: "
                (typeError "Cannot read properties of undefined (reading \x27map\x27)")))))) ∧
    (∀ owner repo, falsy env.GITHUB_TOKEN = false →
      (∀ e, w.fetch (GithubIssuesRoute.listIssuesRequest env.GITHUB_TOKEN owner repo) =
          .error e →
        Recovered (GithubIssuesRoute.list_github_issues env w owner repo)
          "Error fetching issues: " e) ∧
      (∀ r, w.fetch (GithubIssuesRoute.listIssuesRequest env.GITHUB_TOKEN owner repo) = .ok r →
        (∀ e, r.ok = false → r.text = .error e →
          Recovered (GithubIssuesRoute.list_github_issues env w owner repo)
            "Error fetching issues: " e) ∧
        (r.ok = true →
          (∀ e, r.json = .error e →
            Recovered (GithubIssuesRoute.list_github_issues env w owner repo)
              "Error fetching issues: " e) ∧
          (∀ issues, r.json = .ok issues →
            (∀ e, issues.callFilter "issues" GithubIssuesRoute.notPullRequest = .error e →
              Recovered (GithubIssuesRoute.list_github_issues env w owner repo)
                "Error fetching issues: " e) ∧
            (∀ actualIssues e,
              issues.callFilter "issues" GithubIssuesRoute.notPullRequest = .ok actualIssues →
              mapThrowing GithubIssuesRoute.formatIssue actualIssues = .error e →
              Recovered (GithubIssuesRoute.list_github_issues env w owner repo)
                "Error fetching issues: " e) ∧
            (∀ members, issues = .obj members →
              Recovered (GithubIssuesRoute.list_github_issues env w owner repo)
                "Error fetching issues: " (typeError "issues.filter is not a function")) ∧
            (∀ members rest kept, issues = .arr (.obj members :: rest) →
              JsVal.lookup "pull_request" members = none →
              JsVal.lookup "labels" members = none →
              filterThrowing GithubIssuesRoute.notPullRequest rest = .ok kept →
              Recovered (GithubIssuesRoute.list_github_issues env w owner repo)
                "Error fetching issues: "
                (typeError "Cannot read properties of undefined (reading \x27map\x27)")))))) ∧
    (∀ daysArg, falsy env.OURA_API_TOKEN = false →
      (∀ e, formatDate (MessageRoute.ouraStartDate w (daysArg.getD 7)) = .error e →
        Recovered (MessageRoute.get_oura_stress_recovery env w daysArg)
          "Error fetching OURA data: " e) ∧
      (∀ startText endText,
        formatDate (MessageRoute.ouraStartDate w (daysArg.getD 7)) = .ok startText →
        formatDate (some w.clockFirst) = .ok endText →
        (∀ e, w.fetch (MessageRoute.ouraRequest env.OURA_API_TOKEN startText endText) =
            .error e →
          Recovered (MessageRoute.get_oura_stress_recovery env w daysArg)
            "Error fetching OURA data: " e) ∧
        (∀ r, w.fetch (MessageRoute.ouraRequest env.OURA_API_TOKEN startText endText) =
            .ok r →
          (∀ e, r.ok = false → r.text = .error e →
            Recovered (MessageRoute.get_oura_stress_recovery env w daysArg)
              "Error fetching OURA data: " e) ∧
          (r.ok = true →
            (∀ e, r.json = .error e →
              Recovered (MessageRoute.get_oura_stress_recovery env w daysArg)
                "Error fetching OURA data: " e) ∧
            (∀ data, r.json = .ok data →
              (∀ e, data.getProp "data" = .error e →
                Recovered (MessageRoute.get_oura_stress_recovery env w daysArg)
                  "Error fetching OURA data: " e) ∧
              (data = .null →
                Recovered (MessageRoute.get_oura_stress_recovery env w daysArg)
                  "Error fetching OURA data: "
                  (typeError "Cannot read properties of null (reading \x27data\x27)")) ∧
              (∀ dataData e, data.getProp "data" = .ok dataData →
                MessageRoute.noData dataData = .ok false →
                dataData.callMap "data.data" MessageRoute.formatEntry = .error e →
                Recovered (MessageRoute.get_oura_stress_recovery env w daysArg)
                  "Error fetching OURA data: " e)))))) ∧
    (∀ owner repo issueNumber, falsy env.GITHUB_TOKEN = false →
      (falsy env.GOOGLE_CLIENT_ID || falsy env.GOOGLE_CLIENT_SECRET ||
        falsy env.GOOGLE_REFRESH_TOKEN) = false →
      (∀ e, w.fetch (MessageRoute.issueRequest env.GITHUB_TOKEN owner repo issueNumber) =
          .error e →
        Recovered (MessageRoute.create_google_doc_for_issue env w owner repo issueNumber)
          "Error creating Google Doc: " e) ∧
      (∀ r, w.fetch (MessageRoute.issueRequest env.GITHUB_TOKEN owner repo issueNumber) =
          .ok r →
        (∀ e, r.ok = false → r.text = .error e →
          Recovered (MessageRoute.create_google_doc_for_issue env w owner repo issueNumber)
            "Error creating Google Doc: " e) ∧
        (r.ok = true →
          (∀ e, r.json = .error e →
            Recovered (MessageRoute.create_google_doc_for_issue env w owner repo issueNumber)
              "Error creating Google Doc: " e) ∧
          (∀ issue, r.json = .ok issue →
            (∀ e, issue.getProp "title" = .error e →
              Recovered (MessageRoute.create_google_doc_for_issue env w owner repo issueNumber)
                "Error creating Google Doc: " e) ∧
            (∀ title, issue.getProp "title" = .ok title →
              (∀ message,
                w.filesCreate (MessageRoute.oauth2Client env)
                    (MessageRoute.createParams env.GOOGLE_DRIVE_FOLDER_ID
                      (repo ++ " - Issue #" ++ toString issueNumber ++ ": " ++
                        title.toJsString)) = .error (.error message) →
                Recovered
                  (MessageRoute.create_google_doc_for_issue env w owner repo issueNumber)
                  "Error creating Google Doc: " (.error message)) ∧
              (∀ rendering,
                w.filesCreate (MessageRoute.oauth2Client env)
                    (MessageRoute.createParams env.GOOGLE_DRIVE_FOLDER_ID
                      (repo ++ " - Issue #" ++ toString issueNumber ++ ": " ++
                        title.toJsString)) = .error (.other rendering) →
                Recovered
                  (MessageRoute.create_google_doc_for_issue env w owner repo issueNumber)
                  "Error creating Google Doc: " (.other rendering)) ∧
              (∀ isNull,
                w.filesCreate (MessageRoute.oauth2Client env)
                    (MessageRoute.createParams env.GOOGLE_DRIVE_FOLDER_ID
                      (repo ++ " - Issue #" ++ toString issueNumber ++ ": " ++
                        title.toJsString)) = .error (.nullish isNull) →
                Recovered
                  (MessageRoute.create_google_doc_for_issue env w owner repo issueNumber)
                  "Error creating Google Doc: "
                  (typeError ("Cannot read properties of " ++
                    (if isNull then "null" else "undefined") ++
                    " (reading \x27stack\x27)"))) ∧
              (∀ id html_url e,
                w.filesCreate (MessageRoute.oauth2Client env)
                    (MessageRoute.createParams env.GOOGLE_DRIVE_FOLDER_ID
                      (repo ++ " - Issue #" ++ toString issueNumber ++ ": " ++
                        title.toJsString)) = .ok { id := some id } →
                id ≠ "" → issue.getProp "html_url" = .ok html_url →
                w.documentsBatchUpdate (MessageRoute.oauth2Client env) id
                    [{ index := 1
                       text := "Issue Details: " ++ html_url.toJsString ++ "\n" }] =
                  .error e →
                Recovered
                  (MessageRoute.create_google_doc_for_issue env w owner repo issueNumber)
                  "Error creating Google Doc: " e)))))) ∧
    (∀ documentId content,
      (falsy env.GOOGLE_CLIENT_ID || falsy env.GOOGLE_CLIENT_SECRET ||
        falsy env.GOOGLE_REFRESH_TOKEN) = false →
      (∀ e, w.documentsGet (MessageRoute.oauth2Client env) documentId = .error e →
        Recovered (MessageRoute.edit_google_doc env w documentId content)
          "Error editing Google Doc: " e) ∧
      (∀ doc, w.documentsGet (MessageRoute.oauth2Client env) documentId = .ok doc →
        (MessageRoute.bodyContent doc = some [] →
          Recovered (MessageRoute.edit_google_doc env w documentId content)
            "Error editing Google Doc: "
            (typeError "Cannot read properties of undefined (reading \x27endIndex\x27)")) ∧
        (∀ elements last e, MessageRoute.bodyContent doc = some elements →
          elements.getLast? = some last →
          w.documentsBatchUpdate (MessageRoute.oauth2Client env) documentId
              [{ index := MessageRoute.insertionIndex last.endIndex
                 text := "\n" ++ content }] = .error e →
          Recovered (MessageRoute.edit_google_doc env w documentId content)
            "Error editing Google Doc: " e))) ∧
    (∀ owner repo issueNumber comment, falsy env.GITHUB_TOKEN = false →
      (∀ e, w.fetch (MessageRoute.commentRequest env.GITHUB_TOKEN owner repo issueNumber
          comment) = .error e →
        Recovered (MessageRoute.add_github_issue_comment env w owner repo issueNumber comment)
          "Error adding comment to GitHub issue: " e) ∧
      (∀ r, w.fetch (MessageRoute.commentRequest env.GITHUB_TOKEN owner repo issueNumber
          comment) = .ok r →
        (∀ e, r.ok = false → r.text = .error e →
          Recovered
            (MessageRoute.add_github_issue_comment env w owner repo issueNumber comment)
            "Error adding comment to GitHub issue: " e) ∧
        (r.ok = true →
          (∀ e, r.json = .error e →
            Recovered
              (MessageRoute.add_github_issue_comment env w owner repo issueNumber comment)
              "Error adding comment to GitHub issue: " e) ∧
          (∀ commentData e, r.json = .ok commentData →
            MessageRoute.commentEnvelope commentData owner repo issueNumber = .error e →
            Recovered
              (MessageRoute.add_github_issue_comment env w owner repo issueNumber comment)
              "Error adding comment to GitHub issue: " e) ∧
          (r.json = .ok .null →
            Recovered
              (MessageRoute.add_github_issue_comment env w owner repo issueNumber comment)
              "Error adding comment to GitHub issue: "
              (typeError "Cannot read properties of null (reading \x27id\x27)"))))) := by
  refine ⟨handlers_return_envelopes env w, ?_, ?_, ?_, ?_, ?_, ?_⟩
  · intro owner repo ht
    refine ⟨fun e hf => ?_, fun r hf => ⟨fun e hok hb => ?_, fun hok =>
      ⟨fun e hj => ?_, fun issues hj => ⟨fun e hfl => ?_, fun kept e hfl hmap => ?_,
        fun members hv => ?_, fun members rest kept hv hpr hlb hrest => ?_⟩⟩⟩⟩
    · simp [Recovered, MessageRoute.list_github_issues, MessageRoute.list_github_issues_try,
        tryCatch, ht, hf]
    · simp [Recovered, MessageRoute.list_github_issues, MessageRoute.list_github_issues_try,
        tryCatch, ht, hf, hok, hb]
    · simp [Recovered, MessageRoute.list_github_issues, MessageRoute.list_github_issues_try,
        tryCatch, ht, hf, hok, hj]
    · simp [Recovered, MessageRoute.list_github_issues, MessageRoute.list_github_issues_try,
        tryCatch, ht, hf, hok, hj, hfl]
    · cases kept with
      | nil => cases hmap
      | cons issue others =>
          simp [Recovered, MessageRoute.list_github_issues,
            MessageRoute.list_github_issues_try, tryCatch, ht, hf, hok, hj, hfl, hmap]
    · subst hv
      simp [Recovered, MessageRoute.list_github_issues, MessageRoute.list_github_issues_try,
        tryCatch, ht, hf, hok, hj, JsVal.callFilter, typeError, Thrown.describe]
    · subst hv
      simp [Recovered, MessageRoute.list_github_issues, MessageRoute.list_github_issues_try,
        tryCatch, ht, hf, hok, hj, JsVal.callFilter, filterThrowing, mapThrowing,
        MessageRoute.notPullRequest, MessageRoute.formatIssue, getProp_obj, hpr, hlb, hrest,
        JsVal.truthy, JsVal.callMap, JsVal.nullishName, typeError, Thrown.describe]
  · intro owner repo ht
    refine ⟨fun e hf => ?_, fun r hf => ⟨fun e hok hb => ?_, fun hok =>
      ⟨fun e hj => ?_, fun issues hj => ⟨fun e hfl => ?_, fun kept e hfl hmap => ?_,
        fun members hv => ?_, fun members rest kept hv hpr hlb hrest => ?_⟩⟩⟩⟩
    · simp [Recovered, GithubIssuesRoute.list_github_issues,
        GithubIssuesRoute.list_github_issues_try, tryCatch, ht, hf]
    · simp [Recovered, GithubIssuesRoute.list_github_issues,
        GithubIssuesRoute.list_github_issues_try, tryCatch, ht, hf, hok, hb]
    · simp [Recovered, GithubIssuesRoute.list_github_issues,
        GithubIssuesRoute.list_github_issues_try, tryCatch, ht, hf, hok, hj]
    · simp [Recovered, GithubIssuesRoute.list_github_issues,
        GithubIssuesRoute.list_github_issues_try, tryCatch, ht, hf, hok, hj, hfl]
    · cases kept with
      | nil => cases hmap
      | cons issue others =>
          simp [Recovered, GithubIssuesRoute.list_github_issues,
            GithubIssuesRoute.list_github_issues_try, tryCatch, ht, hf, hok, hj, hfl, hmap]
    · subst hv
      simp [Recovered, GithubIssuesRoute.list_github_issues,
        GithubIssuesRoute.list_github_issues_try, tryCatch, ht, hf, hok, hj,
        JsVal.callFilter, typeError, Thrown.describe]
    · subst hv
      simp [Recovered, GithubIssuesRoute.list_github_issues,
        GithubIssuesRoute.list_github_issues_try, tryCatch, ht, hf, hok, hj,
        JsVal.callFilter, filterThrowing, mapThrowing, GithubIssuesRoute.notPullRequest,
        GithubIssuesRoute.formatIssue, JsVal.hasKey, getProp_obj, hpr, hlb, hrest,
        JsVal.callMap, JsVal.nullishName, typeError, Thrown.describe]
  · intro daysArg ht
    refine ⟨fun e hs => ?_, fun startText endText hs he => ⟨fun e hf => ?_, fun r hf =>
      ⟨fun e hok hb => ?_, fun hok => ⟨fun e hj => ?_, fun data hj =>
        ⟨fun e hd => ?_, fun hv => ?_, fun dataData e hd hn hmap => ?_⟩⟩⟩⟩⟩
    · simp [Recovered, MessageRoute.get_oura_stress_recovery,
        MessageRoute.get_oura_stress_recovery_try, tryCatch, ht, hs]
    · simp [Recovered, MessageRoute.get_oura_stress_recovery,
        MessageRoute.get_oura_stress_recovery_try, tryCatch, ht, hs, he, hf]
    · simp [Recovered, MessageRoute.get_oura_stress_recovery,
        MessageRoute.get_oura_stress_recovery_try, tryCatch, ht, hs, he, hf, hok, hb]
    · simp [Recovered, MessageRoute.get_oura_stress_recovery,
        MessageRoute.get_oura_stress_recovery_try, tryCatch, ht, hs, he, hf, hok, hj]
    · simp [Recovered, MessageRoute.get_oura_stress_recovery,
        MessageRoute.get_oura_stress_recovery_try, tryCatch, ht, hs, he, hf, hok, hj, hd]
    · subst hv
      simp [Recovered, MessageRoute.get_oura_stress_recovery,
        MessageRoute.get_oura_stress_recovery_try, tryCatch, ht, hs, he, hf, hok, hj,
        JsVal.getProp, JsVal.nullishName, typeError, Thrown.describe]
    · simp [Recovered, MessageRoute.get_oura_stress_recovery,
        MessageRoute.get_oura_stress_recovery_try, tryCatch, ht, hs, he, hf, hok, hj, hd, hn,
        hmap]
  · intro owner repo issueNumber ht hg
    refine ⟨fun e hf => ?_, fun r hf => ⟨fun e hok hb => ?_, fun hok =>
      ⟨fun e hj => ?_, fun issue hj => ⟨fun e hti => ?_, fun title hti =>
        ⟨fun message hc => ?_, fun rendering hc => ?_, fun isNull hc => ?_,
          fun id html_url e hc hid hu hwrite => ?_⟩⟩⟩⟩⟩
    · simp [Recovered, MessageRoute.create_google_doc_for_issue, ht, hg,
        MessageRoute.create_google_doc_for_issue_try, tryCatch, hf]
    · simp [Recovered, MessageRoute.create_google_doc_for_issue, ht, hg,
        MessageRoute.create_google_doc_for_issue_try, tryCatch, hf, hok, hb]
    · simp [Recovered, MessageRoute.create_google_doc_for_issue, ht, hg,
        MessageRoute.create_google_doc_for_issue_try, tryCatch, hf, hok, hj]
    · simp [Recovered, MessageRoute.create_google_doc_for_issue, ht, hg,
        MessageRoute.create_google_doc_for_issue_try, tryCatch, hf, hok, hj, hti]
    · simp [Recovered, MessageRoute.create_google_doc_for_issue, ht, hg,
        MessageRoute.create_google_doc_for_issue_try, tryCatch, hf, hok, hj, hti, hc,
        MessageRoute.logAndRethrow]
    · simp [Recovered, MessageRoute.create_google_doc_for_issue, ht, hg,
        MessageRoute.create_google_doc_for_issue_try, tryCatch, hf, hok, hj, hti, hc,
        MessageRoute.logAndRethrow]
    · simp [Recovered, MessageRoute.create_google_doc_for_issue, ht, hg,
        MessageRoute.create_google_doc_for_issue_try, tryCatch, hf, hok, hj, hti, hc,
        MessageRoute.logAndRethrow, typeError, Thrown.describe]
    · have hfalsy : falsy (some id) = false := by simp [falsy, hid]
      simp [Recovered, MessageRoute.create_google_doc_for_issue, ht, hg,
        MessageRoute.create_google_doc_for_issue_try, tryCatch, hf, hok, hj, hti, hc,
        MessageRoute.logAndRethrow, hfalsy, envString, hu, hwrite]
  · intro documentId content hg
    refine ⟨fun e hget => ?_, fun doc hget => ⟨fun hbody => ?_,
      fun elements last e hbody hlast hwrite => ?_⟩⟩
    · simp [Recovered, MessageRoute.edit_google_doc, hg, MessageRoute.edit_google_doc_try,
        tryCatch, hget]
    · simp [Recovered, MessageRoute.edit_google_doc, hg, MessageRoute.edit_google_doc_try,
        tryCatch, hget, hbody, MessageRoute.lastEndIndex, typeError, Thrown.describe]
    · simp [Recovered, MessageRoute.edit_google_doc, hg, MessageRoute.edit_google_doc_try,
        tryCatch, hget, hbody, MessageRoute.lastEndIndex, hlast, hwrite]
  · intro owner repo issueNumber comment ht
    refine ⟨fun e hf => ?_, fun r hf => ⟨fun e hok hb => ?_, fun hok =>
      ⟨fun e hj => ?_, fun commentData e hj henv => ?_, fun hj => ?_⟩⟩⟩
    · simp [Recovered, MessageRoute.add_github_issue_comment,
        MessageRoute.add_github_issue_comment_try, tryCatch, ht, hf]
    · simp [Recovered, MessageRoute.add_github_issue_comment,
        MessageRoute.add_github_issue_comment_try, tryCatch, ht, hf, hok, hb]
    · simp [Recovered, MessageRoute.add_github_issue_comment,
        MessageRoute.add_github_issue_comment_try, tryCatch, ht, hf, hok, hj]
    · simp [Recovered, MessageRoute.add_github_issue_comment,
        MessageRoute.add_github_issue_comment_try, tryCatch, ht, hf, hok, hj, henv]
    · simp [Recovered, MessageRoute.add_github_issue_comment,
        MessageRoute.add_github_issue_comment_try, tryCatch, ht, hf, hok, hj,
        MessageRoute.commentEnvelope, JsVal.getProp, JsVal.nullishName, typeError,
        Thrown.describe]

/-- C9 at each of the six handlers that read a credential: a request that
throws, a body that is not JSON, a JSON object in place of the list, an issue
without `labels`, the invalid date, a JSON `null` in place of the stress data
and of the comment, a failing Drive client, and an empty content list. -/
theorem thrown_values_are_recovered_witness :
    Recovered (MessageRoute.list_github_issues sampleEnv
        (worldAnswering (.error (.error "fetch failed"))) "o" "r")
      "Error fetching issues: " (.error "fetch failed") ∧
    Recovered (GithubIssuesRoute.list_github_issues sampleEnv
        (worldAnswering (.ok htmlBody)) "o" "r")
      "Error fetching issues: " (.error "Unexpected token < in JSON at position 0") ∧
    Recovered (MessageRoute.list_github_issues sampleEnv
        (worldAnswering (.ok (okJson 200 (.obj [("message", .str "moved")])))) "o" "r")
      "Error fetching issues: " (typeError "issues.filter is not a function") ∧
    Recovered (GithubIssuesRoute.list_github_issues sampleEnv
        (worldAnswering (.ok (okJson 200 (.arr [issueWithoutLabels])))) "o" "r")
      "Error fetching issues: "
      (typeError "Cannot read properties of undefined (reading \x27map\x27)") ∧
    Recovered (MessageRoute.get_oura_stress_recovery sampleEnv
        (worldAnswering (.ok emptyStressData)) (some (.infinity true)))
      "Error fetching OURA data: " (.error "Invalid time value") ∧
    Recovered (MessageRoute.get_oura_stress_recovery sampleEnv
        (worldAnswering (.ok (okJson 200 .null))) none)
      "Error fetching OURA data: "
      (typeError "Cannot read properties of null (reading \x27data\x27)") ∧
    Recovered (MessageRoute.create_google_doc_for_issue sampleEnv
        (worldAnswering (.ok (okJson 200 sampleIssue))) "o" "r" 1)
      "Error creating Google Doc: " (.error "unavailable") ∧
    Recovered (MessageRoute.edit_google_doc sampleEnv (worldServing emptyContentDocument)
        "doc" "text")
      "Error editing Google Doc: "
      (typeError "Cannot read properties of undefined (reading \x27endIndex\x27)") ∧
    Recovered (MessageRoute.add_github_issue_comment sampleEnv
        (worldAnswering (.ok (okJson 200 .null))) "o" "r" 5 "hello")
      "Error adding comment to GitHub issue: "
      (typeError "Cannot read properties of null (reading \x27id\x27)") :=
  ⟨((thrown_values_are_recovered sampleEnv
      (worldAnswering (.error (.error "fetch failed")))).2.1 "o" "r" (by decide)).1 _ rfl,
   ((((thrown_values_are_recovered sampleEnv (worldAnswering (.ok htmlBody))).2.2.1
      "o" "r" (by decide)).2 htmlBody rfl).2 (by decide)).1 _ rfl,
   (((((thrown_values_are_recovered sampleEnv
      (worldAnswering (.ok (okJson 200 (.obj [("message", .str "moved")]))))).2.1
      "o" "r" (by decide)).2 _ rfl).2 (by decide)).2 _ rfl).2.2.1 _ rfl,
   (((((thrown_values_are_recovered sampleEnv
      (worldAnswering (.ok (okJson 200 (.arr [issueWithoutLabels]))))).2.2.1
      "o" "r" (by decide)).2 _ rfl).2 (by decide)).2 _ rfl).2.2.2 _ [] [] rfl rfl rfl rfl,
   ((thrown_values_are_recovered sampleEnv (worldAnswering (.ok emptyStressData))).2.2.2.1
      (some (.infinity true)) (by decide)).1 _ rfl,
   ((((((thrown_values_are_recovered sampleEnv
      (worldAnswering (.ok (okJson 200 .null)))).2.2.2.1 none (by decide)).2
      "2022-01-01" "2022-01-08" (by decide) (by decide)).2 _ rfl).2 (by decide)).2 _ rfl).2.1
      rfl,
   ((((((thrown_values_are_recovered sampleEnv
      (worldAnswering (.ok (okJson 200 sampleIssue)))).2.2.2.2.1 "o" "r" 1 (by decide)
      (by decide)).2 _ rfl).2 (by decide)).2 _ rfl).2 _ rfl).1 "unavailable" rfl,
   (((thrown_values_are_recovered sampleEnv (worldServing emptyContentDocument)).2.2.2.2.2.1
      "doc" "text" (by decide)).2 _ rfl).1 rfl,
   ((((thrown_values_are_recovered sampleEnv
      (worldAnswering (.ok (okJson 200 .null)))).2.2.2.2.2.2 "o" "r" 5 "hello"
      (by decide)).2 _ rfl).2 (by decide)).2.2 rfl⟩

/-! ## C10: the envelope invariant -/

theorem tryCatch_single (body : Eff ToolResult) (lead : String)
    (h : Eff.Yields SingleTextBlock body) : SingleTextBlock (tryCatch body lead).result := by
  unfold tryCatch
  split
  · next r hr => exact h r hr
  · exact ⟨_, rfl⟩

theorem message_list_try_single (token : Option String) (w : World) (owner repo : String) :
    Eff.Yields SingleTextBlock (MessageRoute.list_github_issues_try token w owner repo) := by
  unfold MessageRoute.list_github_issues_try
  refine yields_bind _ _ (fun response => ?_)
  split
  · refine yields_bind _ _ (fun error => ?_)
    exact yields_pure ⟨_, rfl⟩
  · refine yields_bind _ _ (fun issues => ?_)
    refine yields_bind _ _ (fun actualIssues => ?_)
    split
    · exact yields_pure ⟨_, rfl⟩
    · refine yields_bind _ _ (fun formattedIssues => ?_)
      exact yields_pure ⟨_, rfl⟩

theorem github_list_try_single (token : Option String) (w : World) (owner repo : String) :
    Eff.Yields SingleTextBlock (GithubIssuesRoute.list_github_issues_try token w owner repo) := by
  unfold GithubIssuesRoute.list_github_issues_try
  refine yields_bind _ _ (fun response => ?_)
  split
  · refine yields_bind _ _ (fun errorText => ?_)
    exact yields_pure ⟨_, rfl⟩
  · refine yields_bind _ _ (fun issues => ?_)
    refine yields_bind _ _ (fun actualIssues => ?_)
    split
    · exact yields_pure ⟨_, rfl⟩
    · refine yields_bind _ _ (fun issueList => ?_)
      exact yields_pure ⟨_, rfl⟩

theorem oura_try_single (token : Option String) (w : World) (days : JsNumber) :
    Eff.Yields SingleTextBlock (MessageRoute.get_oura_stress_recovery_try token w days) := by
  unfold MessageRoute.get_oura_stress_recovery_try
  refine yields_bind _ _ (fun startText => ?_)
  refine yields_bind _ _ (fun endText => ?_)
  refine yields_bind _ _ (fun response => ?_)
  split
  · refine yields_bind _ _ (fun error => ?_)
    exact yields_pure ⟨_, rfl⟩
  · refine yields_bind _ _ (fun data => ?_)
    refine yields_bind _ _ (fun dataData => ?_)
    refine yields_bind _ _ (fun empty => ?_)
    split
    · exact yields_pure ⟨_, rfl⟩
    · refine yields_bind _ _ (fun formattedData => ?_)
      exact yields_pure ⟨_, rfl⟩

theorem create_doc_try_single (env : Env) (w : World) (owner repo : String)
    (issueNumber : Int) :
    Eff.Yields SingleTextBlock
      (MessageRoute.create_google_doc_for_issue_try env w owner repo issueNumber) := by
  unfold MessageRoute.create_google_doc_for_issue_try
  refine yields_bind _ _ (fun issueResponse => ?_)
  split
  · refine yields_bind _ _ (fun error => ?_)
    exact yields_pure ⟨_, rfl⟩
  · refine yields_bind _ _ (fun issue => ?_)
    refine yields_bind _ _ (fun title => ?_)
    refine yields_bind _ _ (fun createResponse => ?_)
    dsimp only
    split
    · exact yields_pure ⟨_, rfl⟩
    · refine yields_bind _ _ (fun html_url => ?_)
      refine yields_bind _ _ (fun _ => ?_)
      exact yields_pure ⟨_, rfl⟩

theorem edit_doc_try_single (env : Env) (w : World) (documentId content : String) :
    Eff.Yields SingleTextBlock (MessageRoute.edit_google_doc_try env w documentId content) := by
  unfold MessageRoute.edit_google_doc_try
  refine yields_bind _ _ (fun doc => ?_)
  split
  · exact yields_pure ⟨_, rfl⟩
  · refine yields_bind _ _ (fun endIndex => ?_)
    refine yields_bind _ _ (fun _ => ?_)
    exact yields_pure ⟨_, rfl⟩

theorem comment_try_single (token : Option String) (w : World) (owner repo : String)
    (issueNumber : Int) (comment : String) :
    Eff.Yields SingleTextBlock
      (MessageRoute.add_github_issue_comment_try token w owner repo issueNumber comment) := by
  unfold MessageRoute.add_github_issue_comment_try
  refine yields_bind _ _ (fun response => ?_)
  split
  · refine yields_bind _ _ (fun error => ?_)
    exact yields_pure ⟨_, rfl⟩
  · refine yields_bind _ _ (fun commentData => ?_)
    refine yields_bind _ _ (fun envelope => ?_)
    exact yields_pure ⟨_, rfl⟩

/-- C10: on every return path of every tool handler of both routes (success,
no data, configuration error, upstream error, caught exception), for every
environment, world and argument value, the result's content is exactly one
block, and its type is `text`. -/
theorem envelope_invariant (env : Env) (w : World) :
    (∀ message, SingleTextBlock (MessageRoute.echo message).result) ∧
    (∀ owner repo, SingleTextBlock (MessageRoute.list_github_issues env w owner repo).result) ∧
    (∀ owner repo,
      SingleTextBlock (GithubIssuesRoute.list_github_issues env w owner repo).result) ∧
    (∀ daysArg, SingleTextBlock (MessageRoute.get_oura_stress_recovery env w daysArg).result) ∧
    (∀ owner repo issueNumber,
      SingleTextBlock
        (MessageRoute.create_google_doc_for_issue env w owner repo issueNumber).result) ∧
    (∀ documentId content,
      SingleTextBlock (MessageRoute.edit_google_doc env w documentId content).result) ∧
    (∀ owner repo issueNumber comment,
      SingleTextBlock
        (MessageRoute.add_github_issue_comment env w owner repo issueNumber comment).result) := by
  refine ⟨fun message => ⟨_, rfl⟩, ?_, ?_, ?_, ?_, ?_, ?_⟩
  · intro owner repo
    unfold MessageRoute.list_github_issues
    dsimp only
    split
    · exact ⟨_, rfl⟩
    · exact tryCatch_single _ _ (message_list_try_single _ _ _ _)
  · intro owner repo
    unfold GithubIssuesRoute.list_github_issues
    dsimp only
    split
    · exact ⟨_, rfl⟩
    · exact tryCatch_single _ _ (github_list_try_single _ _ _ _)
  · intro daysArg
    unfold MessageRoute.get_oura_stress_recovery
    dsimp only
    split
    · exact ⟨_, rfl⟩
    · exact tryCatch_single _ _ (oura_try_single _ _ _)
  · intro owner repo issueNumber
    unfold MessageRoute.create_google_doc_for_issue
    split
    · exact ⟨_, rfl⟩
    · split
      · exact ⟨_, rfl⟩
      · exact tryCatch_single _ _ (create_doc_try_single _ _ _ _ _)
  · intro documentId content
    unfold MessageRoute.edit_google_doc
    split
    · exact ⟨_, rfl⟩
    · exact tryCatch_single _ _ (edit_doc_try_single _ _ _ _)
  · intro owner repo issueNumber comment
    unfold MessageRoute.add_github_issue_comment
    dsimp only
    split
    · exact ⟨_, rfl⟩
    · exact tryCatch_single _ _ (comment_try_single _ _ _ _ _ _)

/-! ## C6: what `edit_google_doc` does to the document -/

theorem insertionIndex_end (n : Nat) :
    MessageRoute.insertionIndex (some (1 + (n : Int))) = (n : Int) := by
  unfold MessageRoute.insertionIndex
  simp only
  rw [if_neg (by omega)]
  omega

theorem lastEndIndex_pair (a b : StructuralElement) :
    MessageRoute.lastEndIndex [a, b] = .ok b.endIndex := rfl

theorem insertText_before_final_newline (Q : List Char) (text : String) :
    DocState.insertText ⟨Q ++ ['\n']⟩
        { index := ((Q ++ ['\n']).length : Int), text := text } =
      .ok ⟨Q ++ text.data ++ ['\n']⟩ := by
  unfold DocState.insertText
  have h1 : (1 : Int) ≤ ((Q ++ ['\n']).length : Int) ∧
      ((Q ++ ['\n']).length : Int) < 1 + ((Q ++ ['\n']).length : Int) := by
    simp only [List.length_append, List.length_singleton]
    omega
  have h2 : (((Q ++ ['\n']).length : Int) - 1).toNat = Q.length := by
    simp only [List.length_append, List.length_singleton]
    omega
  simp only [h1, and_self, if_true, h2, List.take_left', List.drop_left']

theorem edit_google_doc_on_document (env : Env) (Q : List Char) (A : String)
    (hg : (falsy env.GOOGLE_CLIENT_ID || falsy env.GOOGLE_CLIENT_SECRET ||
      falsy env.GOOGLE_REFRESH_TOKEN) = false) :
    MessageRoute.edit_google_doc env (docWorld ⟨Q ++ ['\n']⟩) "doc" A =
      ⟨[.documentsGet (MessageRoute.oauth2Client env) "doc",
          .documentsBatchUpdate (MessageRoute.oauth2Client env) "doc"
            [{ index := ((Q ++ ['\n']).length : Int), text := "\n" ++ A }]],
        textResult (JSON.stringifyObject
          [("success", .bool true), ("document_id", .str "doc"),
           ("document_url", .str ("https://docs.google.com/document/d/" ++ "doc" ++ "/edit")),
           ("content_added", .str A)] 2)⟩ := by
  have hins := insertText_before_final_newline Q ("\n" ++ A)
  have hidx := insertionIndex_end (Q ++ ['\n']).length
  simp only [MessageRoute.edit_google_doc, hg, Bool.false_eq_true, if_false,
    MessageRoute.edit_google_doc_try, docWorld, DocState.document, Eff.bind_call_ok,
    MessageRoute.bodyContent, lastEndIndex_pair, Eff.bind_lift_ok,
    hidx, DocState.batchUpdate, hins, tryCatch, Eff.pure_out, Eff.pure_calls]

theorem editDocument_state (env : Env) (Q : List Char) (A : String)
    (hg : (falsy env.GOOGLE_CLIENT_ID || falsy env.GOOGLE_CLIENT_SECRET ||
      falsy env.GOOGLE_REFRESH_TOKEN) = false) :
    (editDocument env ⟨Q ++ ['\n']⟩ A).2 = ⟨Q ++ ['\n'] ++ A.data ++ ['\n']⟩ := by
  have hins := insertText_before_final_newline Q ("\n" ++ A)
  unfold editDocument
  simp only [edit_google_doc_on_document env Q A hg, DocState.afterCalls,
    DocState.batchUpdate, hins]
  congr 1
  rw [String.data_append]
  show Q ++ (['\n'] ++ A.data) ++ ['\n'] = Q ++ ['\n'] ++ A.data ++ ['\n']
  simp

/-- C6, as stated, fails: on the document `Hello` (with the newline that ends
every document body), editing with `a` and then with `b` succeeds twice and
leaves `Hello`, `a` and `b` on separate lines, which is not the prior content
followed by `a` and `b`. -/
theorem edit_twice_is_not_plain_concatenation :
    (editDocument sampleEnv ⟨"Hello\n".data⟩ "a").1.result.isError = none ∧
    (editDocument sampleEnv (editDocument sampleEnv ⟨"Hello\n".data⟩ "a").2
      "b").1.result.isError = none ∧
    (editDocument sampleEnv (editDocument sampleEnv ⟨"Hello\n".data⟩ "a").2 "b").2.text =
      "Hello\na\nb\n".data ∧
    (editDocument sampleEnv (editDocument sampleEnv ⟨"Hello\n".data⟩ "a").2 "b").2.text ≠
      ("Hello\n" ++ "a" ++ "b").data := by
  decide

/-- C6, amended: for every document whose content `P` ends with the newline
that ends a document body, and every text `A`, with the Google credentials
configured: the call reads the document and issues one `insertText` of a
newline followed by `A` at the offset of the final newline (the prior end
index minus one), and succeeds; afterwards the content is `P`, then `A`, then
a newline, so every character of `P` is unchanged and precedes `A`, which
starts at the prior end index. Calling it with `A` and then with `B` yields
`P`, `A`, a newline, `B`, a newline, in that order. -/
theorem edit_appends_a_line (env : Env) (Q : List Char) (A B : String)
    (hg : (falsy env.GOOGLE_CLIENT_ID || falsy env.GOOGLE_CLIENT_SECRET ||
      falsy env.GOOGLE_REFRESH_TOKEN) = false) :
    (editDocument env ⟨Q ++ ['\n']⟩ A).1.calls =
      [.documentsGet (MessageRoute.oauth2Client env) "doc",
       .documentsBatchUpdate (MessageRoute.oauth2Client env) "doc"
         [{ index := ((Q ++ ['\n']).length : Int), text := "\n" ++ A }]] ∧
    (editDocument env ⟨Q ++ ['\n']⟩ A).1.result.isError = none ∧
    (editDocument env ⟨Q ++ ['\n']⟩ A).2.text = (Q ++ ['\n']) ++ A.data ++ ['\n'] ∧
    (editDocument env (editDocument env ⟨Q ++ ['\n']⟩ A).2 B).2.text =
      (Q ++ ['\n']) ++ A.data ++ ['\n'] ++ B.data ++ ['\n'] := by
  have h1 := edit_google_doc_on_document env Q A hg
  have h2 := editDocument_state env Q A hg
  have h3 := editDocument_state env (Q ++ ['\n'] ++ A.data) B hg
  refine ⟨?_, ?_, ?_, ?_⟩
  · show (MessageRoute.edit_google_doc env (docWorld ⟨Q ++ ['\n']⟩) "doc" A).calls = _
    rw [h1]
  · show (MessageRoute.edit_google_doc env (docWorld ⟨Q ++ ['\n']⟩) "doc" A).result.isError = _
    rw [h1]
    rfl
  · rw [h2]
  · rw [h2, h3]

/-- The amended C6 on the document `Hello`, edited with `a` and then `b`. -/
theorem edit_appends_a_line_witness :
    (editDocument sampleEnv ⟨"Hello".data ++ ['\n']⟩ "a").2.text =
      ("Hello".data ++ ['\n']) ++ "a".data ++ ['\n'] ∧
    (editDocument sampleEnv (editDocument sampleEnv ⟨"Hello".data ++ ['\n']⟩ "a").2 "b").2.text =
      ("Hello".data ++ ['\n']) ++ "a".data ++ ['\n'] ++ "b".data ++ ['\n'] :=
  ⟨(edit_appends_a_line sampleEnv "Hello".data "a" "b" (by decide)).2.2.1,
   (edit_appends_a_line sampleEnv "Hello".data "a" "b" (by decide)).2.2.2⟩

/-! ## C11: no retry -/

theorem within_pure {α : Type} (allowed : List Operation) (a : α) :
    Eff.CallsWithin allowed (pure a : Eff α) :=
  List.nil_sublist allowed

theorem within_lift_bind {α β : Type} (allowed : List Operation) (x : Except Thrown α)
    (f : α → Eff β) (h : ∀ a, Eff.CallsWithin allowed (f a)) :
    Eff.CallsWithin allowed (liftM x >>= f) := by
  cases x with
  | ok a => rw [Eff.bind_lift_ok]; exact h a
  | error e => rw [Eff.bind_lift_error]; exact List.nil_sublist allowed

theorem within_call_bind {α β : Type} (allowed : List Operation) (c : Call)
    (x : Except Thrown α) (f : α → Eff β) (h : ∀ a, Eff.CallsWithin allowed (f a)) :
    Eff.CallsWithin (c.operation :: allowed) (Eff.call c x >>= f) := by
  cases x with
  | ok a =>
      rw [Eff.bind_call_ok]
      exact List.Sublist.cons₂ _ (h a)
  | error e =>
      rw [Eff.bind_call_error]
      exact List.Sublist.cons₂ _ (List.nil_sublist allowed)

theorem within_skip {α : Type} (first : Operation) (allowed : List Operation) (m : Eff α)
    (h : Eff.CallsWithin allowed m) : Eff.CallsWithin (first :: allowed) m :=
  List.Sublist.cons _ h

theorem calls_call_bind_silent {α β : Type} (c : Call) (x : Except Thrown α)
    (f : α → Eff β) (h : ∀ a, Eff.CallsWithin [] (f a)) :
    (Eff.call c x >>= f).calls = [c] := by
  cases x with
  | ok a =>
      rw [Eff.bind_call_ok]
      have ha : (f a).calls = [] :=
        List.map_eq_nil_iff.mp (List.eq_nil_of_sublist_nil (h a))
      simp only [ha]
  | error e => rw [Eff.bind_call_error]

theorem tryCatch_calls (body : Eff ToolResult) (lead : String) :
    (tryCatch body lead).calls = body.calls := by
  unfold tryCatch
  split <;> rfl

theorem message_list_try_calls (token : Option String) (w : World) (owner repo : String) :
    (MessageRoute.list_github_issues_try token w owner repo).calls =
      [.fetch (MessageRoute.listIssuesRequest token owner repo)] := by
  unfold MessageRoute.list_github_issues_try
  refine calls_call_bind_silent _ _ _ (fun response => ?_)
  split
  · exact within_lift_bind _ _ _ (fun _ => within_pure _ _)
  · refine within_lift_bind _ _ _ (fun issues => ?_)
    refine within_lift_bind _ _ _ (fun actualIssues => ?_)
    split
    · exact within_pure _ _
    · exact within_lift_bind _ _ _ (fun _ => within_pure _ _)

theorem github_list_try_calls (token : Option String) (w : World) (owner repo : String) :
    (GithubIssuesRoute.list_github_issues_try token w owner repo).calls =
      [.fetch (GithubIssuesRoute.listIssuesRequest token owner repo)] := by
  unfold GithubIssuesRoute.list_github_issues_try
  refine calls_call_bind_silent _ _ _ (fun response => ?_)
  split
  · exact within_lift_bind _ _ _ (fun _ => within_pure _ _)
  · refine within_lift_bind _ _ _ (fun issues => ?_)
    refine within_lift_bind _ _ _ (fun actualIssues => ?_)
    split
    · exact within_pure _ _
    · exact within_lift_bind _ _ _ (fun _ => within_pure _ _)

theorem comment_try_calls (token : Option String) (w : World) (owner repo : String)
    (issueNumber : Int) (comment : String) :
    (MessageRoute.add_github_issue_comment_try token w owner repo issueNumber comment).calls =
      [.fetch (MessageRoute.commentRequest token owner repo issueNumber comment)] := by
  unfold MessageRoute.add_github_issue_comment_try
  refine calls_call_bind_silent _ _ _ (fun response => ?_)
  split
  · exact within_lift_bind _ _ _ (fun _ => within_pure _ _)
  · refine within_lift_bind _ _ _ (fun commentData => ?_)
    exact within_lift_bind _ _ _ (fun _ => within_pure _ _)

theorem oura_try_calls (token : Option String) (w : World) (days : JsNumber) :
    (MessageRoute.get_oura_stress_recovery_try token w days).calls = [] ∨
    ∃ startText endText,
      (MessageRoute.get_oura_stress_recovery_try token w days).calls =
        [.fetch (MessageRoute.ouraRequest token startText endText)] := by
  unfold MessageRoute.get_oura_stress_recovery_try
  dsimp only
  cases formatDate (MessageRoute.ouraStartDate w days) with
  | error e => exact Or.inl rfl
  | ok startText =>
      cases formatDate (some w.clockFirst) with
      | error e => exact Or.inl rfl
      | ok endText =>
          refine Or.inr ⟨startText, endText, ?_⟩
          simp only [Eff.bind_lift_ok]
          refine calls_call_bind_silent _ _ _ (fun response => ?_)
          split
          · exact within_lift_bind _ _ _ (fun _ => within_pure _ _)
          · refine within_lift_bind _ _ _ (fun data => ?_)
            refine within_lift_bind _ _ _ (fun dataData => ?_)
            refine within_lift_bind _ _ _ (fun empty => ?_)
            split
            · exact within_pure _ _
            · exact within_lift_bind _ _ _ (fun _ => within_pure _ _)

theorem create_doc_try_within (env : Env) (w : World) (owner repo : String)
    (issueNumber : Int) :
    Eff.CallsWithin
      [(Call.fetch (MessageRoute.issueRequest env.GITHUB_TOKEN owner repo issueNumber)).operation,
        .filesCreate, .documentsBatchUpdate]
      (MessageRoute.create_google_doc_for_issue_try env w owner repo issueNumber) := by
  unfold MessageRoute.create_google_doc_for_issue_try
  refine within_call_bind _ _ _ _ (fun issueResponse => ?_)
  split
  · exact within_lift_bind _ _ _ (fun _ => within_pure _ _)
  · refine within_lift_bind _ _ _ (fun issue => ?_)
    refine within_lift_bind _ _ _ (fun title => ?_)
    refine within_call_bind [.documentsBatchUpdate] _ _ _ (fun createResponse => ?_)
    dsimp only
    split
    · exact within_pure _ _
    · refine within_lift_bind _ _ _ (fun html_url => ?_)
      exact within_call_bind [] _ _ _ (fun _ => within_pure _ _)

theorem edit_doc_try_within (env : Env) (w : World) (documentId content : String) :
    Eff.CallsWithin [.documentsGet, .documentsBatchUpdate]
      (MessageRoute.edit_google_doc_try env w documentId content) := by
  unfold MessageRoute.edit_google_doc_try
  refine within_call_bind [.documentsBatchUpdate] _ _ _ (fun doc => ?_)
  split
  · exact within_pure _ _
  · refine within_lift_bind _ _ _ (fun endIndex => ?_)
    exact within_call_bind [] _ _ _ (fun _ => within_pure _ _)

theorem invokesOnce_of_within (allowed : List Operation) (body : Eff ToolResult)
    (lead : String) (h : Eff.CallsWithin allowed body) (hnodup : allowed.Nodup) :
    InvokesOnce (tryCatch body lead) := by
  unfold InvokesOnce
  rw [tryCatch_calls]
  exact List.Nodup.sublist h hnodup

theorem invokesOnce_of_calls (c : Call) (body : Eff ToolResult) (lead : String)
    (h : body.calls = [c]) : InvokesOnce (tryCatch body lead) := by
  unfold InvokesOnce
  rw [tryCatch_calls, h]
  exact List.nodup_singleton _

theorem invokesOnce_nil (r : ToolResult) : InvokesOnce ⟨[], r⟩ := List.nodup_nil

theorem requestsSent_of_operation (c : Call) (answers : Nat → Nat)
    (h : c.operation ≠ .documentsGet) : c.requestsSent answers = 1 := by
  cases c with
  | documentsGet auth documentId => exact absurd rfl h
  | fetch req => rfl
  | filesCreate auth params => rfl
  | documentsBatchUpdate auth documentId requests => rfl

theorem sendsOnce_nil (r : ToolResult) : SendsOnce ⟨[], r⟩ := by
  intro c hc
  cases hc

theorem sendsOnce_of_fetch (req : HttpRequest) (body : Eff ToolResult) (lead : String)
    (h : body.calls = [.fetch req]) : SendsOnce (tryCatch body lead) := by
  intro c hc answers
  rw [tryCatch_calls, h, List.mem_singleton] at hc
  rw [hc]
  rfl

theorem sendsOnce_of_within (allowed : List Operation) (body : Eff ToolResult)
    (lead : String) (h : Eff.CallsWithin allowed body)
    (hno : Operation.documentsGet ∉ allowed) : SendsOnce (tryCatch body lead) := by
  intro c hc answers
  rw [tryCatch_calls] at hc
  refine requestsSent_of_operation c answers (fun hop => hno ?_)
  rw [← hop]
  exact h.subset (List.mem_map_of_mem Call.operation hc)

/-- C11, as stated, fails: when the Docs API answers `503`, one invocation of
`edit_google_doc` invokes `documents.get` once, and the Google client sends the
`GET` of that call to its endpoint four times. -/
theorem documents_get_is_sent_again :
    (MessageRoute.edit_google_doc sampleEnv (worldRejecting serviceUnavailable)
        "doc" "text").calls =
      [.documentsGet (MessageRoute.oauth2Client sampleEnv) "doc"] ∧
    (Call.documentsGet (MessageRoute.oauth2Client sampleEnv) "doc").requestsSent
      (fun _ => serviceUnavailable.status) = 4 := by
  decide

/-- C11, amended: in every invocation of every tool handler, whatever the
upstream answers or throws, the handler invokes no operation (an HTTP request
of its own or a method of the Google client) twice; every handler other than
`edit_google_doc` sends exactly one HTTP request for each of its calls, and
`edit_google_doc` does so for each call other than its `documents.get`; and
`add_github_issue_comment` with the token configured issues exactly one call,
the `POST` to the comments endpoint of the issue. -/
theorem handlers_do_not_retry (env : Env) (w : World) :
    (∀ message, InvokesOnce (MessageRoute.echo message) ∧
      SendsOnce (MessageRoute.echo message)) ∧
    (∀ owner repo, InvokesOnce (MessageRoute.list_github_issues env w owner repo) ∧
      SendsOnce (MessageRoute.list_github_issues env w owner repo)) ∧
    (∀ owner repo, InvokesOnce (GithubIssuesRoute.list_github_issues env w owner repo) ∧
      SendsOnce (GithubIssuesRoute.list_github_issues env w owner repo)) ∧
    (∀ daysArg, InvokesOnce (MessageRoute.get_oura_stress_recovery env w daysArg) ∧
      SendsOnce (MessageRoute.get_oura_stress_recovery env w daysArg)) ∧
    (∀ owner repo issueNumber,
      InvokesOnce (MessageRoute.create_google_doc_for_issue env w owner repo issueNumber) ∧
      SendsOnce (MessageRoute.create_google_doc_for_issue env w owner repo issueNumber)) ∧
    (∀ documentId content,
      InvokesOnce (MessageRoute.edit_google_doc env w documentId content) ∧
      ∀ c ∈ (MessageRoute.edit_google_doc env w documentId content).calls,
        c.operation ≠ .documentsGet → ∀ answers, c.requestsSent answers = 1) ∧
    (∀ owner repo issueNumber comment,
      InvokesOnce
        (MessageRoute.add_github_issue_comment env w owner repo issueNumber comment) ∧
      SendsOnce
        (MessageRoute.add_github_issue_comment env w owner repo issueNumber comment)) ∧
    (∀ owner repo issueNumber comment, falsy env.GITHUB_TOKEN = false →
      (MessageRoute.add_github_issue_comment env w owner repo issueNumber comment).calls =
          [.fetch (MessageRoute.commentRequest env.GITHUB_TOKEN owner repo issueNumber
            comment)] ∧
        (MessageRoute.commentRequest env.GITHUB_TOKEN owner repo issueNumber comment).method =
          "POST" ∧
        (MessageRoute.commentRequest env.GITHUB_TOKEN owner repo issueNumber comment).url =
          "https://api.github.com/repos/" ++ owner ++ "/" ++ repo ++ "/issues/" ++
            toString issueNumber ++ "/comments") := by
  refine ⟨fun _ => ⟨invokesOnce_nil _, sendsOnce_nil _⟩, ?_, ?_, ?_, ?_, ?_, ?_, ?_⟩
  · intro owner repo
    unfold MessageRoute.list_github_issues
    dsimp only
    split
    · exact ⟨invokesOnce_nil _, sendsOnce_nil _⟩
    · exact ⟨invokesOnce_of_calls _ _ _ (message_list_try_calls _ _ _ _),
        sendsOnce_of_fetch _ _ _ (message_list_try_calls _ _ _ _)⟩
  · intro owner repo
    unfold GithubIssuesRoute.list_github_issues
    dsimp only
    split
    · exact ⟨invokesOnce_nil _, sendsOnce_nil _⟩
    · exact ⟨invokesOnce_of_calls _ _ _ (github_list_try_calls _ _ _ _),
        sendsOnce_of_fetch _ _ _ (github_list_try_calls _ _ _ _)⟩
  · intro daysArg
    unfold MessageRoute.get_oura_stress_recovery
    dsimp only
    split
    · exact ⟨invokesOnce_nil _, sendsOnce_nil _⟩
    · rcases oura_try_calls env.OURA_API_TOKEN w (daysArg.getD 7) with h | ⟨s, e, h⟩
      · constructor
        · unfold InvokesOnce
          rw [tryCatch_calls, h]
          exact List.nodup_nil
        · intro c hc
          rw [tryCatch_calls, h] at hc
          cases hc
      · exact ⟨invokesOnce_of_calls _ _ _ h, sendsOnce_of_fetch _ _ _ h⟩
  · intro owner repo issueNumber
    unfold MessageRoute.create_google_doc_for_issue
    split
    · exact ⟨invokesOnce_nil _, sendsOnce_nil _⟩
    · split
      · exact ⟨invokesOnce_nil _, sendsOnce_nil _⟩
      · exact ⟨invokesOnce_of_within _ _ _
            (create_doc_try_within env w owner repo issueNumber) (by simp [Call.operation]),
          sendsOnce_of_within _ _ _ (create_doc_try_within env w owner repo issueNumber)
            (by simp [Call.operation])⟩
  · intro documentId content
    refine ⟨?_, fun c _ hop answers => requestsSent_of_operation c answers hop⟩
    unfold MessageRoute.edit_google_doc
    split
    · exact invokesOnce_nil _
    · exact invokesOnce_of_within _ _ _ (edit_doc_try_within env w documentId content)
        (by simp)
  · intro owner repo issueNumber comment
    unfold MessageRoute.add_github_issue_comment
    dsimp only
    split
    · exact ⟨invokesOnce_nil _, sendsOnce_nil _⟩
    · exact ⟨invokesOnce_of_calls _ _ _ (comment_try_calls _ _ _ _ _ _),
        sendsOnce_of_fetch _ _ _ (comment_try_calls _ _ _ _ _ _)⟩
  · intro owner repo issueNumber comment ht
    refine ⟨?_, rfl, rfl⟩
    simp only [MessageRoute.add_github_issue_comment, ht, Bool.false_eq_true, if_false,
      tryCatch_calls, comment_try_calls]

/-- The amended C11 at a comment whose request is answered with `404` and at
one whose request throws. -/
theorem handlers_do_not_retry_witness :
    (MessageRoute.add_github_issue_comment sampleEnv (worldAnswering (.ok notFound))
        "o" "r" 5 "hello").calls =
      [.fetch (MessageRoute.commentRequest (some "ghp_token") "o" "r" 5 "hello")] ∧
    (MessageRoute.add_github_issue_comment sampleEnv
        (worldAnswering (.error (.error "fetch failed"))) "o" "r" 5 "hello").calls =
      [.fetch (MessageRoute.commentRequest (some "ghp_token") "o" "r" 5 "hello")] :=
  ⟨((handlers_do_not_retry sampleEnv (worldAnswering (.ok notFound))).2.2.2.2.2.2.2
      "o" "r" 5 "hello" (by decide)).1,
   ((handlers_do_not_retry sampleEnv
      (worldAnswering (.error (.error "fetch failed")))).2.2.2.2.2.2.2
      "o" "r" 5 "hello" (by decide)).1⟩

/-! ## C16: where `edit_google_doc` writes -/

/-- C16: with the Google credentials configured, when `documents.get` answers
with a document whose body content is a non-empty list, the handler issues,
after that read, exactly one `batchUpdate` with one `insertText` whose text is
a newline followed by the content and whose index is `e - 1` for the `endIndex`
`e` of the last element, or 1 when that `endIndex` is absent or 0; when the
body or its content is absent, or the content list is empty, it issues no
write and returns `isError = true`. -/
theorem edit_writes_before_last_end (env : Env) (w : World) (documentId content : String)
    (doc : Document)
    (hg : (falsy env.GOOGLE_CLIENT_ID || falsy env.GOOGLE_CLIENT_SECRET ||
      falsy env.GOOGLE_REFRESH_TOKEN) = false)
    (hget : w.documentsGet (MessageRoute.oauth2Client env) documentId = .ok doc) :
    (∀ body elements last, doc.body = some body → body.content = some elements →
      elements.getLast? = some last →
      ∃ index,
        (MessageRoute.edit_google_doc env w documentId content).calls =
          [.documentsGet (MessageRoute.oauth2Client env) documentId,
           .documentsBatchUpdate (MessageRoute.oauth2Client env) documentId
             [{ index := index, text := "\n" ++ content }]] ∧
        (∀ e, last.endIndex = some e → e ≠ 0 → index = e - 1) ∧
        (last.endIndex = none ∨ last.endIndex = some 0 → index = 1)) ∧
    ((doc.body = none ∨ ∃ body, doc.body = some body ∧
        (body.content = none ∨ body.content = some [])) →
      (MessageRoute.edit_google_doc env w documentId content).calls =
          [.documentsGet (MessageRoute.oauth2Client env) documentId] ∧
        (MessageRoute.edit_google_doc env w documentId content).result.isError = some true) := by
  constructor
  · intro body elements last hbody hcontent hlast
    refine ⟨MessageRoute.insertionIndex last.endIndex, ?_, ?_, ?_⟩
    · simp only [MessageRoute.edit_google_doc, hg, Bool.false_eq_true, if_false,
        tryCatch_calls, MessageRoute.edit_google_doc_try, hget, Eff.bind_call_ok,
        MessageRoute.bodyContent, hbody, hcontent, MessageRoute.lastEndIndex, hlast,
        Eff.bind_lift_ok]
      rw [calls_call_bind_silent _ _ _ (fun _ => within_pure _ _)]
    · intro e he hne
      simp only [MessageRoute.insertionIndex, he, hne, if_false]
    · rintro (h | h) <;> simp [MessageRoute.insertionIndex, h]
  · intro habsent
    have hnone : MessageRoute.bodyContent doc = none ∨
        MessageRoute.bodyContent doc = some [] := by
      rcases habsent with h | ⟨body, hbody, h | h⟩
      · exact Or.inl (by simp only [MessageRoute.bodyContent, h])
      · exact Or.inl (by simp only [MessageRoute.bodyContent, hbody, h])
      · exact Or.inr (by simp only [MessageRoute.bodyContent, hbody, h])
    rcases hnone with h | h
    · simp [MessageRoute.edit_google_doc, hg, MessageRoute.edit_google_doc_try, hget, h,
        tryCatch, errorResult]
    · simp [MessageRoute.edit_google_doc, hg, MessageRoute.edit_google_doc_try, hget, h,
        tryCatch, errorResult, MessageRoute.lastEndIndex]

/-- C16 at a document that ends at offset 7 and at one with an empty content
list. -/
theorem edit_writes_before_last_end_witness :
    (MessageRoute.edit_google_doc sampleEnv (worldServing helloDocument) "doc" "text").calls =
      [.documentsGet (MessageRoute.oauth2Client sampleEnv) "doc",
       .documentsBatchUpdate (MessageRoute.oauth2Client sampleEnv) "doc"
         [{ index := 6, text := "\ntext" }]] ∧
    ((MessageRoute.edit_google_doc sampleEnv (worldServing emptyContentDocument)
        "doc" "text").calls = [.documentsGet (MessageRoute.oauth2Client sampleEnv) "doc"] ∧
      (MessageRoute.edit_google_doc sampleEnv (worldServing emptyContentDocument)
        "doc" "text").result.isError = some true) := by
  constructor
  · obtain ⟨index, hcalls, hindex, -⟩ :=
      (edit_writes_before_last_end sampleEnv (worldServing helloDocument) "doc" "text"
        helloDocument (by decide) rfl).1 _ _ { endIndex := some 7 } rfl rfl rfl
    rw [hcalls, hindex 7 rfl (by decide)]
    rfl
  · exact (edit_writes_before_last_end sampleEnv (worldServing emptyContentDocument) "doc"
      "text" emptyContentDocument (by decide) rfl).2 (Or.inr ⟨_, rfl, Or.inr rfl⟩)

/-! ## C17: `create_google_doc_for_issue` creates nothing unless the issue was fetched -/

/-- C17: `create_google_doc_for_issue` issues no call at all when the GitHub
token or a Google credential is absent, and the error names `GITHUB_TOKEN`
whenever that token is absent; with the credentials configured it issues only
the issue request when that request throws or is answered with a non-success
status; and when the issue is fetched and Drive returns a document id, it
issues, after the issue request, exactly one `files.create` (with the folder
as parent exactly when the folder setting is non-empty) followed by exactly
one `batchUpdate` holding one `insertText` at index 1. -/
theorem create_doc_needs_the_issue (env : Env) (w : World) (owner repo : String)
    (issueNumber : Int) :
    ((falsy env.GITHUB_TOKEN = true ∨
        (falsy env.GOOGLE_CLIENT_ID || falsy env.GOOGLE_CLIENT_SECRET ||
          falsy env.GOOGLE_REFRESH_TOKEN) = true) →
      (MessageRoute.create_google_doc_for_issue env w owner repo issueNumber).calls = []) ∧
    (falsy env.GITHUB_TOKEN = true →
      (MessageRoute.create_google_doc_for_issue env w owner repo issueNumber).result =
        errorResult "Error: GITHUB_TOKEN not configured") ∧
    (falsy env.GITHUB_TOKEN = false →
      (falsy env.GOOGLE_CLIENT_ID || falsy env.GOOGLE_CLIENT_SECRET ||
        falsy env.GOOGLE_REFRESH_TOKEN) = false →
      ((∃ e, w.fetch (MessageRoute.issueRequest env.GITHUB_TOKEN owner repo issueNumber) =
            .error e) ∨
        (∃ r, w.fetch (MessageRoute.issueRequest env.GITHUB_TOKEN owner repo issueNumber) =
            .ok r ∧ r.ok = false) →
        (MessageRoute.create_google_doc_for_issue env w owner repo issueNumber).calls =
          [.fetch (MessageRoute.issueRequest env.GITHUB_TOKEN owner repo issueNumber)]) ∧
      (∀ r fields id,
        w.fetch (MessageRoute.issueRequest env.GITHUB_TOKEN owner repo issueNumber) = .ok r →
        r.ok = true → r.json = .ok (.obj fields) →
        w.filesCreate (MessageRoute.oauth2Client env)
            (MessageRoute.createParams env.GOOGLE_DRIVE_FOLDER_ID
              (repo ++ " - Issue #" ++ toString issueNumber ++ ": " ++
                ((JsVal.lookup "title" fields).getD .undefined).toJsString)) =
          .ok { id := some id } →
        id ≠ "" →
        (MessageRoute.create_google_doc_for_issue env w owner repo issueNumber).calls =
          [.fetch (MessageRoute.issueRequest env.GITHUB_TOKEN owner repo issueNumber),
           .filesCreate (MessageRoute.oauth2Client env)
             { name := repo ++ " - Issue #" ++ toString issueNumber ++ ": " ++
                 ((JsVal.lookup "title" fields).getD .undefined).toJsString
               mimeType := "application/vnd.google-apps.document"
               parents :=
                 match env.GOOGLE_DRIVE_FOLDER_ID with
                 | none => none
                 | some folder => if folder = "" then none else some [folder]
               fields := "id"
               supportsAllDrives := true
               supportsTeamDrives := true },
           .documentsBatchUpdate (MessageRoute.oauth2Client env) id
             [{ index := 1
                text := "Issue Details: " ++
                  ((JsVal.lookup "html_url" fields).getD .undefined).toJsString ++ "\n" }]])) := by
  refine ⟨?_, ?_, ?_⟩
  · rintro (h | h)
    · simp only [MessageRoute.create_google_doc_for_issue, h, if_true]
    · unfold MessageRoute.create_google_doc_for_issue
      split
      · rfl
      · simp only [h, if_true]
  · intro h
    simp only [MessageRoute.create_google_doc_for_issue, h, if_true]
  · intro ht hg
    constructor
    · rintro (⟨e, he⟩ | ⟨r, hr, hok⟩)
      · simp only [MessageRoute.create_google_doc_for_issue, ht, hg, Bool.false_eq_true,
          if_false, tryCatch_calls, MessageRoute.create_google_doc_for_issue_try, he,
          Eff.bind_call_error]
      · simp only [MessageRoute.create_google_doc_for_issue, ht, hg, Bool.false_eq_true,
          if_false, tryCatch_calls, MessageRoute.create_google_doc_for_issue_try, hr,
          Eff.bind_call_ok, hok, Bool.not_false, if_true]
        have hsilent : Eff.CallsWithin []
            (liftM r.text >>= fun error => (pure (errorResult
              ("GitHub API Error (" ++ toString r.status ++ "): " ++ error)) :
                Eff ToolResult)) :=
          within_lift_bind _ _ _ (fun _ => within_pure _ _)
        have hnil := List.map_eq_nil_iff.mp (List.eq_nil_of_sublist_nil hsilent)
        rw [hnil]
    · intro r fields id hr hok hj hcreate hid
      have hparams : MessageRoute.createParams env.GOOGLE_DRIVE_FOLDER_ID
          (repo ++ " - Issue #" ++ toString issueNumber ++ ": " ++
            ((JsVal.lookup "title" fields).getD .undefined).toJsString) =
          { name := repo ++ " - Issue #" ++ toString issueNumber ++ ": " ++
              ((JsVal.lookup "title" fields).getD .undefined).toJsString
            mimeType := "application/vnd.google-apps.document"
            parents :=
              match env.GOOGLE_DRIVE_FOLDER_ID with
              | none => none
              | some folder => if folder = "" then none else some [folder]
            fields := "id"
            supportsAllDrives := true
            supportsTeamDrives := true } := by
        unfold MessageRoute.createParams
        cases env.GOOGLE_DRIVE_FOLDER_ID with
        | none => rfl
        | some folder => by_cases hf : folder = "" <;> simp [falsy, envString, hf]
      have hfalsy : falsy (some id) = false := by simp [falsy, hid]
      simp only [MessageRoute.create_google_doc_for_issue, ht, hg, Bool.false_eq_true,
        if_false, tryCatch_calls, MessageRoute.create_google_doc_for_issue_try, hr,
        Eff.bind_call_ok, hok, Bool.not_true, hj, Eff.bind_lift_ok, getProp_obj, hcreate,
        MessageRoute.logAndRethrow, hfalsy, envString, ← hparams]
      rw [calls_call_bind_silent _ _ _ (fun _ => within_pure _ _)]

/-- C17 at an environment without settings, at a `404` answer, and at a world
in which the issue is fetched and the document created in the folder. -/
theorem create_doc_needs_the_issue_witness :
    (MessageRoute.create_google_doc_for_issue emptyEnv creatingWorld "o" "r" 1).calls = [] ∧
    (MessageRoute.create_google_doc_for_issue emptyEnv creatingWorld "o" "r" 1).result =
      errorResult "Error: GITHUB_TOKEN not configured" ∧
    (MessageRoute.create_google_doc_for_issue sampleEnv (worldAnswering (.ok notFound))
        "o" "r" 1).calls =
      [.fetch (MessageRoute.issueRequest (some "ghp_token") "o" "r" 1)] ∧
    (MessageRoute.create_google_doc_for_issue folderEnv creatingWorld "o" "r" 1).calls =
      [.fetch (MessageRoute.issueRequest (some "ghp_token") "o" "r" 1),
       .filesCreate (MessageRoute.oauth2Client folderEnv)
         { name := "r - Issue #1: Bug"
           mimeType := "application/vnd.google-apps.document"
           parents := some ["folder-9"]
           fields := "id"
           supportsAllDrives := true
           supportsTeamDrives := true },
       .documentsBatchUpdate (MessageRoute.oauth2Client folderEnv) "doc-1"
         [{ index := 1, text := "Issue Details: https://github.com/o/r/issues/1\n" }]] := by
  refine ⟨?_, ?_, ?_, ?_⟩
  · exact (create_doc_needs_the_issue emptyEnv creatingWorld "o" "r" 1).1 (Or.inl (by decide))
  · exact (create_doc_needs_the_issue emptyEnv creatingWorld "o" "r" 1).2.1 (by decide)
  · exact ((create_doc_needs_the_issue sampleEnv (worldAnswering (.ok notFound)) "o" "r" 1).2.2
      (by decide) (by decide)).1 (Or.inr ⟨notFound, rfl, by decide⟩)
  · have h := ((create_doc_needs_the_issue folderEnv creatingWorld "o" "r" 1).2.2
      (by decide) (by decide)).2 (okJson 200 sampleIssue) _ "doc-1" rfl (by decide) rfl rfl
      (by decide)
    rw [h]
    decide

/-! ## C12: the requested window -/

theorem formatDate_some (t : Int) : formatDate (some t) = .ok (dateText (Day t)) := rfl

theorem Day_sub_days (t k : Int) : Day (t - k * msPerDay) = Day t - k := by
  unfold Day
  have h : t - k * msPerDay = t + (-k) * msPerDay := by ring
  rw [h, Int.add_mul_ediv_right _ _ (by decide : msPerDay ≠ 0)]
  ring

theorem setDate_moved_back (localTZA : Int → Bool → Int) (t n : Int) :
    setDate localTZA t (some (getDate localTZA t - n)) =
      timeClip (UTC localTZA (LocalTime localTZA t - n * msPerDay)) := by
  unfold setDate getDate
  have h := Int.ediv_add_emod (LocalTime localTZA t) msPerDay
  have harg : (monthStartDay (Day (LocalTime localTZA t)) +
        (Day (LocalTime localTZA t) - monthStartDay (Day (LocalTime localTZA t)) + 1 - n) - 1) *
        msPerDay + TimeWithinDay (LocalTime localTZA t) =
      LocalTime localTZA t - n * msPerDay := by
    unfold Day TimeWithinDay
    linear_combination h
  simp only [harg]

theorem UTC_same_offset (localTZA : Int → Bool → Int) (t n : Int)
    (h : localTZA (LocalTime localTZA t - n * msPerDay) false = localTZA t true) :
    UTC localTZA (LocalTime localTZA t - n * msPerDay) = t - n * msPerDay := by
  unfold UTC
  rw [h]
  unfold LocalTime
  ring

theorem timeClip_some (t u : Int) (h : timeClip t = some u) : u = t := by
  unfold timeClip at h
  split at h
  · exact (Option.some.inj h).symm
  · cases h

theorem integerOfDifference_min (g : Int) (days : JsNumber) (h : days ≠ .infinity true) :
    ∃ n : Int, integerOfDifference g (Math.min days 30) = some (g - n) ∧ n ≤ 30 ∧
      (∀ d, days = .int d → n = min d 30) ∧
      (∀ f text, days = .fraction f text → n = min f 30 ∨ n = min (f + 1) 30) ∧
      (days = .infinity false → n = 30) := by
  cases days with
  | int d =>
      refine ⟨min d 30, ?_, min_le_right d 30, fun d' hd => ?_, fun f text hf => ?_, fun hi => ?_⟩
      · simp only [Math.min, integerOfDifference, min_def]
      · cases hd; rfl
      · cases hf
      · cases hi
  | fraction f text =>
      by_cases hf : f < 30
      · by_cases hg : 0 ≤ g - f - 1
        · refine ⟨f + 1, ?_, by omega, fun d hd => ?_, fun f' text' hf' => ?_, fun hi => ?_⟩
          · simp only [Math.min, hf, if_true, integerOfDifference, hg]
            congr 1
            ring
          · cases hd
          · cases hf'
            exact Or.inr (by rw [min_eq_left]; omega)
          · cases hi
        · refine ⟨f, ?_, by omega, fun d hd => ?_, fun f' text' hf' => ?_, fun hi => ?_⟩
          · simp only [Math.min, hf, if_true, integerOfDifference, hg, if_false]
          · cases hd
          · cases hf'
            exact Or.inl (by rw [min_eq_left]; omega)
          · cases hi
      · refine ⟨30, ?_, le_refl 30, fun d hd => ?_, fun f' text' hf' => ?_, fun hi => ?_⟩
        · simp only [Math.min, hf, if_false, integerOfDifference]
        · cases hd
        · cases hf'
          exact Or.inl (by rw [min_eq_right]; omega)
        · cases hi
  | infinity negative =>
      cases negative with
      | true => exact absurd rfl h
      | false =>
          refine ⟨30, ?_, le_refl 30, fun d hd => ?_, fun f text hf => ?_, fun _ => rfl⟩
          · simp [Math.min, integerOfDifference]
          · cases hd
          · cases hf

theorem oura_try_calls_of_dates (token : Option String) (w : World) (days : JsNumber)
    (startText endText : String)
    (hs : formatDate (MessageRoute.ouraStartDate w days) = .ok startText)
    (he : formatDate (some w.clockFirst) = .ok endText) :
    (MessageRoute.get_oura_stress_recovery_try token w days).calls =
      [.fetch (MessageRoute.ouraRequest token startText endText)] := by
  unfold MessageRoute.get_oura_stress_recovery_try
  dsimp only
  rw [hs, he]
  simp only [Eff.bind_lift_ok]
  refine calls_call_bind_silent _ _ _ (fun response => ?_)
  split
  · exact within_lift_bind _ _ _ (fun _ => within_pure _ _)
  · refine within_lift_bind _ _ _ (fun data => ?_)
    refine within_lift_bind _ _ _ (fun dataData => ?_)
    refine within_lift_bind _ _ _ (fun empty => ?_)
    split
    · exact within_pure _ _
    · exact within_lift_bind _ _ _ (fun _ => within_pure _ _)

/-- C12, as stated, fails. With `days = -1`, a number the schema accepts, the
handler on 2022-01-08 requests the range from 2022-01-09 to 2022-01-08, whose
start is later than its end. With `days` omitted, in the time zone of New York
at 2022-03-16T23:30:00Z, it requests the range from 2022-03-10 to 2022-03-16,
which starts six days before its end, not seven. -/
theorem oura_window_is_not_the_trailing_days :
    (MessageRoute.get_oura_stress_recovery sampleEnv (worldAnswering (.ok emptyStressData))
        (some (.int (-1)))).calls =
      [.fetch (MessageRoute.ouraRequest (some "oura_token") "2022-01-09" "2022-01-08")] ∧
    MessageRoute.ouraStartDate (worldAnswering (.ok emptyStressData)) (.int (-1)) =
      some 1641686405000 ∧
    Day (worldAnswering (.ok emptyStressData)).clockFirst < Day 1641686405000 ∧
    (MessageRoute.get_oura_stress_recovery sampleEnv (newYorkWorld (.ok emptyStressData))
        none).calls =
      [.fetch (MessageRoute.ouraRequest (some "oura_token") "2022-03-10" "2022-03-16")] := by
  decide

/-- C12, amended: with the token configured, for every `days` value the schema
accepts (7 when omitted) other than the negative infinity, the handler moves
the day of the month of the second clock reading back by a whole number `n` of
days, `n ≤ 30`: `n` is `min(days, 30)` when `days` is an integer (30 for the
positive infinity) and one of the two integers around `min(days, 30)` when it
is not. When local time has the same offset from UTC at the start as at the
clock reading and the start is a valid date, the handler issues one request,
whose `start_date` is the UTC date of the second reading minus `n` days and
whose `end_date` is the UTC date of the first reading; when both readings fall
on the same day, the start is not later than the end exactly when `n` is not
negative, and the two are `n` days apart. For the negative infinity no request
is issued and the result is an error. -/
theorem oura_requested_window (env : Env) (w : World) (daysArg : Option JsNumber)
    (ht : falsy env.OURA_API_TOKEN = false) :
    (daysArg.getD 7 = .infinity true →
      (MessageRoute.get_oura_stress_recovery env w daysArg).calls = [] ∧
      (MessageRoute.get_oura_stress_recovery env w daysArg).result =
        errorResult "Error fetching OURA data: Invalid time value") ∧
    (daysArg.getD 7 ≠ .infinity true →
      ∃ n : Int, n ≤ 30 ∧
        (∀ d, daysArg.getD 7 = .int d → n = min d 30) ∧
        (∀ f text, daysArg.getD 7 = .fraction f text → n = min f 30 ∨ n = min (f + 1) 30) ∧
        (daysArg.getD 7 = .infinity false → n = 30) ∧
        (∀ t,
          w.localTZA (LocalTime w.localTZA w.clockSecond - n * msPerDay) false =
            w.localTZA w.clockSecond true →
          timeClip (w.clockSecond - n * msPerDay) = some t →
          (MessageRoute.get_oura_stress_recovery env w daysArg).calls =
            [.fetch (MessageRoute.ouraRequest env.OURA_API_TOKEN
              (dateText (Day w.clockSecond - n)) (dateText (Day w.clockFirst)))]) ∧
        (Day w.clockFirst = Day w.clockSecond →
          (Day w.clockSecond - n ≤ Day w.clockFirst ↔ 0 ≤ n) ∧
          Day w.clockFirst - (Day w.clockSecond - n) = n)) := by
  constructor
  · intro hinf
    have hstart : MessageRoute.ouraStartDate w (JsNumber.infinity true) = none := rfl
    simp [MessageRoute.get_oura_stress_recovery, ht, hinf,
      MessageRoute.get_oura_stress_recovery_try, hstart, formatDate, tryCatch,
      Thrown.describe]
  · intro hfin
    obtain ⟨n, hn, hle, hint, hfrac, hinf⟩ :=
      integerOfDifference_min (getDate w.localTZA w.clockSecond) (daysArg.getD 7) hfin
    refine ⟨n, hle, hint, hfrac, hinf, ?_, ?_⟩
    · intro t hzone hvalid
      have hstart : MessageRoute.ouraStartDate w (daysArg.getD 7) = some t := by
        unfold MessageRoute.ouraStartDate
        rw [hn, setDate_moved_back, UTC_same_offset _ _ _ hzone, hvalid]
      have ht' : t = w.clockSecond - n * msPerDay := timeClip_some _ _ hvalid
      simp only [MessageRoute.get_oura_stress_recovery, ht, Bool.false_eq_true, if_false,
        tryCatch_calls]
      rw [oura_try_calls_of_dates env.OURA_API_TOKEN w (daysArg.getD 7)
        (dateText (Day t)) (dateText (Day w.clockFirst))
        (by rw [hstart, formatDate_some]) (formatDate_some _), ht', Day_sub_days]
    · intro hsame
      constructor
      · constructor <;> intro h <;> omega
      · omega

/-- The amended C12 on 2022-01-08 in UTC with `days = 45`. -/
theorem oura_requested_window_witness :
    ∃ n : Int, n = 30 ∧
      (MessageRoute.get_oura_stress_recovery sampleEnv (worldAnswering (.ok emptyStressData))
          (some 45)).calls =
        [.fetch (MessageRoute.ouraRequest (some "oura_token")
          (dateText (Day 1641600005000 - n)) (dateText (Day 1641600005000)))] := by
  obtain ⟨n, -, hint, -, -, hcalls, -⟩ :=
    (oura_requested_window sampleEnv (worldAnswering (.ok emptyStressData)) (some 45)
      (by decide)).2 (by decide)
  have hn : n = 30 := hint 45 rfl
  refine ⟨n, hn, ?_⟩
  subst hn
  exact hcalls 1639008005000 (by decide) (by decide)

/-! ## C13: errors of the Document Service -/

theorem contains_data (text part : String) (h : Contains text part) :
    part.data <:+: text.data := by
  obtain ⟨pre, post, h⟩ := h
  exact ⟨pre.data, post.data, by rw [h, String.data_append, String.data_append]⟩

/-- C13, as stated, fails: when `documents.get` is answered with status 404
the client throws an error whose message is `Requested entity was not found.`,
and the text `edit_google_doc` returns holds neither the status code nor the
body. -/
theorem google_error_text_lacks_status_and_body :
    (MessageRoute.edit_google_doc sampleEnv (worldRejecting documentNotFound)
        "doc" "text").result =
      errorResult "Error editing Google Doc: Requested entity was not found." ∧
    ¬ Contains "Error editing Google Doc: Requested entity was not found."
        (toString documentNotFound.status) ∧
    ¬ Contains "Error editing Google Doc: Requested entity was not found."
        documentNotFound.body := by
  refine ⟨by decide, fun h => ?_, fun h => ?_⟩
  · exact absurd (contains_data _ _ h) (by decide)
  · exact absurd (contains_data _ _ h) (by decide)

/-- C13, amended: for `edit_google_doc` and `create_google_doc_for_issue` with
credentials configured, whenever `documents.get`, `documents.batchUpdate` or
`files.create` is rejected with the client's error for a non-success status,
the handler returns `isError = true` and its text is the handler's lead
followed by the message of that error; the status code and the body are not
added to it. -/
theorem google_error_message_is_reported (env : Env) (w : World) (e : GaxiosError)
    (hg : (falsy env.GOOGLE_CLIENT_ID || falsy env.GOOGLE_CLIENT_SECRET ||
      falsy env.GOOGLE_REFRESH_TOKEN) = false) :
    (∀ documentId content,
      w.documentsGet (MessageRoute.oauth2Client env) documentId = .error e.thrown →
      (MessageRoute.edit_google_doc env w documentId content).result =
        errorResult ("Error editing Google Doc: " ++ e.message)) ∧
    (∀ documentId content doc elements last,
      w.documentsGet (MessageRoute.oauth2Client env) documentId = .ok doc →
      MessageRoute.bodyContent doc = some elements → elements.getLast? = some last →
      w.documentsBatchUpdate (MessageRoute.oauth2Client env) documentId
        [{ index := MessageRoute.insertionIndex last.endIndex, text := "\n" ++ content }] =
          .error e.thrown →
      (MessageRoute.edit_google_doc env w documentId content).result =
        errorResult ("Error editing Google Doc: " ++ e.message)) ∧
    (∀ owner repo issueNumber r fields, falsy env.GITHUB_TOKEN = false →
      w.fetch (MessageRoute.issueRequest env.GITHUB_TOKEN owner repo issueNumber) = .ok r →
      r.ok = true → r.json = .ok (.obj fields) →
      w.filesCreate (MessageRoute.oauth2Client env)
          (MessageRoute.createParams env.GOOGLE_DRIVE_FOLDER_ID
            (repo ++ " - Issue #" ++ toString issueNumber ++ ": " ++
              ((JsVal.lookup "title" fields).getD .undefined).toJsString)) =
        .error e.thrown →
      (MessageRoute.create_google_doc_for_issue env w owner repo issueNumber).result =
        errorResult ("Error creating Google Doc: " ++ e.message)) ∧
    (∀ owner repo issueNumber r fields id, falsy env.GITHUB_TOKEN = false →
      w.fetch (MessageRoute.issueRequest env.GITHUB_TOKEN owner repo issueNumber) = .ok r →
      r.ok = true → r.json = .ok (.obj fields) →
      w.filesCreate (MessageRoute.oauth2Client env)
          (MessageRoute.createParams env.GOOGLE_DRIVE_FOLDER_ID
            (repo ++ " - Issue #" ++ toString issueNumber ++ ": " ++
              ((JsVal.lookup "title" fields).getD .undefined).toJsString)) =
        .ok { id := some id } →
      id ≠ "" →
      w.documentsBatchUpdate (MessageRoute.oauth2Client env) id
        [{ index := 1
           text := "Issue Details: " ++
             ((JsVal.lookup "html_url" fields).getD .undefined).toJsString ++ "\n" }] =
          .error e.thrown →
      (MessageRoute.create_google_doc_for_issue env w owner repo issueNumber).result =
        errorResult ("Error creating Google Doc: " ++ e.message)) := by
  refine ⟨?_, ?_, ?_, ?_⟩
  · intro documentId content hget
    simp [MessageRoute.edit_google_doc, hg, MessageRoute.edit_google_doc_try, hget,
      GaxiosError.thrown, tryCatch, Thrown.describe]
  · intro documentId content doc elements last hget hbody hlast hwrite
    simp [MessageRoute.edit_google_doc, hg, MessageRoute.edit_google_doc_try, hget, hbody,
      MessageRoute.lastEndIndex, hlast, hwrite, GaxiosError.thrown, tryCatch, Thrown.describe]
  · intro owner repo issueNumber r fields ht hr hok hj hcreate
    simp [MessageRoute.create_google_doc_for_issue, ht, hg,
      MessageRoute.create_google_doc_for_issue_try, hr, hok, hj, getProp_obj, hcreate,
      MessageRoute.logAndRethrow, GaxiosError.thrown, tryCatch, Thrown.describe]
  · intro owner repo issueNumber r fields id ht hr hok hj hcreate hid hwrite
    have hfalsy : falsy (some id) = false := by simp [falsy, hid]
    simp [MessageRoute.create_google_doc_for_issue, ht, hg,
      MessageRoute.create_google_doc_for_issue_try, hr, hok, hj, getProp_obj, hcreate,
      MessageRoute.logAndRethrow, hfalsy, envString, hwrite, GaxiosError.thrown, tryCatch,
      Thrown.describe]

/-- The amended C13 at a world whose Google client rejects every call with the
error for a missing document. -/
theorem google_error_message_is_reported_witness :
    (MessageRoute.edit_google_doc sampleEnv (worldRejecting documentNotFound)
        "doc" "text").result =
      errorResult "Error editing Google Doc: Requested entity was not found." ∧
    (MessageRoute.create_google_doc_for_issue sampleEnv (worldRejecting documentNotFound)
        "o" "r" 1).result =
      errorResult "Error creating Google Doc: Requested entity was not found." :=
  ⟨(google_error_message_is_reported sampleEnv (worldRejecting documentNotFound)
      documentNotFound (by decide)).1 "doc" "text" rfl,
   (google_error_message_is_reported sampleEnv (worldRejecting documentNotFound)
      documentNotFound (by decide)).2.2.1 "o" "r" 1 (okJson 200 sampleIssue) _ (by decide)
      rfl (by decide) rfl rfl⟩

/-! ## C14: the listing at `/mcp` is a filter followed by a map -/

theorem mapThrowing_eq_map {α β : Type} {f : α → Except Thrown β} {g : α → β}
    (xs : List α) (h : ∀ x ∈ xs, f x = .ok (g x)) :
    mapThrowing f xs = .ok (xs.map g) := by
  induction xs with
  | nil => rfl
  | cons x xs ih =>
      have hx := h x (List.mem_cons_self x xs)
      have hxs := ih (fun y hy => h y (List.mem_cons_of_mem x hy))
      simp only [mapThrowing, hx, hxs, List.map_cons]

theorem getProp_eq_memberOf (v : JsVal) (k : String) (h : nonNullish v = true)
    (hk : k ≠ "length") : v.getProp k = .ok (memberOf v k) := by
  cases v <;> simp [nonNullish] at h <;> simp [JsVal.getProp, memberOf, hk]

theorem callMap_eq_membersOf (v : Option JsVal) (expr k : String)
    (h : isArrayOfValues v = true) (hk : k ≠ "length") :
    (v.getD .undefined).callMap expr (fun x => x.getProp k) = .ok (membersOf v k) := by
  match v, h with
  | some (.arr xs), h =>
      simp only [isArrayOfValues, List.all_eq_true] at h
      simp only [Option.getD_some, JsVal.callMap, membersOf]
      exact mapThrowing_eq_map xs (fun x hx => getProp_eq_memberOf x k (h x hx) hk)

theorem message_formatIssue_eq_listedEntry (issue : JsVal) (h : issueShaped issue = true) :
    MessageRoute.formatIssue issue = .ok (listedEntry issue) := by
  match issue, h with
  | .obj kvs, h =>
      simp only [issueShaped, Bool.and_eq_true] at h
      simp only [MessageRoute.formatIssue, getProp_obj, except_bind_ok,
        callMap_eq_membersOf _ "issue.labels" "name" h.1 (by decide),
        callMap_eq_membersOf _ "issue.assignees" "login" h.2 (by decide), except_pure,
        listedEntry, memberOf]

/-- C14: for `list_github_issues` at `/mcp`, the token configured and every
successful upstream list of values shaped like issues of which at least one is
not a pull request, the result text is the JSON of the sequence obtained by
removing the pull requests, keeping the upstream order, and replacing every
remaining issue by its entry: `number`, `title` and `state` copied, `labels`
the names of its labels in order, `assignees` the logins of its assignees in
order, `url` its `html_url`. -/
theorem listing_is_filter_then_map (env : Env) (w : World) (owner repo : String)
    (r : Response) (issues : List JsVal) (ht : falsy env.GITHUB_TOKEN = false)
    (hf : w.fetch (MessageRoute.listIssuesRequest env.GITHUB_TOKEN owner repo) = .ok r)
    (hok : r.ok = true) (hj : r.json = .ok (.arr issues))
    (hshape : ∀ i ∈ issues, issueShaped i = true)
    (hsome : issues.filter (fun i => !hasTruthyPullRequest i) ≠ []) :
    (MessageRoute.list_github_issues env w owner repo).result =
      textResult (JSON.stringifyArray
        ((issues.filter (fun i => !hasTruthyPullRequest i)).map listedEntry) 2) := by
  have hfilter := filterThrowing_total (q := fun i => !hasTruthyPullRequest i) issues
    (fun i hi => message_notPullRequest_issueShaped i (hshape i hi))
  have hmap := mapThrowing_eq_map (f := MessageRoute.formatIssue) (g := listedEntry)
    (issues.filter (fun i => !hasTruthyPullRequest i))
    (fun i hi => message_formatIssue_eq_listedEntry i (hshape i (List.mem_of_mem_filter hi)))
  have hne : (issues.filter (fun i => !hasTruthyPullRequest i)).length ≠ 0 := by
    rw [Ne, List.length_eq_zero]
    exact hsome
  simp only [MessageRoute.list_github_issues, MessageRoute.list_github_issues_try,
    tryCatch, ht, hf, hok, hj, JsVal.callFilter, hfilter, hne, hmap,
    Eff.bind_call_ok, Eff.bind_lift_ok, Bool.not_true, Bool.false_eq_true, if_false,
    Eff.pure_out]

/-- C14 at an upstream list of a pull request followed by an issue. -/
theorem listing_is_filter_then_map_witness :
    (MessageRoute.list_github_issues sampleEnv
        (worldAnswering (.ok (okJson 200 (.arr [samplePullRequest, sampleIssue]))))
        "o" "r").result =
      textResult (JSON.stringifyArray
        [.obj [("number", .num 1), ("title", .str "Bug"), ("state", .str "open"),
          ("labels", .arr [.str "bug"]), ("assignees", .arr []),
          ("url", .str "https://github.com/o/r/issues/1")]] 2) :=
  listing_is_filter_then_map sampleEnv
    (worldAnswering (.ok (okJson 200 (.arr [samplePullRequest, sampleIssue])))) "o" "r"
    (okJson 200 (.arr [samplePullRequest, sampleIssue])) [samplePullRequest, sampleIssue]
    (by decide) rfl (by decide) rfl (by decide) (by simp [hasTruthyPullRequest, samplePullRequest, sampleIssue, JsVal.lookup, JsVal.truthy])

/-! ## C18: the two pull-request filters -/

theorem github_notPullRequest_object (issue : JsVal) (h : isObject issue = true) :
    GithubIssuesRoute.notPullRequest issue = .ok (!hasPullRequestKey issue) := by
  match issue, h with
  | .obj kvs, _ => rfl

theorem message_notPullRequest_object (issue : JsVal) (h : isObject issue = true) :
    MessageRoute.notPullRequest issue = .ok (!hasTruthyPullRequest issue) := by
  match issue, h with
  | .obj kvs, _ => rfl

/-- C18, as stated, fails: an issue object whose `pull_request` member is `null`
has the key, so `/mcp/github-issues` removes it, while its value is falsy, so
`/mcp` keeps it. -/
theorem filters_differ_on_null_pull_request :
    filterThrowing GithubIssuesRoute.notPullRequest [nullPullRequestIssue] = .ok [] ∧
    filterThrowing MessageRoute.notPullRequest [nullPullRequestIssue] =
      .ok [nullPullRequestIssue] ∧
    filterThrowing GithubIssuesRoute.notPullRequest [nullPullRequestIssue] ≠
      filterThrowing MessageRoute.notPullRequest [nullPullRequestIssue] := by
  have h1 : filterThrowing GithubIssuesRoute.notPullRequest [nullPullRequestIssue] =
      .ok [] := rfl
  have h2 : filterThrowing MessageRoute.notPullRequest [nullPullRequestIssue] =
      .ok [nullPullRequestIssue] := rfl
  refine ⟨h1, h2, ?_⟩
  rw [h1, h2]
  intro h
  cases h

/-- C18, amended: for every upstream list of issue objects in which every
`pull_request` member that is present is truthy (as in the GitHub API, where
it is an object), the filter of `/mcp/github-issues` and the filter of `/mcp`
keep the same issues in the same order: those without the member. -/
theorem filters_agree_on_truthy_markers (issues : List JsVal)
    (hobj : ∀ i ∈ issues, isObject i = true)
    (hmark : ∀ i ∈ issues, hasPullRequestKey i = true → hasTruthyPullRequest i = true) :
    filterThrowing GithubIssuesRoute.notPullRequest issues =
        .ok (issues.filter (fun i => !hasPullRequestKey i)) ∧
    filterThrowing MessageRoute.notPullRequest issues =
        .ok (issues.filter (fun i => !hasPullRequestKey i)) := by
  refine ⟨filterThrowing_total issues
    (fun i hi => github_notPullRequest_object i (hobj i hi)), ?_⟩
  refine filterThrowing_total issues (fun i hi => ?_)
  rw [message_notPullRequest_object i (hobj i hi)]
  have hm := hmark i hi
  match i, hobj i hi with
  | .obj kvs, _ =>
      simp only [hasPullRequestKey, hasTruthyPullRequest] at hm ⊢
      cases hl : JsVal.lookup "pull_request" kvs with
      | none => rfl
      | some v =>
          rw [hl] at hm
          simp only [Option.isSome_some, Option.getD_some, forall_const] at hm
          simp only [Option.getD_some, hm, Option.isSome_some]

/-- The amended C18 at an upstream list of an issue and a pull request. -/
theorem filters_agree_on_truthy_markers_witness :
    filterThrowing GithubIssuesRoute.notPullRequest [sampleIssue, samplePullRequest] =
        .ok [sampleIssue] ∧
    filterThrowing MessageRoute.notPullRequest [sampleIssue, samplePullRequest] =
        .ok [sampleIssue] :=
  filters_agree_on_truthy_markers [sampleIssue, samplePullRequest] (by decide) (by decide)

/-! ## C19: what the value of a credential can change -/

theorem same_refl {α : Type} (m : Eff α) : Eff.SameBesidesCredentials m m := ⟨rfl, rfl⟩

theorem same_bind {α β : Type} (m : Eff α) (f f' : α → Eff β)
    (hf : ∀ a, Eff.SameBesidesCredentials (f a) (f' a)) :
    Eff.SameBesidesCredentials (m >>= f) (m >>= f') := by
  show Eff.SameBesidesCredentials (Eff.bind m f) (Eff.bind m f')
  unfold Eff.bind
  cases m.out with
  | error e => exact ⟨rfl, rfl⟩
  | ok a =>
      obtain ⟨hcalls, hout⟩ := hf a
      exact ⟨by simp only [List.map_append, hcalls], hout⟩

theorem same_call_bind {α β : Type} (c c' : Call) (x : Except Thrown α) (f f' : α → Eff β)
    (hc : c.payload = c'.payload) (hf : ∀ a, Eff.SameBesidesCredentials (f a) (f' a)) :
    Eff.SameBesidesCredentials (Eff.call c x >>= f) (Eff.call c' x >>= f') := by
  cases x with
  | error e => exact ⟨by simp [hc], rfl⟩
  | ok a =>
      obtain ⟨hcalls, hout⟩ := hf a
      exact ⟨by simp [hc, hcalls], by simp [hout]⟩

theorem tryCatch_same (body body' : Eff ToolResult) (lead : String)
    (h : Eff.SameBesidesCredentials body body') :
    Outcome.SameBesidesCredentials (tryCatch body lead) (tryCatch body' lead) := by
  obtain ⟨hcalls, hout⟩ := h
  refine ⟨by rw [tryCatch_calls, tryCatch_calls, hcalls], ?_⟩
  unfold tryCatch
  rw [hout]
  cases body'.out <;> rfl

theorem message_list_same (token token' : Option String) (w : World) (owner repo : String)
    (h : w.fetch (MessageRoute.listIssuesRequest token owner repo) =
      w.fetch (MessageRoute.listIssuesRequest token' owner repo)) :
    Eff.SameBesidesCredentials (MessageRoute.list_github_issues_try token w owner repo)
      (MessageRoute.list_github_issues_try token' w owner repo) := by
  unfold MessageRoute.list_github_issues_try
  rw [h]
  exact same_call_bind _ _ _ _ _ (by simp [Call.payload, MessageRoute.listIssuesRequest])
    (fun _ => same_refl _)

theorem github_list_same (token token' : Option String) (w : World) (owner repo : String)
    (h : w.fetch (GithubIssuesRoute.listIssuesRequest token owner repo) =
      w.fetch (GithubIssuesRoute.listIssuesRequest token' owner repo)) :
    Eff.SameBesidesCredentials (GithubIssuesRoute.list_github_issues_try token w owner repo)
      (GithubIssuesRoute.list_github_issues_try token' w owner repo) := by
  unfold GithubIssuesRoute.list_github_issues_try
  rw [h]
  exact same_call_bind _ _ _ _ _ (by simp [Call.payload, GithubIssuesRoute.listIssuesRequest])
    (fun _ => same_refl _)

theorem comment_same (token token' : Option String) (w : World) (owner repo : String)
    (issueNumber : Int) (comment : String)
    (h : w.fetch (MessageRoute.commentRequest token owner repo issueNumber comment) =
      w.fetch (MessageRoute.commentRequest token' owner repo issueNumber comment)) :
    Eff.SameBesidesCredentials
      (MessageRoute.add_github_issue_comment_try token w owner repo issueNumber comment)
      (MessageRoute.add_github_issue_comment_try token' w owner repo issueNumber comment) := by
  unfold MessageRoute.add_github_issue_comment_try
  rw [h]
  exact same_call_bind _ _ _ _ _ (by simp [Call.payload, MessageRoute.commentRequest])
    (fun _ => same_refl _)

theorem oura_same (token token' : Option String) (w : World) (days : JsNumber)
    (h : ∀ startText endText,
      w.fetch (MessageRoute.ouraRequest token startText endText) =
        w.fetch (MessageRoute.ouraRequest token' startText endText)) :
    Eff.SameBesidesCredentials (MessageRoute.get_oura_stress_recovery_try token w days)
      (MessageRoute.get_oura_stress_recovery_try token' w days) := by
  unfold MessageRoute.get_oura_stress_recovery_try
  dsimp only
  refine same_bind _ _ _ (fun startText => ?_)
  refine same_bind _ _ _ (fun endText => ?_)
  rw [h startText endText]
  exact same_call_bind _ _ _ _ _ (by simp [Call.payload, MessageRoute.ouraRequest])
    (fun _ => same_refl _)

theorem edit_doc_same (env env' : Env) (w : World) (documentId content : String)
    (hget : w.documentsGet (MessageRoute.oauth2Client env) documentId =
      w.documentsGet (MessageRoute.oauth2Client env') documentId)
    (hwrite : ∀ requests,
      w.documentsBatchUpdate (MessageRoute.oauth2Client env) documentId requests =
        w.documentsBatchUpdate (MessageRoute.oauth2Client env') documentId requests) :
    Eff.SameBesidesCredentials (MessageRoute.edit_google_doc_try env w documentId content)
      (MessageRoute.edit_google_doc_try env' w documentId content) := by
  unfold MessageRoute.edit_google_doc_try
  dsimp only
  rw [hget]
  refine same_call_bind _ _ _ _ _ rfl (fun doc => ?_)
  cases MessageRoute.bodyContent doc with
  | none => exact same_refl _
  | some elements =>
      dsimp only
      refine same_bind _ _ _ (fun endIndex => ?_)
      rw [hwrite]
      exact same_call_bind _ _ _ _ _ rfl (fun _ => same_refl _)

theorem create_doc_same (env env' : Env) (w : World) (owner repo : String)
    (issueNumber : Int)
    (hfolder : env.GOOGLE_DRIVE_FOLDER_ID = env'.GOOGLE_DRIVE_FOLDER_ID)
    (hfetch : w.fetch (MessageRoute.issueRequest env.GITHUB_TOKEN owner repo issueNumber) =
      w.fetch (MessageRoute.issueRequest env'.GITHUB_TOKEN owner repo issueNumber))
    (hcreate : ∀ params,
      w.filesCreate (MessageRoute.oauth2Client env) params =
        w.filesCreate (MessageRoute.oauth2Client env') params)
    (hwrite : ∀ documentId requests,
      w.documentsBatchUpdate (MessageRoute.oauth2Client env) documentId requests =
        w.documentsBatchUpdate (MessageRoute.oauth2Client env') documentId requests) :
    Eff.SameBesidesCredentials
      (MessageRoute.create_google_doc_for_issue_try env w owner repo issueNumber)
      (MessageRoute.create_google_doc_for_issue_try env' w owner repo issueNumber) := by
  unfold MessageRoute.create_google_doc_for_issue_try
  dsimp only
  rw [hfetch, hfolder]
  refine same_call_bind _ _ _ _ _ (by simp [Call.payload, MessageRoute.issueRequest])
    (fun issueResponse => ?_)
  split
  · exact same_refl _
  · refine same_bind _ _ _ (fun issue => ?_)
    refine same_bind _ _ _ (fun title => ?_)
    rw [hcreate]
    refine same_call_bind _ _ _ _ _ rfl (fun createResponse => ?_)
    dsimp only
    split
    · exact same_refl _
    · refine same_bind _ _ _ (fun html_url => ?_)
      rw [hwrite]
      exact same_call_bind _ _ _ _ _ rfl (fun _ => same_refl _)

/-- C19, as stated, fails: when the upstream checks the credential, the result
changes with its value, and a body that repeats the credential is copied into
the result text. GitHub here accepts `ghp_token` only: the run with that token
reports that there is no open issue, the run with `ghp_other` reports the
`401` answer, whose text holds `ghp_other`. -/
theorem result_follows_the_upstream_check :
    (MessageRoute.list_github_issues sampleEnv tokenCheckingWorld "o" "r").result =
      textResult "No open issues found in o/r" ∧
    (MessageRoute.list_github_issues otherSecretsEnv tokenCheckingWorld "o" "r").result =
      errorResult "GitHub API Error (401): Bad credentials: Bearer ghp_other" ∧
    Contains "GitHub API Error (401): Bad credentials: Bearer ghp_other" "ghp_other" ∧
    otherSecretsEnv.GITHUB_TOKEN = some "ghp_other" :=
  ⟨by decide, by decide, ⟨"GitHub API Error (401): Bad credentials: Bearer ", "", by decide⟩,
    rfl⟩

/-- C19, amended: for every tool handler that reads a credential, every
argument value and every world, two runs whose credentials are configured
with different values, and whose calls the upstream answers alike, return the
same result and issue the same calls except for the `Authorization` header
and the OAuth2 client: the handler puts the value of a credential nowhere
else, and the result is a function of the answers. -/
theorem credentials_reach_only_the_calls (env env' : Env) (w : World) :
    (∀ owner repo, falsy env.GITHUB_TOKEN = false → falsy env'.GITHUB_TOKEN = false →
      w.fetch (MessageRoute.listIssuesRequest env.GITHUB_TOKEN owner repo) =
        w.fetch (MessageRoute.listIssuesRequest env'.GITHUB_TOKEN owner repo) →
      Outcome.SameBesidesCredentials (MessageRoute.list_github_issues env w owner repo)
        (MessageRoute.list_github_issues env' w owner repo)) ∧
    (∀ owner repo, falsy env.GITHUB_TOKEN = false → falsy env'.GITHUB_TOKEN = false →
      w.fetch (GithubIssuesRoute.listIssuesRequest env.GITHUB_TOKEN owner repo) =
        w.fetch (GithubIssuesRoute.listIssuesRequest env'.GITHUB_TOKEN owner repo) →
      Outcome.SameBesidesCredentials (GithubIssuesRoute.list_github_issues env w owner repo)
        (GithubIssuesRoute.list_github_issues env' w owner repo)) ∧
    (∀ owner repo issueNumber comment,
      falsy env.GITHUB_TOKEN = false → falsy env'.GITHUB_TOKEN = false →
      w.fetch (MessageRoute.commentRequest env.GITHUB_TOKEN owner repo issueNumber comment) =
        w.fetch (MessageRoute.commentRequest env'.GITHUB_TOKEN owner repo issueNumber
          comment) →
      Outcome.SameBesidesCredentials
        (MessageRoute.add_github_issue_comment env w owner repo issueNumber comment)
        (MessageRoute.add_github_issue_comment env' w owner repo issueNumber comment)) ∧
    (∀ daysArg, falsy env.OURA_API_TOKEN = false → falsy env'.OURA_API_TOKEN = false →
      (∀ startText endText,
        w.fetch (MessageRoute.ouraRequest env.OURA_API_TOKEN startText endText) =
          w.fetch (MessageRoute.ouraRequest env'.OURA_API_TOKEN startText endText)) →
      Outcome.SameBesidesCredentials (MessageRoute.get_oura_stress_recovery env w daysArg)
        (MessageRoute.get_oura_stress_recovery env' w daysArg)) ∧
    (∀ documentId content,
      (falsy env.GOOGLE_CLIENT_ID || falsy env.GOOGLE_CLIENT_SECRET ||
        falsy env.GOOGLE_REFRESH_TOKEN) = false →
      (falsy env'.GOOGLE_CLIENT_ID || falsy env'.GOOGLE_CLIENT_SECRET ||
        falsy env'.GOOGLE_REFRESH_TOKEN) = false →
      w.documentsGet (MessageRoute.oauth2Client env) documentId =
        w.documentsGet (MessageRoute.oauth2Client env') documentId →
      (∀ requests,
        w.documentsBatchUpdate (MessageRoute.oauth2Client env) documentId requests =
          w.documentsBatchUpdate (MessageRoute.oauth2Client env') documentId requests) →
      Outcome.SameBesidesCredentials (MessageRoute.edit_google_doc env w documentId content)
        (MessageRoute.edit_google_doc env' w documentId content)) ∧
    (∀ owner repo issueNumber,
      falsy env.GITHUB_TOKEN = false → falsy env'.GITHUB_TOKEN = false →
      (falsy env.GOOGLE_CLIENT_ID || falsy env.GOOGLE_CLIENT_SECRET ||
        falsy env.GOOGLE_REFRESH_TOKEN) = false →
      (falsy env'.GOOGLE_CLIENT_ID || falsy env'.GOOGLE_CLIENT_SECRET ||
        falsy env'.GOOGLE_REFRESH_TOKEN) = false →
      env.GOOGLE_DRIVE_FOLDER_ID = env'.GOOGLE_DRIVE_FOLDER_ID →
      w.fetch (MessageRoute.issueRequest env.GITHUB_TOKEN owner repo issueNumber) =
        w.fetch (MessageRoute.issueRequest env'.GITHUB_TOKEN owner repo issueNumber) →
      (∀ params,
        w.filesCreate (MessageRoute.oauth2Client env) params =
          w.filesCreate (MessageRoute.oauth2Client env') params) →
      (∀ documentId requests,
        w.documentsBatchUpdate (MessageRoute.oauth2Client env) documentId requests =
          w.documentsBatchUpdate (MessageRoute.oauth2Client env') documentId requests) →
      Outcome.SameBesidesCredentials
        (MessageRoute.create_google_doc_for_issue env w owner repo issueNumber)
        (MessageRoute.create_google_doc_for_issue env' w owner repo issueNumber)) := by
  refine ⟨?_, ?_, ?_, ?_, ?_, ?_⟩
  · intro owner repo ht ht' h
    simp only [MessageRoute.list_github_issues, ht, ht', Bool.false_eq_true, if_false]
    exact tryCatch_same _ _ _ (message_list_same _ _ w owner repo h)
  · intro owner repo ht ht' h
    simp only [GithubIssuesRoute.list_github_issues, ht, ht', Bool.false_eq_true, if_false]
    exact tryCatch_same _ _ _ (github_list_same _ _ w owner repo h)
  · intro owner repo issueNumber comment ht ht' h
    simp only [MessageRoute.add_github_issue_comment, ht, ht', Bool.false_eq_true, if_false]
    exact tryCatch_same _ _ _ (comment_same _ _ w owner repo issueNumber comment h)
  · intro daysArg ht ht' h
    simp only [MessageRoute.get_oura_stress_recovery, ht, ht', Bool.false_eq_true, if_false]
    exact tryCatch_same _ _ _ (oura_same _ _ w _ h)
  · intro documentId content hg hg' hget hwrite
    simp only [MessageRoute.edit_google_doc, hg, hg', Bool.false_eq_true, if_false]
    exact tryCatch_same _ _ _ (edit_doc_same env env' w documentId content hget hwrite)
  · intro owner repo issueNumber ht ht' hg hg' hfolder hfetch hcreate hwrite
    simp only [MessageRoute.create_google_doc_for_issue, ht, ht', hg, hg', Bool.false_eq_true,
      if_false]
    exact tryCatch_same _ _ _ (create_doc_same env env' w owner repo issueNumber
      hfolder hfetch hcreate hwrite)

/-- The amended C19 at two environments with different credentials, for an
upstream that answers `404`, for one without stress data, for one that
creates the document, for one that serves a document, and for a comment. -/
theorem credentials_reach_only_the_calls_witness :
    Outcome.SameBesidesCredentials
      (MessageRoute.list_github_issues sampleEnv (worldAnswering (.ok notFound)) "o" "r")
      (MessageRoute.list_github_issues otherSecretsEnv (worldAnswering (.ok notFound))
        "o" "r") ∧
    Outcome.SameBesidesCredentials
      (GithubIssuesRoute.list_github_issues sampleEnv (worldAnswering (.ok notFound)) "o" "r")
      (GithubIssuesRoute.list_github_issues otherSecretsEnv (worldAnswering (.ok notFound))
        "o" "r") ∧
    Outcome.SameBesidesCredentials
      (MessageRoute.add_github_issue_comment sampleEnv
        (worldAnswering (.ok (okJson 201 issueComment))) "o" "r" 5 "hello")
      (MessageRoute.add_github_issue_comment otherSecretsEnv
        (worldAnswering (.ok (okJson 201 issueComment))) "o" "r" 5 "hello") ∧
    Outcome.SameBesidesCredentials
      (MessageRoute.get_oura_stress_recovery sampleEnv (worldAnswering (.ok emptyStressData))
        (some 3))
      (MessageRoute.get_oura_stress_recovery otherSecretsEnv
        (worldAnswering (.ok emptyStressData)) (some 3)) ∧
    Outcome.SameBesidesCredentials
      (MessageRoute.edit_google_doc sampleEnv (worldServing helloDocument) "doc" "text")
      (MessageRoute.edit_google_doc otherSecretsEnv (worldServing helloDocument)
        "doc" "text") ∧
    Outcome.SameBesidesCredentials
      (MessageRoute.create_google_doc_for_issue sampleEnv creatingWorld "o" "r" 1)
      (MessageRoute.create_google_doc_for_issue otherSecretsEnv creatingWorld "o" "r" 1) :=
  ⟨(credentials_reach_only_the_calls sampleEnv otherSecretsEnv
      (worldAnswering (.ok notFound))).1 "o" "r" (by decide) (by decide) rfl,
   (credentials_reach_only_the_calls sampleEnv otherSecretsEnv
      (worldAnswering (.ok notFound))).2.1 "o" "r" (by decide) (by decide) rfl,
   (credentials_reach_only_the_calls sampleEnv otherSecretsEnv
      (worldAnswering (.ok (okJson 201 issueComment)))).2.2.1 "o" "r" 5 "hello" (by decide)
      (by decide) rfl,
   (credentials_reach_only_the_calls sampleEnv otherSecretsEnv
      (worldAnswering (.ok emptyStressData))).2.2.2.1 (some 3) (by decide) (by decide)
      (fun _ _ => rfl),
   (credentials_reach_only_the_calls sampleEnv otherSecretsEnv
      (worldServing helloDocument)).2.2.2.2.1 "doc" "text" (by decide) (by decide) rfl
      (fun _ => rfl),
   (credentials_reach_only_the_calls sampleEnv otherSecretsEnv creatingWorld).2.2.2.2.2
      "o" "r" 1 (by decide) (by decide) (by decide) (by decide) rfl rfl (fun _ => rfl)
      (fun _ _ => rfl)⟩

end McpServer
